import Mathlib

/-!
# flsim: race simulator and speed optimizers

A shallow embedding of the solar-car race simulator (`RaceRunner`,
`RaceSegmentRunner`, the vehicle modules) and of the two speed optimizers
(`LinearSearchOptimizer`, `BinarySearchOptimizer`).

Conventions of the embedding.

* A C++ `double` is an element of a linear ordered field `α` with exact
  arithmetic; concrete runs are evaluated over `ℚ`.
* The `<cmath>` functions the code calls (`std::sqrt`, `std::cos`, `std::sin`,
  `std::atan2`, `std::pow`) and `std::numbers::pi` are the fields of a record
  `LibM α` that every function using them takes as its first argument.
* `std::optional<T>` is `Option T`; `std::nullopt` is `none`.
* A loop is a function recursive on a fuel counter that tests the source's loop
  condition at every iteration.
-/

namespace Flsim

/-- The `<cmath>` functions used by the vehicle modules, and `std::numbers::pi`. -/
structure LibM (α : Type) where
  sqrt : α → α
  cos : α → α
  sin : α → α
  atan2 : α → α → α
  pow : α → α → α
  pi : α

/-! ## VelocityVector.hpp -/

/-- `struct VelocityVector`: private members `north_south`, `east_west`. -/
structure VelocityVector (α : Type) where
  north_south : α
  east_west : α
deriving DecidableEq, Repr

/-- `struct ApparentWindVector`. -/
structure ApparentWindVector (α : Type) where
  speed : α
  yaw : α
deriving DecidableEq, Repr

namespace VelocityVector

variable {α : Type} [LinearOrderedField α]

/-- `VelocityVector::from_cartesian_components`. -/
def from_cartesian_components (north_south east_west : α) : VelocityVector α :=
  ⟨north_south, east_west⟩

/-- `VelocityVector::from_polar_components`. -/
def from_polar_components (m : LibM α) (speed heading : α) : VelocityVector α :=
  ⟨speed * m.cos heading, speed * m.sin heading⟩

/-- `VelocityVector::get_north_south`. -/
def get_north_south (v : VelocityVector α) : α := v.north_south

/-- `VelocityVector::get_east_west`. -/
def get_east_west (v : VelocityVector α) : α := v.east_west

/-- `VelocityVector::get_magnitude`. -/
def get_magnitude (m : LibM α) (v : VelocityVector α) : α :=
  m.sqrt (v.north_south * v.north_south + v.east_west * v.east_west)

/-- `VelocityVector::get_heading`. -/
def get_heading (m : LibM α) (v : VelocityVector α) : α :=
  let angle := m.atan2 v.east_west v.north_south
  if angle < 0 then angle + 2 * m.pi else angle

/-- `VelocityVector::angle_between`. -/
def angle_between (m : LibM α) (v other : VelocityVector α) : α :=
  if get_magnitude m v = 0 ∨ get_magnitude m other = 0 then 0
  else
    m.atan2
      (v.east_west * other.north_south - v.north_south * other.east_west)
      (v.north_south * other.north_south + v.east_west * other.east_west)

end VelocityVector

/-! ## module/Aerobody, module/Tire, module/Motor, Array, module/Battery -/

/-- `class Aerobody`: members `drag_coefficient`, `frontal_area`. -/
structure Aerobody (α : Type) where
  drag_coefficient : α
  frontal_area : α

/-- `class Array`: members `array_area`, `array_efficiency` (percent). -/
structure Array (α : Type) where
  array_area : α
  array_efficiency : α

/-- `class Battery`. -/
structure Battery (α : Type) where
  energy_capacity : α
  pack_resistance : α
  min_voltage : α
  max_voltage : α

/-- `class Motor`. -/
structure Motor (α : Type) where
  hysteresis_loss : α
  eddy_current_loss_coefficient : α

/-- `class Tire`: the SAE J2452 coefficients `alpha`, `beta`, `a`, `b`, `c` and
`tire_pressure_at_stc`. -/
structure Tire (α : Type) where
  alpha : α
  beta : α
  a : α
  b : α
  c : α
  tire_pressure_at_stc : α

/-- Modelled from the spec: the aggregate `SolarCar` (its header is not among
the sources): the five modules, `mass` and `wheel_radius`. -/
structure SolarCar (α : Type) where
  aerobody : Aerobody α
  array : Array α
  battery : Battery α
  motor : Motor α
  tire : Tire α
  mass : α
  wheel_radius : α

section Modules

variable {α : Type} [LinearOrderedField α]

/-- `Aerobody::get_wind`. -/
def Aerobody.get_wind (m : LibM α) (reported_wind car_velocity : VelocityVector α) :
    ApparentWindVector α :=
  let true_wind := VelocityVector.from_cartesian_components
    (-reported_wind.get_north_south) (-reported_wind.get_east_west)
  let apparent_wind_velocity := VelocityVector.from_cartesian_components
    (true_wind.get_north_south - car_velocity.get_north_south)
    (true_wind.get_east_west - car_velocity.get_east_west)
  let apparent_wind_direction := VelocityVector.from_cartesian_components
    (-apparent_wind_velocity.get_north_south)
    (-apparent_wind_velocity.get_east_west)
  let yaw := car_velocity.angle_between m apparent_wind_direction
  { speed := apparent_wind_velocity.get_magnitude m, yaw := yaw }

/-- `Aerobody::aerodynamic_drag`. -/
def Aerobody.aerodynamic_drag (m : LibM α) (ab : Aerobody α)
    (apparent_wind : ApparentWindVector α) (air_density : α) : α :=
  let wind_component := apparent_wind.speed * m.cos apparent_wind.yaw
  (1 / 2) * air_density * wind_component * wind_component * ab.drag_coefficient * ab.frontal_area

/-- `Array::power_in`. -/
def Array.power_in (ar : Array α) (irradiance : α) : α :=
  ar.array_area * (ar.array_efficiency / 100) * irradiance

/-- `Battery::get_capacity` (declared in the header): the energy capacity. -/
def Battery.get_capacity (b : Battery α) : α := b.energy_capacity

/-- `Battery::state_of_charge`. At `energy_capacity = 0` the source divides by
zero and its result is no number; the claims about whole runs keep to packs
with a capacity that is not zero (`ArithmeticDefined`). -/
def Battery.state_of_charge (b : Battery α) (energy_remaining : α) : α :=
  energy_remaining / b.energy_capacity

/-- `Battery::current_voltage`. -/
def Battery.current_voltage (b : Battery α) (state_of_charge : α) : α :=
  b.min_voltage + state_of_charge * (b.max_voltage - b.min_voltage)

/-- `Battery::power_loss`. At `pack_resistance = 0` the source divides by zero
and its result is no number; the claims about the loss take `R > 0`, and those
about whole runs keep to packs with a resistance that is not zero
(`ArithmeticDefined`). -/
def Battery.power_loss (m : LibM α) (b : Battery α) (net_power_demanded state_of_charge : α) :
    Option α :=
  let open_circuit_voltage := b.current_voltage state_of_charge
  if net_power_demanded ≥ 0 then
    let discriminant :=
      open_circuit_voltage * open_circuit_voltage + 4 * b.pack_resistance * net_power_demanded
    if discriminant < 0 then none
    else
      let current := (-open_circuit_voltage + m.sqrt discriminant) / (2 * b.pack_resistance)
      some (current * current * b.pack_resistance)
  else
    let P_abs := -net_power_demanded
    let discriminant :=
      open_circuit_voltage * open_circuit_voltage - 4 * b.pack_resistance * P_abs
    if discriminant < 0 then none
    else
      let current := (open_circuit_voltage - m.sqrt discriminant) / (2 * b.pack_resistance)
      some (current * current * b.pack_resistance)

/-- `Motor::power_consumed` (the variant under `module/Motor`). -/
def Motor.power_consumed (mo : Motor α) (angular_speed torque : α) : α :=
  let mechanical_power := angular_speed * torque
  let eddy_current_loss := mo.eddy_current_loss_coefficient * angular_speed
  mechanical_power + mo.hysteresis_loss + eddy_current_loss

/-- `Motor::power_consumed` of the variant under `old/Motor`: the mechanical
power plus the hysteresis loss. The class is read with the members of the
variant under `module/Motor`. -/
def Old.Motor.power_consumed (mo : Motor α) (angular_speed torque : α) : α :=
  let mechanical_power := angular_speed * torque
  mechanical_power + mo.hysteresis_loss

/-- `Tire::rolling_resistance`; `tire_pressure` is the optional third argument. -/
def Tire.rolling_resistance (m : LibM α) (t : Tire α) (tire_load vehicle_speed : α)
    (tire_pressure : Option α) : α :=
  let pressure := tire_pressure.getD t.tire_pressure_at_stc
  let vehicle_speed_kmh := vehicle_speed * (36 / 10)
  let pressure_term := m.pow pressure t.alpha
  let load_term := m.pow tire_load t.beta
  let speed_term := t.a + t.b * vehicle_speed_kmh + t.c * vehicle_speed_kmh * vehicle_speed_kmh
  pressure_term * load_term * speed_term

end Modules

/-! ## RaceConfig: route, weather, schedule -/

/-- `struct GeographicalCoordinate`. -/
structure GeographicalCoordinate (α : Type) where
  latitude : α
  longitude : α

/-- `enum class SegmentEndCondition`: the variants the sources and the spec name. -/
inductive SegmentEndCondition where
  | RACE_START
  | CONTROL_STOP
  | STAGE_END
  | END_OF_RACE
deriving DecidableEq, Repr

/-- `enum class SegmentType`. -/
inductive SegmentType where
  | RACE
  | LOOP
deriving DecidableEq, Repr

/-- `struct RouteSegment`. -/
structure RouteSegment (α : Type) where
  coordinate_start : GeographicalCoordinate α
  coordinate_end : GeographicalCoordinate α
  end_condition : SegmentEndCondition
  type : SegmentType
  speed_limit : α
  weather_station : α
  distance : α
  heading : α
  elevation : α
  grade : α
  road_incline_angle : α
  sine_road_incline_angle : α
  gravity : α
  gravity_times_sine_road_incline_angle : α

/-- `class Route`: the vector `segments`. -/
structure Route (α : Type) where
  segments : List (RouteSegment α)

/-- `struct WeatherDataPoint`. -/
structure WeatherDataPoint (α : Type) where
  wind : VelocityVector α
  irradiance : α
  air_temp : α
  pressure : α
  air_density : α
  reciprocal_speed_of_sound : α

/-- `class Weather`, seen through its query `get_weather_at(weather_station, time)`.
The interpolant behind the query is built by an external library, and the query
ends the program with an exception when `time` precedes the earliest spline; a
simulator run is modelled on a weather that answers every query it makes. -/
structure Weather (α : Type) where
  get_weather_at : α → α → WeatherDataPoint α

/-- Modelled from the spec: `SingleDaySchedule` (its header is not among the
sources), a record of six times in seconds. -/
structure SingleDaySchedule (α : Type) where
  race_start_time : α
  race_end_time : α
  morning_charging_start_time : α
  morning_charging_end_time : α
  evening_charging_start_time : α
  evening_charging_end_time : α

/-- Modelled from the spec: `RaceSchedule`, the sequence of days indexed from 0. -/
abbrev RaceSchedule (α : Type) := List (SingleDaySchedule α)

section RaceConfig

variable {α : Type} [LinearOrderedField α]

/-- The value read by an out-of-range `segments[index]` (undefined behaviour in
the source; the simulator never indexes out of range). -/
def RouteSegment.zero : RouteSegment α :=
  { coordinate_start := ⟨0, 0⟩, coordinate_end := ⟨0, 0⟩,
    end_condition := SegmentEndCondition.END_OF_RACE, type := SegmentType.RACE,
    speed_limit := 0, weather_station := 0, distance := 0, heading := 0, elevation := 0,
    grade := 0, road_incline_angle := 0, sine_road_incline_angle := 0, gravity := 0,
    gravity_times_sine_road_incline_angle := 0 }

/-- `Route::get_segment`. -/
def Route.get_segment (route : Route α) (index : Nat) : RouteSegment α :=
  route.segments.getD index RouteSegment.zero

/-- `Route::get_num_segments`. -/
def Route.get_num_segments (route : Route α) : Nat := route.segments.length

/-- The member `total_distance` of `Route`: the sum of the segment distances. -/
def Route.get_total_distance (route : Route α) : α :=
  (route.segments.map (fun s => s.distance)).sum

/-- `Route::get_distance_between`; the indices are `size_t`. After the swap the
accumulation runs over `iota(index1, index2)`, which stays below
`segments.size()`. -/
def Route.get_distance_between (route : Route α) (index1 index2 : Nat) : α :=
  if index1 = index2 then 0
  else
    let swapped : Nat × Nat := if index1 > index2 then (index2, index1) else (index1, index2)
    if swapped.1 > route.segments.length ∨ swapped.2 > route.segments.length then 0
    else
      (List.range' swapped.1 (swapped.2 - swapped.1)).foldl
        (fun sum index => sum + (route.segments.getD index RouteSegment.zero).distance) 0

/-- The value read by an out-of-range `schedule[day]` (undefined behaviour in the
source; it is read only when the schedule is empty). -/
def SingleDaySchedule.zero : SingleDaySchedule α := ⟨0, 0, 0, 0, 0, 0⟩

/-- `schedule[day]`. -/
def RaceSchedule.day (schedule : RaceSchedule α) (day : Nat) : SingleDaySchedule α :=
  schedule.getD day SingleDaySchedule.zero

/-- Modelled from the spec: `WeatherDataPoint::average` (its definition is not
among the sources), the componentwise mean; the wind is averaged through its
Cartesian components. -/
def WeatherDataPoint.average (p q : WeatherDataPoint α) : WeatherDataPoint α :=
  { wind := VelocityVector.from_cartesian_components
      ((p.wind.get_north_south + q.wind.get_north_south) / 2)
      ((p.wind.get_east_west + q.wind.get_east_west) / 2),
    irradiance := (p.irradiance + q.irradiance) / 2,
    air_temp := (p.air_temp + q.air_temp) / 2,
    pressure := (p.pressure + q.pressure) / 2,
    air_density := (p.air_density + q.air_density) / 2,
    reciprocal_speed_of_sound := (p.reciprocal_speed_of_sound + q.reciprocal_speed_of_sound) / 2 }

/-- `Weather::get_weather_during`. -/
def Weather.get_weather_during (weather : Weather α) (weather_station start_time end_time : α) :
    WeatherDataPoint α :=
  let start_data := weather.get_weather_at weather_station start_time
  let end_data := weather.get_weather_at weather_station end_time
  WeatherDataPoint.average start_data end_data

end RaceConfig

/-! ### Weather.cpp: the splines behind `get_weather_at` -/

/-- `struct SplineAndStartTime`. The alglib interpolant `weather_spline` is seen
through `spline2dcalcv(weather_spline, time, weather_station, weather_data)`: it
maps `time` and `weather_station` to the array `weather_data`, read by offset. -/
structure SplineAndStartTime (α : Type) where
  start_time : α
  weather_spline : α → α → Nat → α

/-- The column offsets `CO_GHI`, … of `RaceConfigConstants.h` (not among the
sources) that `get_weather_at` reads `weather_data` at. -/
structure WeatherColumns where
  CO_GHI : Nat
  CO_WIND_VELOCITY_NS : Nat
  CO_WIND_VELOCITY_EW : Nat
  CO_AIR_TEMPERATURE_2M : Nat
  CO_SURFACE_PRESSURE : Nat
  CO_AIR_DENSITY : Nat

/-- `class Weather` with its member `weather_splines`, which the constructor
sorts by `start_time`. -/
structure SplineWeather (α : Type) where
  columns : WeatherColumns
  weather_splines : List (SplineAndStartTime α)

section WeatherSplines

variable {α : Type} [LinearOrderedField α]

namespace SplineWeather

/-- `std::upper_bound(weather_splines.begin(), weather_splines.end(), time, comp)`
with `comp(time, s) = time < s.start_time`: the position of the first spline at
which the comparison holds, the length when it holds at none. -/
def upper_bound (time : α) : List (SplineAndStartTime α) → Nat
  | [] => 0
  | s :: rest => if time < s.start_time then 0 else upper_bound time rest + 1

/-- `Weather::get_weather_at`; `none` is the `throw std::exception()`. -/
def get_weather_at (w : SplineWeather α) (weather_station time : α) :
    Option (WeatherDataPoint α) :=
  let weather_spline := upper_bound time w.weather_splines
  if weather_spline = 0 then none
  else
    (w.weather_splines.get? (weather_spline - 1)).map fun s =>
      let weather_data := s.weather_spline time weather_station
      { wind := VelocityVector.from_cartesian_components
          (weather_data w.columns.CO_WIND_VELOCITY_NS) (weather_data w.columns.CO_WIND_VELOCITY_EW),
        irradiance := weather_data w.columns.CO_GHI,
        air_temp := weather_data w.columns.CO_AIR_TEMPERATURE_2M,
        pressure := weather_data w.columns.CO_SURFACE_PRESSURE,
        air_density := weather_data w.columns.CO_AIR_DENSITY,
        reciprocal_speed_of_sound := 29154519 / 10000000000 }

end SplineWeather

end WeatherSplines

/-! ## RaceSegmentRunner.cpp -/

namespace RaceSegmentRunner

variable {α : Type} [LinearOrderedField α]

/-- `RaceSegmentRunner::calculate_resistive_force`. -/
def calculate_resistive_force (m : LibM α) (car : SolarCar α) (route_segment : RouteSegment α)
    (weather_data : WeatherDataPoint α) (speed : α) : α :=
  let tire_load := (car.mass / 3) * route_segment.gravity
  let rolling_resistance := 3 * car.tire.rolling_resistance m tire_load speed none
  let car_velocity := VelocityVector.from_polar_components m speed route_segment.heading
  let apparent_wind := Aerobody.get_wind m weather_data.wind car_velocity
  let aero_drag := car.aerobody.aerodynamic_drag m apparent_wind weather_data.air_density
  let gravitational_force := car.mass * route_segment.gravity_times_sine_road_incline_angle
  rolling_resistance + aero_drag + gravitational_force

/-- `RaceSegmentRunner::calculate_power_out`. -/
def calculate_power_out (m : LibM α) (car : SolarCar α) (route_segment : RouteSegment α)
    (weather_data : WeatherDataPoint α) (speed : α) : α :=
  let resistive_force := calculate_resistive_force m car route_segment weather_data speed
  let angular_speed := speed / car.wheel_radius
  let torque := resistive_force * car.wheel_radius
  car.motor.power_consumed angular_speed torque

/-- `RaceSegmentRunner::calculate_power_in`; the route segment is unused. -/
def calculate_power_in (car : SolarCar α) (_route_segment : RouteSegment α)
    (weather_data : WeatherDataPoint α) : α :=
  car.array.power_in weather_data.irradiance

/-- `RaceSegmentRunner::calculate_power_net`. -/
def calculate_power_net (m : LibM α) (car : SolarCar α) (route_segment : RouteSegment α)
    (weather_data : WeatherDataPoint α) (state_of_charge speed : α) : Option α :=
  let power_in := calculate_power_in car route_segment weather_data
  let power_out := calculate_power_out m car route_segment weather_data speed
  let net_power_demanded := power_out - power_in
  match car.battery.power_loss m net_power_demanded state_of_charge with
  | none => none
  | some battery_loss =>
    let net_power := net_power_demanded + battery_loss
    some (-net_power)

end RaceSegmentRunner

/-! ## RaceRunner.cpp -/

/-- The local variables of `RaceRunner::calculate_racetime` that live across
iterations of its main loop; `energy_remaining` is the content of the
`BatteryState`. -/
structure RaceState (α : Type) where
  energy_remaining : α
  total_racetime : α
  current_segment_index : Nat
  remaining_segment_distance : α
  current_day : Nat
  current_time : α

/-- What one iteration of the main loop of `calculate_racetime` ends in: the
next iteration (`continue` or the end of the body), or a `return`. -/
inductive LoopStep (α : Type) where
  | next (s : RaceState α)
  | ret (result : Option α)

namespace RaceRunner

variable {α : Type} [LinearOrderedField α] [FloorRing α]

/-- `STATIC_CHARGING_TIME_INCREMENT`. -/
def STATIC_CHARGING_TIME_INCREMENT : α := 300

/-- `CHECKPOINT_DURATION`. -/
def CHECKPOINT_DURATION : α := 1800

/-- Modelled from the spec: `BatteryState::update_energy_remaining` (its header
is not among the sources) adds the change to the energy held, without clamping. -/
def update_energy_remaining (energy_remaining delta : α) : α :=
  energy_remaining + delta

/-- The `for` loop of `calculate_static_charging_gain`, from `current_time` with
`total_energy` accumulated so far; at most `fuel` iterations. The sum
`current_time + STATIC_CHARGING_TIME_INCREMENT` is exact here; the loop with the
sum rounded as the machine rounds it is `static_charging_loop_fl`. -/
def static_charging_loop (car : SolarCar α) (weather : Weather α) (weather_station end_time : α) :
    Nat → α → α → α
  | 0, _, total_energy => total_energy
  | fuel + 1, current_time, total_energy =>
    if current_time < end_time then
      let time_end := min (current_time + STATIC_CHARGING_TIME_INCREMENT) end_time
      let time_delta := time_end - current_time
      let weather_data := weather.get_weather_during weather_station current_time time_end
      let power := car.array.power_in weather_data.irradiance
      let energy := power * time_delta / 3600
      static_charging_loop car weather weather_station end_time fuel
        (current_time + STATIC_CHARGING_TIME_INCREMENT) (total_energy + energy)
    else total_energy

/-- The iterations the loop of `calculate_static_charging_gain` makes on the
window from `start_time` to `end_time`. -/
def static_charging_steps (start_time end_time : α) : Nat :=
  Nat.ceil ((end_time - start_time) / STATIC_CHARGING_TIME_INCREMENT)

/-- `RaceRunner::calculate_static_charging_gain`. -/
def calculate_static_charging_gain (car : SolarCar α) (weather : Weather α)
    (weather_station start_time end_time : α) : α :=
  static_charging_loop car weather weather_station end_time
    (static_charging_steps start_time end_time) start_time 0

/-- The body of the `while` loop of `calculate_racetime`, entered with
`current_segment_index < total_segments`. The arithmetic is exact: at
`speed = 0`, and at the other zero divisors of a run, the source computes values
that are no numbers, and the claims about whole runs keep to inputs without
them (`speed > 0`, `ArithmeticDefined`). -/
def loop_body (m : LibM α) (car : SolarCar α) (route : Route α) (weather : Weather α)
    (schedule : RaceSchedule α) (speed : α) (s : RaceState α) : LoopStep α :=
  let segment := route.get_segment s.current_segment_index
  let today := schedule.day s.current_day
  let segment_distance :=
    if s.remaining_segment_distance > 0 then s.remaining_segment_distance else segment.distance
  if s.current_time ≥ today.race_end_time then
    let evening_charging_gain := calculate_static_charging_gain car weather segment.weather_station
      today.evening_charging_start_time today.evening_charging_end_time
    let energy := update_energy_remaining s.energy_remaining evening_charging_gain
    let current_day := s.current_day + 1
    if current_day ≥ schedule.length then LoopStep.ret none
    else
      let tomorrow := schedule.day current_day
      let morning_charging_gain := calculate_static_charging_gain car weather
        segment.weather_station
        tomorrow.morning_charging_start_time tomorrow.morning_charging_end_time
      LoopStep.next
        { energy_remaining := update_energy_remaining energy morning_charging_gain,
          total_racetime := s.total_racetime,
          current_segment_index := s.current_segment_index,
          remaining_segment_distance := 0,
          current_day := current_day,
          current_time := tomorrow.race_start_time }
  else
    let split : Prop := s.current_time + segment_distance / speed > today.race_end_time
    let time_available := today.race_end_time - s.current_time
    let remaining_segment_distance : α :=
      if split then segment_distance - speed * time_available else 0
    let segment_end_time :=
      if split then today.race_end_time else s.current_time + segment_distance / speed
    let segment_time := if split then time_available else segment_distance / speed
    let weather_data :=
      weather.get_weather_during segment.weather_station s.current_time segment_end_time
    let state_of_charge := car.battery.state_of_charge s.energy_remaining
    match RaceSegmentRunner.calculate_power_net m car segment weather_data state_of_charge speed with
    | none => LoopStep.ret none
    | some net_power =>
      let energy_change := net_power * segment_time / 3600
      let energy := update_energy_remaining s.energy_remaining energy_change
      if energy < 0 then LoopStep.ret none
      else
        let total_racetime := s.total_racetime + segment_time
        let dwell : Prop := remaining_segment_distance = 0 ∧
          segment.end_condition = SegmentEndCondition.CONTROL_STOP ∧
          segment_end_time < today.race_end_time
        let checkpoint_energy := calculate_static_charging_gain car weather
          segment.weather_station segment_end_time (segment_end_time + CHECKPOINT_DURATION)
        LoopStep.next
          { energy_remaining :=
              if dwell then update_energy_remaining energy checkpoint_energy else energy,
            total_racetime :=
              if dwell then total_racetime + CHECKPOINT_DURATION else total_racetime,
            current_segment_index :=
              if remaining_segment_distance = 0 then s.current_segment_index + 1
              else s.current_segment_index,
            remaining_segment_distance := remaining_segment_distance,
            current_day := s.current_day,
            current_time :=
              if dwell then segment_end_time + CHECKPOINT_DURATION else segment_end_time }

/-- The `while` loop of `calculate_racetime` from state `s`, at most `fuel`
iterations: `none` when the fuel runs out, else what the function returns. -/
def race_loop (m : LibM α) (car : SolarCar α) (route : Route α) (weather : Weather α)
    (schedule : RaceSchedule α) (speed : α) : Nat → RaceState α → Option (Option α)
  | 0, _ => none
  | fuel + 1, s =>
    if s.current_segment_index < route.get_num_segments then
      match loop_body m car route weather schedule speed s with
      | LoopStep.ret result => some result
      | LoopStep.next s1 => race_loop m car route weather schedule speed fuel s1
    else some (some s.total_racetime)

/-- The state `calculate_racetime` enters its main loop with. -/
def initial_state (car : SolarCar α) (schedule : RaceSchedule α) : RaceState α :=
  { energy_remaining := car.battery.get_capacity,
    total_racetime := 0,
    current_segment_index := 0,
    remaining_segment_distance := 0,
    current_day := 0,
    current_time := (schedule.day 0).race_start_time }

/-- A number of iterations the main loop of `calculate_racetime` never exceeds
(`race_loop_enough_fuel`). -/
def race_fuel (route : Route α) (schedule : RaceSchedule α) : Nat :=
  2 * (schedule.length + route.get_num_segments) + 2

/-- `RaceRunner::calculate_racetime`: `none` is `std::nullopt` (infeasible). -/
def calculate_racetime (m : LibM α) (car : SolarCar α) (route : Route α) (weather : Weather α)
    (schedule : RaceSchedule α) (speed : α) : Option α :=
  (race_loop m car route weather schedule speed (race_fuel route schedule)
    (initial_state car schedule)).join

end RaceRunner

/-! ## Optimizer: LinearSearchOptimizer.cpp, BinarySearchOptimizer.cpp -/

/-- `Optimizer::OptimizationOutput`. -/
structure OptimizationOutput (α : Type) where
  racetime : α
  speed : α
deriving DecidableEq, Repr

namespace LinearSearchOptimizer

variable {α : Type} [LinearOrderedField α] [FloorRing α]

/-- The `for` loop of `LinearSearchOptimizer::optimize_race` from `speed`, with the
best pair found so far; `sim` is the simulator at the optimizer's car, route,
weather and schedule. At most `fuel` iterations: `none` when the fuel runs out,
else `(best_speed, best_racetime)` at the exit of the loop. The increment
`speed += speed_step` is exact here; the loop with the increment rounded as the
machine rounds it is `sweep_fl`. -/
def sweep (sim : α → Option α) (maximum_speed speed_step : α) :
    Nat → α → α → α → Option (α × α)
  | 0, _, _, _ => none
  | fuel + 1, speed, best_speed, best_racetime =>
    if speed ≤ maximum_speed then
      match sim speed with
      | some racetime => sweep sim maximum_speed speed_step fuel (speed + speed_step) speed racetime
      | none =>
        sweep sim maximum_speed speed_step fuel (speed + speed_step) best_speed best_racetime
    else some (best_speed, best_racetime)

/-- `LinearSearchOptimizer::optimize_race` over a simulator `sim`: `none` when the
loop outlasts `fuel` iterations, else the value returned. -/
def search (sim : α → Option α) (minimum_speed maximum_speed speed_step : α) (fuel : Nat) :
    Option (Option (OptimizationOutput α)) :=
  match sweep sim maximum_speed speed_step fuel minimum_speed 0 0 with
  | none => none
  | some (best_speed, best_racetime) =>
    if best_speed = 0 then some none
    else some (some { racetime := best_racetime, speed := best_speed })

/-- `LinearSearchOptimizer::optimize_race`, the simulator being
`RaceRunner::calculate_racetime` at the optimizer's members. -/
def optimize_race (m : LibM α) (car : SolarCar α) (weather : Weather α) (route : Route α)
    (schedule : RaceSchedule α) (minimum_speed maximum_speed speed_step : α) (fuel : Nat) :
    Option (Option (OptimizationOutput α)) :=
  search (fun speed => RaceRunner.calculate_racetime m car route weather schedule speed)
    minimum_speed maximum_speed speed_step fuel

/-- Iterations that suffice for the sweep when `speed_step > 0`. -/
def sweep_fuel (minimum_speed maximum_speed speed_step : α) : Nat :=
  Nat.floor ((maximum_speed - minimum_speed) / speed_step) + 2

end LinearSearchOptimizer

namespace BinarySearchOptimizer

variable {α : Type} [LinearOrderedField α] [FloorRing α]

/-- The `while` loop of `BinarySearchOptimizer::optimize_race` from the bracket
`low`, `high` with the best pair found so far. At most `fuel` iterations: `none`
when the fuel runs out, else `(low, high, best_speed, best_racetime)` at exit.
The midpoint is exact here; the loop with the midpoint rounded as the machine
rounds it is `bisect_fl`. -/
def bisect (sim : α → Option α) (precision : α) :
    Nat → α → α → α → α → Option (α × α × α × α)
  | 0, _, _, _, _ => none
  | fuel + 1, low, high, best_speed, best_racetime =>
    if high - low > precision then
      let mid := (low + high) / 2
      match sim mid with
      | some racetime => bisect sim precision fuel mid high mid racetime
      | none => bisect sim precision fuel low mid best_speed best_racetime
    else some (low, high, best_speed, best_racetime)

/-- `BinarySearchOptimizer::optimize_race` over a simulator `sim`: `none` when the
loop outlasts `fuel` iterations, else the value returned. -/
def search (sim : α → Option α) (minimum_speed maximum_speed precision : α) (fuel : Nat) :
    Option (Option (OptimizationOutput α)) :=
  match bisect sim precision fuel minimum_speed maximum_speed 0 0 with
  | none => none
  | some (_, _, best_speed, best_racetime) =>
    if best_speed = 0 then some none
    else
      match sim best_speed with
      | some _ => some (some { racetime := best_racetime, speed := best_speed })
      | none =>
        match sim (best_speed - precision) with
        | none => some none
        | some fallback => some (some { racetime := fallback, speed := best_speed - precision })

/-- `BinarySearchOptimizer::optimize_race`, the simulator being
`RaceRunner::calculate_racetime` at the optimizer's members. -/
def optimize_race (m : LibM α) (car : SolarCar α) (weather : Weather α) (route : Route α)
    (schedule : RaceSchedule α) (minimum_speed maximum_speed precision : α) (fuel : Nat) :
    Option (Option (OptimizationOutput α)) :=
  search (fun speed => RaceRunner.calculate_racetime m car route weather schedule speed)
    minimum_speed maximum_speed precision fuel

end BinarySearchOptimizer

/-! ## The counting loops in machine arithmetic

The loops of the two optimizers and of `calculate_static_charging_gain` advance
a `double` by a computed amount: `speed += speed_step`, `(low + high) / 2.0`,
`current_time += STATIC_CHARGING_TIME_INCREMENT`. What the machine stores is the
double nearest to the exact result; `fl` is that rounding, and
`round_to_double` below is the rounding of IEEE 754. With `fl` the identity
these are the loops above. Whether such a loop ends, and which values it
visits, depends on the rounding: a sum that rounds back to the value it started
from stops the loop variable. The other operations of the loops stay exact,
their rounding moves a result by a unit in the last place and no more. -/

namespace LinearSearchOptimizer

variable {α : Type} [LinearOrderedField α]

/-- The `for` loop of `LinearSearchOptimizer::optimize_race` with its increment
`speed += speed_step` rounded by `fl`. -/
def sweep_fl (fl : α → α) (sim : α → Option α) (maximum_speed speed_step : α) :
    Nat → α → α → α → Option (α × α)
  | 0, _, _, _ => none
  | fuel + 1, speed, best_speed, best_racetime =>
    if speed ≤ maximum_speed then
      match sim speed with
      | some racetime =>
        sweep_fl fl sim maximum_speed speed_step fuel (fl (speed + speed_step)) speed racetime
      | none =>
        sweep_fl fl sim maximum_speed speed_step fuel (fl (speed + speed_step)) best_speed
          best_racetime
    else some (best_speed, best_racetime)

/-- `LinearSearchOptimizer::optimize_race` over a simulator `sim`, the increment
of the loop rounded by `fl`. -/
def search_fl (fl : α → α) (sim : α → Option α) (minimum_speed maximum_speed speed_step : α)
    (fuel : Nat) : Option (Option (OptimizationOutput α)) :=
  match sweep_fl fl sim maximum_speed speed_step fuel minimum_speed 0 0 with
  | none => none
  | some (best_speed, best_racetime) =>
    if best_speed = 0 then some none
    else some (some { racetime := best_racetime, speed := best_speed })

/-- `LinearSearchOptimizer::optimize_race` with the increment of its loop rounded
by `fl`, the simulator being `RaceRunner::calculate_racetime`. -/
def optimize_race_fl [FloorRing α] (fl : α → α) (m : LibM α) (car : SolarCar α)
    (weather : Weather α) (route : Route α) (schedule : RaceSchedule α)
    (minimum_speed maximum_speed speed_step : α) (fuel : Nat) :
    Option (Option (OptimizationOutput α)) :=
  search_fl fl (fun speed => RaceRunner.calculate_racetime m car route weather schedule speed)
    minimum_speed maximum_speed speed_step fuel

end LinearSearchOptimizer

namespace BinarySearchOptimizer

variable {α : Type} [LinearOrderedField α]

/-- The `while` loop of `BinarySearchOptimizer::optimize_race` with its midpoint
`(low + high) / 2.0` rounded by `fl`. The machine rounds the sum and halves it;
halving a double is exact, so that is the rounding of the exact midpoint. -/
def bisect_fl (fl : α → α) (sim : α → Option α) (precision : α) :
    Nat → α → α → α → α → Option (α × α × α × α)
  | 0, _, _, _, _ => none
  | fuel + 1, low, high, best_speed, best_racetime =>
    if high - low > precision then
      let mid := fl ((low + high) / 2)
      match sim mid with
      | some racetime => bisect_fl fl sim precision fuel mid high mid racetime
      | none => bisect_fl fl sim precision fuel low mid best_speed best_racetime
    else some (low, high, best_speed, best_racetime)

/-- `BinarySearchOptimizer::optimize_race` over a simulator `sim`, the midpoint of
the loop and the step back rounded by `fl`. -/
def search_fl (fl : α → α) (sim : α → Option α) (minimum_speed maximum_speed precision : α)
    (fuel : Nat) : Option (Option (OptimizationOutput α)) :=
  match bisect_fl fl sim precision fuel minimum_speed maximum_speed 0 0 with
  | none => none
  | some (_, _, best_speed, best_racetime) =>
    if best_speed = 0 then some none
    else
      match sim best_speed with
      | some _ => some (some { racetime := best_racetime, speed := best_speed })
      | none =>
        match sim (fl (best_speed - precision)) with
        | none => some none
        | some fallback =>
          some (some { racetime := fallback, speed := fl (best_speed - precision) })

end BinarySearchOptimizer

namespace RaceRunner

variable {α : Type} [LinearOrderedField α]

end RaceRunner

/-! ### The rounding of doubles -/

/-- Rounding of a rational to the nearest integer, a tie going to the even one. -/
def round_half_even (q : ℚ) : ℤ :=
  if q - ⌊q⌋ < 1 / 2 then ⌊q⌋
  else if 1 / 2 < q - ⌊q⌋ then ⌊q⌋ + 1
  else if ⌊q⌋ % 2 = 0 then ⌊q⌋ else ⌊q⌋ + 1

/-- The double nearest to a rational (IEEE 754 binary64, round to nearest, ties
to even): 53 significant bits at the binary exponent of `x`, which is at least
-1022. The largest double is not modelled: a sum beyond it is `inf` in the
program. -/
def round_to_double (x : ℚ) : ℚ :=
  if x = 0 then 0
  else
    (round_half_even (x / 2 ^ (max (Int.log 2 |x|) (-1022) - 52)) : ℚ)
      * 2 ^ (max (Int.log 2 |x|) (-1022) - 52)

/-! # Specification predicates and example inputs -/

section Predicates

variable {α : Type} [LinearOrderedField α]

/-- What the bisection keeps about the best pair: either nothing was found yet
(the pair is still `(0, 0)` and `low` is still `minimum_speed`), or `best_speed`
is `low`, a probed midpoint above `minimum_speed` at which the simulator
returned `best_racetime`. -/
def BinarySearchOptimizer.BestInv (sim : α → Option α) (minimum_speed low best_speed
    best_racetime : α) : Prop :=
  (best_speed = 0 ∧ best_racetime = 0 ∧ low = minimum_speed) ∨
    (best_speed = low ∧ minimum_speed < low ∧ sim low = some best_racetime)

/-- Feasibility of a simulator is monotone non-increasing in speed on the
interval from `minimum_speed` to `maximum_speed`: below a feasible speed of the
interval, every speed of the interval is feasible. -/
def MonotoneFeasible (sim : α → Option α) (minimum_speed maximum_speed : α) : Prop :=
  ∀ v1 v2, minimum_speed ≤ v1 → v1 ≤ v2 → v2 ≤ maximum_speed → sim v2 ≠ none → sim v1 ≠ none

/-- The measure that decreases at every iteration of the main loop: the days
left and the segments left, and whether the clock is before today's race end. -/
def RaceRunner.loop_measure (route : Route α) (schedule : RaceSchedule α) (s : RaceState α) : Nat :=
  2 * (schedule.length - s.current_day) + 2 * (route.get_num_segments - s.current_segment_index)
    + (if s.current_time < (schedule.day s.current_day).race_end_time then 1 else 0)

/-- The time the listed segments take at `speed` when none is split: the
driving time of each and the dwell after each CONTROL_STOP. -/
def RaceRunner.day_need (speed : α) (segments : List (RouteSegment α)) : α :=
  (segments.map (fun s => s.distance / speed +
    if s.end_condition = SegmentEndCondition.CONTROL_STOP then CHECKPOINT_DURATION else 0)).sum

/-- The route with the end condition of segment `k` set to CONTROL_STOP. -/
def Route.mark_control_stop (route : Route α) (k : Nat) : Route α :=
  ⟨route.segments.set k
    { route.get_segment k with end_condition := SegmentEndCondition.CONTROL_STOP }⟩

/-- The libm of the real numbers: `std::sqrt`, `std::cos`, `std::sin`,
`std::atan2`, `std::pow` and `std::numbers::pi` computed exactly. `atan2 y x` is
the argument of the point `(x, y)`, in `(-π, π]`, and 0 at the origin. -/
def LibM.IsReal (m : LibM ℝ) : Prop :=
  m.sqrt = Real.sqrt ∧ m.cos = Real.cos ∧ m.sin = Real.sin ∧
    (∀ y x, m.atan2 y x = Complex.arg ⟨x, y⟩) ∧ (∀ x y, m.pow x y = x ^ y) ∧ m.pi = Real.pi

/-- The array and the irradiance are non-negative: charging never takes energy. -/
def NonnegCharging (car : SolarCar α) (weather : Weather α) : Prop :=
  0 ≤ car.array.array_area ∧ 0 ≤ car.array.array_efficiency ∧
    ∀ station time, 0 ≤ (weather.get_weather_at station time).irradiance

/-- The data point `get_weather_at` builds from the array a spline returns. -/
def SplineWeather.data_point (columns : WeatherColumns) (weather_data : Nat → α) : WeatherDataPoint α :=
  { wind := VelocityVector.from_cartesian_components
      (weather_data columns.CO_WIND_VELOCITY_NS) (weather_data columns.CO_WIND_VELOCITY_EW),
    irradiance := weather_data columns.CO_GHI,
    air_temp := weather_data columns.CO_AIR_TEMPERATURE_2M,
    pressure := weather_data columns.CO_SURFACE_PRESSURE,
    air_density := weather_data columns.CO_AIR_DENSITY,
    reciprocal_speed_of_sound := 29154519 / 10000000000 }

/-- The checkpoint dwells one iteration of the main loop takes: 1 when it
reaches the dwell, else 0. -/
def RaceRunner.loop_body_dwells [FloorRing α] (m : LibM α) (car : SolarCar α) (route : Route α)
    (weather : Weather α) (schedule : RaceSchedule α) (speed : α) (s : RaceState α) : Nat :=
  let segment := route.get_segment s.current_segment_index
  let today := schedule.day s.current_day
  let segment_distance :=
    if s.remaining_segment_distance > 0 then s.remaining_segment_distance else segment.distance
  if s.current_time ≥ today.race_end_time then 0
  else
    let split : Prop := s.current_time + segment_distance / speed > today.race_end_time
    let time_available := today.race_end_time - s.current_time
    let remaining_segment_distance : α :=
      if split then segment_distance - speed * time_available else 0
    let segment_end_time :=
      if split then today.race_end_time else s.current_time + segment_distance / speed
    let segment_time := if split then time_available else segment_distance / speed
    let weather_data :=
      weather.get_weather_during segment.weather_station s.current_time segment_end_time
    let state_of_charge := car.battery.state_of_charge s.energy_remaining
    match RaceSegmentRunner.calculate_power_net m car segment weather_data state_of_charge speed with
    | none => 0
    | some net_power =>
      let energy := update_energy_remaining s.energy_remaining (net_power * segment_time / 3600)
      let dwell : Prop := remaining_segment_distance = 0 ∧
        segment.end_condition = SegmentEndCondition.CONTROL_STOP ∧
        segment_end_time < today.race_end_time
      if energy < 0 then 0 else if dwell then 1 else 0

/-- The checkpoint dwells taken in a run of the main loop from state `s`. -/
def RaceRunner.race_dwells [FloorRing α] (m : LibM α) (car : SolarCar α) (route : Route α)
    (weather : Weather α) (schedule : RaceSchedule α) (speed : α) : Nat → RaceState α → Nat
  | 0, _ => 0
  | fuel + 1, s =>
    if s.current_segment_index < route.get_num_segments then
      loop_body_dwells m car route weather schedule speed s +
        match loop_body m car route weather schedule speed s with
        | LoopStep.ret _ => 0
        | LoopStep.next s1 => race_dwells m car route weather schedule speed fuel s1
    else 0

/-- The checkpoint dwells taken in a run of `calculate_racetime`. -/
def RaceRunner.dwells_taken [FloorRing α] (m : LibM α) (car : SolarCar α) (route : Route α)
    (weather : Weather α) (schedule : RaceSchedule α) (speed : α) : Nat :=
  race_dwells m car route weather schedule speed (race_fuel route schedule)
    (initial_state car schedule)

end Predicates

/-! ## Example inputs -/

namespace Example

/-- A libm over `ℚ` for the examples. The square root is exact on the squares of
rationals. The other functions are first-order stand-ins; the example cars have
zero drag and tyre coefficients, so that no value computed in an example depends
on them. -/
def libm : LibM ℚ :=
  { sqrt := Rat.sqrt,
    cos := fun x => 1 - x * x / 2,
    sin := fun x => x,
    atan2 := fun y x => if x = 0 then 0 else y / x,
    pow := fun x y => 1 + y * (x - 1),
    pi := 22 / 7 }

/-- A car without array, without motor losses, without drag and without rolling
resistance: on level road it neither draws nor stores energy. Pack of 1000 Wh,
1 Ω, 100 V at every state of charge. -/
def idle_car : SolarCar ℚ :=
  { aerobody := ⟨0, 1⟩, array := ⟨0, 0⟩, battery := ⟨1000, 1, 100, 100⟩, motor := ⟨0, 0⟩,
    tire := ⟨0, 0, 0, 0, 0, 100⟩, mass := 100, wheel_radius := 1 }

/-- The idle car with an array of 1 m² at 100 % efficiency and a 200 V pack. -/
def solar_car : SolarCar ℚ :=
  { aerobody := ⟨0, 1⟩, array := ⟨1, 100⟩, battery := ⟨1000, 1, 200, 200⟩, motor := ⟨0, 0⟩,
    tire := ⟨0, 0, 0, 0, 0, 100⟩, mass := 100, wheel_radius := 1 }

/-- The idle car with a motor losing 101 W to hysteresis and a pack of 1 Wh. -/
def lossy_car : SolarCar ℚ :=
  { aerobody := ⟨0, 1⟩, array := ⟨0, 0⟩, battery := ⟨1, 1, 100, 100⟩, motor := ⟨101, 0⟩,
    tire := ⟨0, 0, 0, 0, 0, 100⟩, mass := 100, wheel_radius := 1 }

/-- A level segment of the given distance and end condition, heading north. -/
def level_segment (distance : ℚ) (end_condition : SegmentEndCondition) : RouteSegment ℚ :=
  { RouteSegment.zero with distance := distance, end_condition := end_condition, gravity := 10 }

/-- Weather without wind and with the given constant irradiance. -/
def still_weather (irradiance : ℚ) : Weather ℚ :=
  ⟨fun _ _ => ⟨⟨0, 0⟩, irradiance, 0, 0, 1, 0⟩⟩

/-- A day racing from `race_start` to `race_end`, with charging windows of 100 s
around it. -/
def race_day (race_start race_end : ℚ) : SingleDaySchedule ℚ :=
  ⟨race_start, race_end, race_start - 200, race_start - 100, race_end + 100, race_end + 200⟩

/-- A simulator feasible exactly at the speeds up to `limit`. -/
def toy_sim (limit : ℚ) : ℚ → Option ℚ := fun v => if v ≤ limit then some (100 - v) else none

/-- The car of scenario S1. -/
def s1_car (α : Type) [LinearOrderedField α] : SolarCar α :=
  { aerobody := ⟨541143 / 100000000, 342548 / 100000⟩,
    array := ⟨463645 / 100000, 223886 / 10000⟩,
    battery := ⟨610503 / 100, 660223 / 1000000, 713779 / 10000, 148606 / 1000⟩,
    motor := ⟨286961 / 100000, 171711 / 100000000⟩,
    tire := ⟨-877003 / 100000, 768916 / 100000, 565872 / 100000, -702049 / 100000000000,
      175593 / 1000000, 181903 / 1000⟩,
    mass := 159339 / 1000,
    wheel_radius := 374048 / 1000000 }

/-- The route segment of scenario S1. -/
def s1_segment (α : Type) [LinearOrderedField α] : RouteSegment α :=
  { coordinate_start := ⟨570574 / 10000, -155825 / 10000⟩,
    coordinate_end := ⟨88342 / 1000, 133793 / 1000⟩,
    end_condition := SegmentEndCondition.END_OF_RACE,
    type := SegmentType.RACE,
    speed_limit := 554993 / 100000,
    weather_station := 587616 / 100000,
    distance := 673111 / 10000,
    heading := 518201 / 100000,
    elevation := 425319 / 1000,
    grade := -394923 / 10000000,
    road_incline_angle := -403056 / 1000000,
    sine_road_incline_angle := -392231 / 1000000,
    gravity := 980449 / 100000,
    gravity_times_sine_road_incline_angle := -384563 / 100000 }

/-- The weather of scenario S1; the wind is built from its polar components. -/
def s1_weather {α : Type} [LinearOrderedField α] (m : LibM α) : WeatherDataPoint α :=
  { wind := VelocityVector.from_polar_components m (138307 / 10000) (390525 / 100000),
    irradiance := 215042 / 1000,
    air_temp := -161146 / 10000,
    pressure := 105643 / 100,
    air_density := 120163 / 100000,
    reciprocal_speed_of_sound := 297626 / 100000000 }

/-- The solar car of the examples over any field: an array of 1 m² at 100 %
efficiency, a pack of 1000 Wh, 1 Ω and 200 V, no losses, no drag, no rolling
resistance. -/
def solar_car_over (α : Type) [LinearOrderedField α] : SolarCar α :=
  { aerobody := ⟨0, 1⟩, array := ⟨1, 100⟩, battery := ⟨1000, 1, 200, 200⟩, motor := ⟨0, 0⟩,
    tire := ⟨0, 0, 0, 0, 0, 100⟩, mass := 100, wheel_radius := 1 }

end Example

section RunPredicates
variable {α : Type} [LinearOrderedField α]

end RunPredicates

namespace Example

/-- A segment of the given distance and end condition that climbs: the weight
of 1 kg along the road is 6.25 N, so that the cars of the examples, of 100 kg,
meet a resistive force of 625 N. -/
def climb_segment (distance : ℚ) (end_condition : SegmentEndCondition) : RouteSegment ℚ :=
  { level_segment distance end_condition with gravity_times_sine_road_incline_angle := 25 / 4 }

/-- A weather without wind that is dark but for a break of 1200 W/m² from 1300 s
to 1400 s. -/
def sunbreak_weather : Weather ℚ :=
  ⟨fun _ time => ⟨⟨0, 0⟩, if 1300 ≤ time ∧ time ≤ 1400 then 1200 else 0, 0, 0, 1, 0⟩⟩

end Example

/-! # Properties of the loops -/

/-! ## The linear sweep -/

section Linear

variable {α : Type} [LinearOrderedField α]

/-- The sweep from `speed` with `n + 1` units of fuel ends when `speed + n * speed_step`
is past `maximum_speed`, keeps the pair it was given when no grid speed is
feasible, and otherwise ends on the largest feasible grid speed. -/
theorem LinearSearchOptimizer.sweep_spec (sim : α → Option α) (maximum_speed speed_step : α)
    (hstep : 0 < speed_step) :
    ∀ (n : Nat) (speed best_speed best_racetime : α), maximum_speed < speed + n * speed_step →
      ∃ bs br, sweep sim maximum_speed speed_step (n + 1) speed best_speed best_racetime
          = some (bs, br) ∧
        ((∀ j : Nat, speed + j * speed_step ≤ maximum_speed →
            sim (speed + j * speed_step) = none) → bs = best_speed ∧ br = best_racetime) ∧
        (∀ j : Nat, speed + j * speed_step ≤ maximum_speed →
            sim (speed + j * speed_step) ≠ none →
            speed + j * speed_step ≤ bs ∧
              ∃ k : Nat, bs = speed + k * speed_step ∧ bs ≤ maximum_speed ∧ sim bs = some br) := by
  intro n
  induction n with
  | zero =>
    intro speed bs0 br0 h
    have hlt : ¬ speed ≤ maximum_speed := by simpa using h
    refine ⟨bs0, br0, by simp [sweep, hlt], fun _ => ⟨rfl, rfl⟩, ?_⟩
    intro j hj
    exfalso
    have : 0 ≤ (j : α) * speed_step := mul_nonneg (Nat.cast_nonneg j) hstep.le
    linarith [not_le.mp hlt]
  | succ n ih =>
    intro speed bs0 br0 h
    have hshift : ∀ j : Nat, speed + speed_step + j * speed_step
        = speed + ((j + 1 : Nat) : α) * speed_step := by
      intro j; push_cast; ring
    have hfuel : maximum_speed < speed + speed_step + n * speed_step := by
      rw [hshift]; exact h
    by_cases hle : speed ≤ maximum_speed
    · cases hsim : sim speed with
      | none =>
        obtain ⟨bs, br, hrun, hnone, hbest⟩ := ih (speed + speed_step) bs0 br0 hfuel
        refine ⟨bs, br, ?_, ?_, ?_⟩
        · rw [sweep]; simp only [hle, if_true, hsim]; exact hrun
        · intro hall
          apply hnone
          intro j hj
          rw [hshift] at hj ⊢
          exact hall _ hj
        · intro j hj hfeas
          cases j with
          | zero => simp [hsim] at hfeas
          | succ j =>
            rw [← hshift] at hj hfeas
            obtain ⟨hb, k, hk, hkm, hks⟩ := hbest j hj hfeas
            rw [← hshift]
            exact ⟨hb, k + 1, by rw [hk, hshift], hkm, hks⟩
      | some rt =>
        obtain ⟨bs, br, hrun, hnone, hbest⟩ := ih (speed + speed_step) speed rt hfuel
        refine ⟨bs, br, ?_, ?_, ?_⟩
        · rw [sweep]; simp only [hle, if_true, hsim]; exact hrun
        · intro hall
          have := hall 0 (by simpa using hle)
          simp [hsim] at this
        · by_cases hrest : ∀ j : Nat, speed + speed_step + j * speed_step ≤ maximum_speed →
              sim (speed + speed_step + j * speed_step) = none
          · obtain ⟨hb1, hb2⟩ := hnone hrest
            intro j hj hfeas
            cases j with
            | zero =>
              refine ⟨by simp [hb1], 0, by simp [hb1], by rw [hb1]; exact hle, ?_⟩
              rw [hb1, hb2]; exact hsim
            | succ j =>
              rw [← hshift] at hj hfeas
              exact absurd (hrest j hj) hfeas
          · push_neg at hrest
            obtain ⟨j0, hj0, hf0⟩ := hrest
            obtain ⟨hb0, k, hk, hkm, hks⟩ := hbest j0 hj0 hf0
            intro j hj hfeas
            have hex : ∃ k : Nat, bs = speed + k * speed_step ∧ bs ≤ maximum_speed ∧
                sim bs = some br := ⟨k + 1, by rw [hk, hshift], hkm, hks⟩
            cases j with
            | zero =>
              refine ⟨?_, hex⟩
              have : 0 ≤ (j0 : α) * speed_step := mul_nonneg (Nat.cast_nonneg j0) hstep.le
              simp only [Nat.cast_zero, zero_mul, add_zero]
              linarith
            | succ j =>
              rw [← hshift] at hj hfeas ⊢
              exact ⟨(hbest j hj hfeas).1, hex⟩
    · refine ⟨bs0, br0, by simp [sweep, hle], fun _ => ⟨rfl, rfl⟩, ?_⟩
      intro j hj
      exfalso
      have : 0 ≤ (j : α) * speed_step := mul_nonneg (Nat.cast_nonneg j) hstep.le
      linarith [not_le.mp hle]

end Linear

/-! ## The bisection -/

section Binary

variable {α : Type} [LinearOrderedField α]

/-- Invariants of the bisection loop at its exit, for any simulator. -/
theorem BinarySearchOptimizer.bisect_spec (sim : α → Option α) (minimum_speed maximum_speed
    precision : α) (hp : 0 < precision) :
    ∀ (fuel : Nat) (low high bs br l h b r : α),
      minimum_speed ≤ low → low ≤ high → high ≤ maximum_speed →
      BestInv sim minimum_speed low bs br →
      (high = maximum_speed ∨ sim high = none) →
      bisect sim precision fuel low high bs br = some (l, h, b, r) →
      minimum_speed ≤ l ∧ l ≤ h ∧ h ≤ maximum_speed ∧ h - l ≤ precision ∧
        BestInv sim minimum_speed l b r ∧ (h = maximum_speed ∨ sim h = none) := by
  intro fuel
  induction fuel with
  | zero => intro low high bs br l h b r _ _ _ _ _ hrun; simp [bisect] at hrun
  | succ n ih =>
    intro low high bs br l h b r h1 h2 h3 hinv hhigh hrun
    rw [bisect] at hrun
    by_cases hw : high - low > precision
    · simp only [hw, if_true] at hrun
      have hlm : low < (low + high) / 2 := by linarith
      have hmh : (low + high) / 2 < high := by linarith
      cases hsim : sim ((low + high) / 2) with
      | none =>
        simp only [hsim] at hrun
        exact ih low ((low + high) / 2) bs br l h b r h1 hlm.le (by linarith) hinv
          (Or.inr hsim) hrun
      | some rt =>
        simp only [hsim] at hrun
        exact ih ((low + high) / 2) high ((low + high) / 2) rt l h b r (by linarith) hmh.le h3
          (Or.inr ⟨rfl, by linarith, hsim⟩) hhigh hrun
    · simp only [hw, if_false, Option.some.injEq, Prod.mk.injEq] at hrun
      obtain ⟨rfl, rfl, rfl, rfl⟩ := hrun
      exact ⟨h1, h2, h3, not_lt.mp hw, hinv, hhigh⟩

/-- The best pair of the bisection is a simulator outcome, whatever the bracket. -/
theorem BinarySearchOptimizer.bisect_best (sim : α → Option α) (precision : α) :
    ∀ (fuel : Nat) (low high bs br l h b r : α),
      (bs = 0 ∨ sim bs = some br) →
      bisect sim precision fuel low high bs br = some (l, h, b, r) →
      b = 0 ∨ sim b = some r := by
  intro fuel
  induction fuel with
  | zero => intro low high bs br l h b r _ hrun; simp [bisect] at hrun
  | succ n ih =>
    intro low high bs br l h b r hinv hrun
    rw [bisect] at hrun
    by_cases hw : high - low > precision
    · simp only [hw, if_true] at hrun
      cases hsim : sim ((low + high) / 2) with
      | none =>
        simp only [hsim] at hrun
        exact ih _ _ _ _ l h b r hinv hrun
      | some rt =>
        simp only [hsim] at hrun
        exact ih _ _ _ _ l h b r (Or.inr hsim) hrun
    · simp only [hw, if_false, Option.some.injEq, Prod.mk.injEq] at hrun
      obtain ⟨rfl, rfl, rfl, rfl⟩ := hrun
      exact hinv

end Binary

/-! ## The two searches -/

section Optimizers

variable {α : Type} [LinearOrderedField α]

/-- The linear search over any simulator: with enough fuel it returns; it returns
NONE exactly when no grid speed is feasible, and otherwise the largest feasible
grid speed with the simulator's racetime there. -/
theorem LinearSearchOptimizer.search_spec [FloorRing α] (sim : α → Option α)
    (minimum_speed maximum_speed speed_step : α) (hmin : 0 < minimum_speed)
    (hstep : 0 < speed_step) (fuel : Nat)
    (hfuel : sweep_fuel minimum_speed maximum_speed speed_step ≤ fuel) :
    ∃ r, search sim minimum_speed maximum_speed speed_step fuel = some r ∧
      (r = none ↔ ∀ k : Nat, minimum_speed + k * speed_step ≤ maximum_speed →
        sim (minimum_speed + k * speed_step) = none) ∧
      (∀ T s, r = some ⟨T, s⟩ →
        (∃ k : Nat, s = minimum_speed + k * speed_step) ∧ s ≤ maximum_speed ∧ sim s = some T ∧
        ∀ k : Nat, minimum_speed + k * speed_step ≤ maximum_speed →
          sim (minimum_speed + k * speed_step) ≠ none → minimum_speed + k * speed_step ≤ s) := by
  obtain ⟨n, rfl⟩ : ∃ n, fuel = n + 1 := ⟨fuel - 1, by unfold sweep_fuel at hfuel; omega⟩
  have hn : Nat.floor ((maximum_speed - minimum_speed) / speed_step) + 1 ≤ n := by
    unfold sweep_fuel at hfuel; omega
  have hlt : maximum_speed < minimum_speed + n * speed_step := by
    have h1 : (maximum_speed - minimum_speed) / speed_step < (n : α) :=
      (Nat.lt_floor_add_one _).trans_le (by exact_mod_cast hn)
    have := (div_lt_iff₀ hstep).mp h1
    linarith
  obtain ⟨bs, br, hrun, hnone, hbest⟩ :=
    sweep_spec sim maximum_speed speed_step hstep n minimum_speed 0 0 hlt
  have hpos : ∀ k : Nat, 0 < minimum_speed + k * speed_step := fun k =>
    add_pos_of_pos_of_nonneg hmin (mul_nonneg (Nat.cast_nonneg k) hstep.le)
  by_cases hall : ∀ k : Nat, minimum_speed + k * speed_step ≤ maximum_speed →
      sim (minimum_speed + k * speed_step) = none
  · obtain ⟨hb, _⟩ := hnone hall
    refine ⟨none, by simp [search, hrun, hb], by simpa using hall, ?_⟩
    intro T s h; cases h
  · have hall2 := hall
    push_neg at hall2
    obtain ⟨j, hj, hf⟩ := hall2
    obtain ⟨_, k, hk, hkm, hks⟩ := hbest j hj hf
    have hne : bs ≠ 0 := by rw [hk]; exact (hpos k).ne'
    refine ⟨some ⟨br, bs⟩, by simp [search, hrun, hne], by simpa using hall, ?_⟩
    intro T s h
    simp only [Option.some.injEq, OptimizationOutput.mk.injEq] at h
    obtain ⟨rfl, rfl⟩ := h
    exact ⟨⟨k, hk⟩, hkm, hks, fun i hi hfi => (hbest i hi hfi).1⟩

/-- A result of the binary search over any simulator is an outcome of that simulator. -/
theorem BinarySearchOptimizer.search_result_feasible (sim : α → Option α)
    (minimum_speed maximum_speed precision : α) (fuel : Nat) (T s : α)
    (h : search sim minimum_speed maximum_speed precision fuel = some (some ⟨T, s⟩)) :
    sim s = some T := by
  unfold search at h
  cases hb : bisect sim precision fuel minimum_speed maximum_speed 0 0 with
  | none => simp [hb] at h
  | some res =>
    obtain ⟨l, hh, b, r⟩ := res
    have hbest := bisect_best sim precision fuel _ _ _ _ l hh b r (Or.inl rfl) hb
    simp only [hb] at h
    by_cases hb0 : b = 0
    · simp [hb0] at h
    · simp only [hb0, if_false] at h
      have hsb : sim b = some r := hbest.resolve_left hb0
      simp only [hsb, Option.some.injEq, OptimizationOutput.mk.injEq] at h
      obtain ⟨rfl, rfl⟩ := h
      exact hsb

/-- When the binary search over a simulator returns a speed, the bisection ended
with that speed as `low`, feasible and above `minimum_speed`, within `precision`
of a `high` that is `maximum_speed` or infeasible. -/
theorem BinarySearchOptimizer.search_bracket (sim : α → Option α)
    (minimum_speed maximum_speed precision : α) (hp : 0 < precision) (fuel : Nat) (T s : α)
    (h : search sim minimum_speed maximum_speed precision fuel = some (some ⟨T, s⟩)) :
    ∃ high, minimum_speed < s ∧ s ≤ high ∧ high ≤ maximum_speed ∧ high - s ≤ precision ∧
      sim s = some T ∧ (high = maximum_speed ∨ sim high = none) := by
  unfold search at h
  cases hb : bisect sim precision fuel minimum_speed maximum_speed 0 0 with
  | none => simp [hb] at h
  | some res =>
    obtain ⟨l, hh, b, r⟩ := res
    simp only [hb] at h
    by_cases hb0 : b = 0
    · simp [hb0] at h
    · simp only [hb0, if_false] at h
      by_cases hle : minimum_speed ≤ maximum_speed
      · obtain ⟨_, h2, h3, h4, hinv, h6⟩ :=
          bisect_spec sim minimum_speed maximum_speed precision hp fuel _ _ _ _ l hh b r
            le_rfl hle le_rfl (Or.inl ⟨rfl, rfl, rfl⟩) (Or.inl rfl) hb
        rcases hinv with ⟨h0, _, _⟩ | ⟨hbl, hlt, hsl⟩
        · exact absurd h0 hb0
        · subst hbl
          simp only [hsl, Option.some.injEq, OptimizationOutput.mk.injEq] at h
          obtain ⟨rfl, rfl⟩ := h
          exact ⟨hh, hlt, h2, h3, h4, hsl, h6⟩
      · exfalso
        cases fuel with
        | zero => simp [bisect] at hb
        | succ n =>
          have : ¬ maximum_speed - minimum_speed > precision := by
            intro hgt; exact hle (by linarith)
          simp only [bisect, this, if_false, Option.some.injEq, Prod.mk.injEq] at hb
          exact hb0 hb.2.2.1.symm

end Optimizers

section SearchAgreement

variable {α : Type} [LinearOrderedField α]

/-- The sweep returns the same pair with more fuel. -/
theorem LinearSearchOptimizer.sweep_more_fuel (sim : α → Option α) (maximum_speed speed_step : α) :
    ∀ (fuel extra : Nat) (speed bs br : α) (res : α × α),
      sweep sim maximum_speed speed_step fuel speed bs br = some res →
      sweep sim maximum_speed speed_step (fuel + extra) speed bs br = some res := by
  intro fuel
  induction fuel with
  | zero => intro extra speed bs br res h; simp [sweep] at h
  | succ n ih =>
    intro extra speed bs br res h
    rw [show n + 1 + extra = (n + extra) + 1 by omega]
    rw [sweep] at h ⊢
    by_cases hle : speed ≤ maximum_speed
    · simp only [hle, if_true] at h ⊢
      cases hsim : sim speed with
      | none => simp only [hsim] at h ⊢; exact ih _ _ _ _ _ h
      | some rt => simp only [hsim] at h ⊢; exact ih _ _ _ _ _ h
    · simp only [hle, if_false] at h ⊢; exact h

/-- Under monotone feasibility the speeds returned by the two searches over one
simulator differ by less than `speed_step` one way and at most `precision` the other. -/
theorem search_agreement [FloorRing α] (sim : α → Option α)
    (minimum_speed maximum_speed speed_step precision : α) (hmin : 0 < minimum_speed)
    (hstep : 0 < speed_step) (hp : 0 < precision)
    (hmono : MonotoneFeasible sim minimum_speed maximum_speed) (fuel_b fuel_l : Nat)
    (ob ol : OptimizationOutput α)
    (hb : BinarySearchOptimizer.search sim minimum_speed maximum_speed precision fuel_b
      = some (some ob))
    (hl : LinearSearchOptimizer.search sim minimum_speed maximum_speed speed_step fuel_l
      = some (some ol)) :
    -precision ≤ ob.speed - ol.speed ∧ ob.speed - ol.speed < speed_step := by
  obtain ⟨Tb, sb⟩ := ob
  obtain ⟨Tl, sl⟩ := ol
  obtain ⟨high, h1, h2, h3, h4, h5, h6⟩ :=
    BinarySearchOptimizer.search_bracket sim minimum_speed maximum_speed precision hp fuel_b Tb sb hb
  -- the linear result is the one of a run with enough fuel
  have hl2 : LinearSearchOptimizer.search sim minimum_speed maximum_speed speed_step
      (fuel_l + LinearSearchOptimizer.sweep_fuel minimum_speed maximum_speed speed_step)
      = some (some ⟨Tl, sl⟩) := by
    unfold LinearSearchOptimizer.search at hl ⊢
    cases hs : LinearSearchOptimizer.sweep sim maximum_speed speed_step fuel_l minimum_speed 0 0 with
    | none => simp [hs] at hl
    | some res =>
      rw [LinearSearchOptimizer.sweep_more_fuel sim maximum_speed speed_step fuel_l _ _ _ _ res hs]
      simpa [hs] using hl
  obtain ⟨r, hr, _, hsome⟩ := LinearSearchOptimizer.search_spec sim minimum_speed maximum_speed
    speed_step hmin hstep _ (Nat.le_add_left _ fuel_l)
  rw [hl2] at hr
  obtain ⟨⟨k, hk⟩, hsm, hsl, hmax⟩ := hsome Tl sl (by simpa using hr.symm)
  have hkmin : minimum_speed ≤ sl := by
    rw [hk]
    have : 0 ≤ (k : α) * speed_step := mul_nonneg (Nat.cast_nonneg k) hstep.le
    linarith
  constructor
  · -- the linear speed is at most `high`
    have hsh : sl ≤ high := by
      rcases h6 with h6 | h6
      · rw [h6]; exact hsm
      · by_contra hcon
        exact hmono high sl (by linarith) (not_le.mp hcon).le hsm (by simp [hsl]) h6
    show -precision ≤ sb - sl
    linarith
  · show sb - sl < speed_step
    by_contra hcon
    have hnext : minimum_speed + ((k + 1 : Nat) : α) * speed_step ≤ sb := by
      push_cast; rw [hk] at hcon; linarith
    have hfe : sim (minimum_speed + ((k + 1 : Nat) : α) * speed_step) ≠ none := by
      refine hmono _ sb ?_ hnext (h2.trans h3) (by simp [h5])
      have : 0 ≤ ((k + 1 : Nat) : α) * speed_step := mul_nonneg (Nat.cast_nonneg _) hstep.le
      linarith
    have := hmax (k + 1) (hnext.trans (h2.trans h3)) hfe
    rw [hk] at this
    push_cast at this
    linarith

end SearchAgreement

/-! ## The main loop of the simulator -/

section RaceLoop

variable {α : Type} [LinearOrderedField α] [FloorRing α]

namespace RaceRunner

/-- One iteration of the main loop that goes on to the next. -/
theorem race_loop_next (m : LibM α) (car : SolarCar α) (route : Route α) (weather : Weather α)
    (schedule : RaceSchedule α) (speed : α) (fuel : Nat) (s s1 : RaceState α)
    (hi : s.current_segment_index < route.get_num_segments)
    (hb : loop_body m car route weather schedule speed s = LoopStep.next s1) :
    race_loop m car route weather schedule speed (fuel + 1) s =
      race_loop m car route weather schedule speed fuel s1 := by
  simp [race_loop, hi, hb]

/-- One iteration of the main loop that returns. -/
theorem race_loop_ret (m : LibM α) (car : SolarCar α) (route : Route α) (weather : Weather α)
    (schedule : RaceSchedule α) (speed : α) (fuel : Nat) (s : RaceState α) (r : Option α)
    (hi : s.current_segment_index < route.get_num_segments)
    (hb : loop_body m car route weather schedule speed s = LoopStep.ret r) :
    race_loop m car route weather schedule speed (fuel + 1) s = some r := by
  simp [race_loop, hi, hb]

/-- The main loop ends when no segment is left. -/
theorem race_loop_done (m : LibM α) (car : SolarCar α) (route : Route α) (weather : Weather α)
    (schedule : RaceSchedule α) (speed : α) (fuel : Nat) (s : RaceState α)
    (hi : ¬ s.current_segment_index < route.get_num_segments) :
    race_loop m car route weather schedule speed (fuel + 1) s = some (some s.total_racetime) := by
  simp [race_loop, hi]

/-- Every iteration that goes on to a next one decreases the measure. -/
theorem loop_body_decreases (m : LibM α) (car : SolarCar α) (route : Route α) (weather : Weather α)
    (schedule : RaceSchedule α) (speed : α) (s s1 : RaceState α)
    (hi : s.current_segment_index < route.get_num_segments)
    (hb : loop_body m car route weather schedule speed s = LoopStep.next s1) :
    loop_measure route schedule s1 < loop_measure route schedule s := by
  unfold loop_body at hb
  by_cases hend : s.current_time ≥ (schedule.day s.current_day).race_end_time
  · simp only [hend, if_true] at hb
    by_cases hday : s.current_day + 1 ≥ schedule.length
    · simp [hday] at hb
    · simp only [hday, if_false, LoopStep.next.injEq] at hb
      subst hb
      have hnlt : ¬ s.current_time < (schedule.day s.current_day).race_end_time := not_lt.mpr hend
      simp only [loop_measure, hnlt, if_false]
      split_ifs <;> omega
  · simp only [hend, if_false] at hb
    have hlt : s.current_time < (schedule.day s.current_day).race_end_time := not_le.mp hend
    split at hb
    · cases hb
    · split_ifs at hb
      all_goals cases hb
      all_goals simp only [loop_measure, hlt, if_true]
      all_goals split_ifs
      all_goals first
        | omega
        | (exfalso; simp_all)

/-- The main loop returns once its fuel exceeds the measure of the state. -/
theorem race_loop_terminates (m : LibM α) (car : SolarCar α) (route : Route α)
    (weather : Weather α) (schedule : RaceSchedule α) (speed : α) :
    ∀ (fuel : Nat) (s : RaceState α), loop_measure route schedule s < fuel →
      ∃ r, race_loop m car route weather schedule speed fuel s = some r := by
  intro fuel
  induction fuel with
  | zero => intro s h; omega
  | succ n ih =>
    intro s h
    by_cases hi : s.current_segment_index < route.get_num_segments
    · cases hb : loop_body m car route weather schedule speed s with
      | ret r => exact ⟨r, race_loop_ret m car route weather schedule speed n s r hi hb⟩
      | next s1 =>
        rw [race_loop_next m car route weather schedule speed n s s1 hi hb]
        have := loop_body_decreases m car route weather schedule speed s s1 hi hb
        exact ih s1 (by omega)
    · exact ⟨_, race_loop_done m car route weather schedule speed n s hi⟩

/-- A result of the main loop does not change with more fuel. -/
theorem race_loop_more_fuel (m : LibM α) (car : SolarCar α) (route : Route α)
    (weather : Weather α) (schedule : RaceSchedule α) (speed : α) :
    ∀ (fuel extra : Nat) (s : RaceState α) (r : Option α),
      race_loop m car route weather schedule speed fuel s = some r →
      race_loop m car route weather schedule speed (fuel + extra) s = some r := by
  intro fuel
  induction fuel with
  | zero => intro extra s r h; simp [race_loop] at h
  | succ n ih =>
    intro extra s r h
    rw [show n + 1 + extra = (n + extra) + 1 by omega]
    by_cases hi : s.current_segment_index < route.get_num_segments
    · cases hb : loop_body m car route weather schedule speed s with
      | ret r1 =>
        rw [race_loop_ret m car route weather schedule speed _ s r1 hi hb] at h ⊢
        exact h
      | next s1 =>
        rw [race_loop_next m car route weather schedule speed _ s s1 hi hb] at h ⊢
        exact ih extra s1 r h
    · rw [race_loop_done m car route weather schedule speed _ s hi] at h ⊢
      exact h

/-- The main loop of `calculate_racetime` returns within `race_fuel` iterations, and
with any fuel from there on it returns the value of `calculate_racetime`. -/
theorem race_loop_enough_fuel (m : LibM α) (car : SolarCar α) (route : Route α)
    (weather : Weather α) (schedule : RaceSchedule α) (speed : α) (fuel : Nat)
    (hfuel : race_fuel route schedule ≤ fuel) :
    race_loop m car route weather schedule speed fuel (initial_state car schedule)
      = some (calculate_racetime m car route weather schedule speed) := by
  have hm : loop_measure route schedule (initial_state car schedule) < race_fuel route schedule := by
    simp only [loop_measure, race_fuel, initial_state]
    split_ifs <;> omega
  obtain ⟨r, hr⟩ := race_loop_terminates m car route weather schedule speed _ _ hm
  obtain ⟨k, rfl⟩ : ∃ k, fuel = race_fuel route schedule + k := ⟨fuel - race_fuel route schedule, by omega⟩
  rw [race_loop_more_fuel m car route weather schedule speed _ k _ r hr]
  simp [calculate_racetime, hr]

/-- The value of `calculate_racetime` is what the main loop returns from the
initial state, for any fuel with which it returns. -/
theorem calculate_racetime_of_loop (m : LibM α) (car : SolarCar α) (route : Route α)
    (weather : Weather α) (schedule : RaceSchedule α) (speed : α) (fuel : Nat) (r : Option α)
    (h : race_loop m car route weather schedule speed fuel (initial_state car schedule) = some r) :
    calculate_racetime m car route weather schedule speed = r := by
  have h1 := race_loop_more_fuel m car route weather schedule speed fuel
    (race_fuel route schedule) _ r h
  have h2 := race_loop_enough_fuel m car route weather schedule speed
    (fuel + race_fuel route schedule) (Nat.le_add_left _ _)
  rw [h1] at h2
  exact (Option.some.inj h2).symm

end RaceRunner

end RaceLoop

/-! ## Static charging -/

section StaticCharging

variable {α : Type} [LinearOrderedField α]

namespace RaceRunner

/-- Charging with a non-negative array under non-negative irradiance never
lowers the accumulated energy. -/
theorem static_charging_loop_nonneg (car : SolarCar α) (weather : Weather α)
    (weather_station end_time : α) (harea : 0 ≤ car.array.array_area)
    (heff : 0 ≤ car.array.array_efficiency)
    (hirr : ∀ station time, 0 ≤ (weather.get_weather_at station time).irradiance) :
    ∀ (fuel : Nat) (current_time total_energy : α),
      total_energy ≤ static_charging_loop car weather weather_station end_time fuel current_time
        total_energy := by
  intro fuel
  induction fuel with
  | zero => intro t total; exact le_rfl
  | succ n ih =>
    intro t total
    simp only [static_charging_loop]
    split_ifs with hlt
    · refine le_trans ?_ (ih _ _)
      have h300 : (0 : α) < STATIC_CHARGING_TIME_INCREMENT := by
        unfold STATIC_CHARGING_TIME_INCREMENT; norm_num
      have hdt : 0 ≤ min (t + STATIC_CHARGING_TIME_INCREMENT) end_time - t := by
        have : t ≤ min (t + STATIC_CHARGING_TIME_INCREMENT) end_time :=
          le_min (by linarith) hlt.le
        linarith
      have hpow : 0 ≤ car.array.power_in (weather.get_weather_during weather_station t
          (min (t + STATIC_CHARGING_TIME_INCREMENT) end_time)).irradiance := by
        unfold Array.power_in Weather.get_weather_during WeatherDataPoint.average
        have := hirr weather_station t
        have := hirr weather_station (min (t + STATIC_CHARGING_TIME_INCREMENT) end_time)
        positivity
      have : 0 ≤ car.array.power_in (weather.get_weather_during weather_station t
          (min (t + STATIC_CHARGING_TIME_INCREMENT) end_time)).irradiance *
          (min (t + STATIC_CHARGING_TIME_INCREMENT) end_time - t) / 3600 := by positivity
      linarith
    · exact le_rfl

/-- The static charging gain is non-negative for a non-negative array under
non-negative irradiance. -/
theorem calculate_static_charging_gain_nonneg [FloorRing α] (car : SolarCar α)
    (weather : Weather α) (weather_station start_time end_time : α)
    (harea : 0 ≤ car.array.array_area) (heff : 0 ≤ car.array.array_efficiency)
    (hirr : ∀ station time, 0 ≤ (weather.get_weather_at station time).irradiance) :
    0 ≤ calculate_static_charging_gain car weather weather_station start_time end_time :=
  static_charging_loop_nonneg car weather weather_station end_time harea heff hirr _ _ _

end RaceRunner

end StaticCharging

/-! ## Runs inside one race day -/

section InDay

variable {α : Type} [LinearOrderedField α] [FloorRing α]

namespace RaceRunner

omit [FloorRing α] in
/-- The segments from index `i` on are segment `i` and those from `i + 1` on. -/
theorem drop_segments (route : Route α) (i : Nat) (hi : i < route.get_num_segments) :
    route.segments.drop i = route.get_segment i :: route.segments.drop (i + 1) := by
  unfold Route.get_num_segments at hi
  rw [Route.get_segment, List.getD_eq_getElem _ _ hi]
  exact List.drop_eq_getElem_cons hi

omit [FloorRing α] in
/-- The time a list of segments needs is non-negative. -/
theorem day_need_nonneg (speed : α) (hv : 0 < speed) (segments : List (RouteSegment α))
    (hd : ∀ seg ∈ segments, 0 ≤ seg.distance) : 0 ≤ day_need speed segments := by
  unfold day_need
  apply List.sum_nonneg
  intro x hx
  obtain ⟨seg, hseg, rfl⟩ := List.mem_map.mp hx
  have h1 : 0 ≤ seg.distance / speed := div_nonneg (hd seg hseg) hv.le
  have h2 : (0 : α) ≤ CHECKPOINT_DURATION := by unfold CHECKPOINT_DURATION; norm_num
  split_ifs <;> linarith

/-- One iteration on a fresh segment that ends strictly before today's race end:
the segment is driven whole, with the dwell when it ends in a CONTROL_STOP. -/
theorem loop_body_in_day (m : LibM α) (car : SolarCar α) (route : Route α) (weather : Weather α)
    (schedule : RaceSchedule α) (speed : α) (s : RaceState α)
    (hrem : s.remaining_segment_distance = 0)
    (hnow : s.current_time < (schedule.day s.current_day).race_end_time)
    (hfit : s.current_time + (route.get_segment s.current_segment_index).distance / speed
      < (schedule.day s.current_day).race_end_time) :
    loop_body m car route weather schedule speed s =
      match RaceSegmentRunner.calculate_power_net m car (route.get_segment s.current_segment_index)
        (weather.get_weather_during (route.get_segment s.current_segment_index).weather_station
          s.current_time
          (s.current_time + (route.get_segment s.current_segment_index).distance / speed))
        (car.battery.state_of_charge s.energy_remaining) speed with
      | none => LoopStep.ret none
      | some net_power =>
        if s.energy_remaining + net_power *
            ((route.get_segment s.current_segment_index).distance / speed) / 3600 < 0 then
          LoopStep.ret none
        else if (route.get_segment s.current_segment_index).end_condition
            = SegmentEndCondition.CONTROL_STOP then
          LoopStep.next
            { energy_remaining := s.energy_remaining + net_power *
                  ((route.get_segment s.current_segment_index).distance / speed) / 3600 +
                calculate_static_charging_gain car weather
                  (route.get_segment s.current_segment_index).weather_station
                  (s.current_time + (route.get_segment s.current_segment_index).distance / speed)
                  (s.current_time + (route.get_segment s.current_segment_index).distance / speed
                    + CHECKPOINT_DURATION),
              total_racetime := s.total_racetime +
                (route.get_segment s.current_segment_index).distance / speed + CHECKPOINT_DURATION,
              current_segment_index := s.current_segment_index + 1,
              remaining_segment_distance := 0,
              current_day := s.current_day,
              current_time := s.current_time +
                (route.get_segment s.current_segment_index).distance / speed + CHECKPOINT_DURATION }
        else
          LoopStep.next
            { energy_remaining := s.energy_remaining + net_power *
                  ((route.get_segment s.current_segment_index).distance / speed) / 3600,
              total_racetime := s.total_racetime +
                (route.get_segment s.current_segment_index).distance / speed,
              current_segment_index := s.current_segment_index + 1,
              remaining_segment_distance := 0,
              current_day := s.current_day,
              current_time := s.current_time +
                (route.get_segment s.current_segment_index).distance / speed } := by
  have h1 : ¬ s.current_time ≥ (schedule.day s.current_day).race_end_time := not_le.mpr hnow
  have h2 : ¬ s.current_time + (route.get_segment s.current_segment_index).distance / speed
      > (schedule.day s.current_day).race_end_time := not_lt.mpr hfit.le
  unfold loop_body
  simp only [hrem, gt_iff_lt, lt_irrefl, if_false, h1, h2, hfit, and_true, true_and,
    update_energy_remaining]
  cases RaceSegmentRunner.calculate_power_net m car (route.get_segment s.current_segment_index)
        (weather.get_weather_during (route.get_segment s.current_segment_index).weather_station
          s.current_time
          (s.current_time + (route.get_segment s.current_segment_index).distance / speed))
        (car.battery.state_of_charge s.energy_remaining) speed with
  | none => rfl
  | some net =>
    simp only
    split_ifs <;> simp_all

/-- A run from a fresh segment whose remaining segments, dwells included, end
strictly before today's race end: if it returns a racetime, that is the time
so far plus the driving times and dwells of the remaining segments. -/
theorem race_loop_in_day (m : LibM α) (car : SolarCar α) (route : Route α) (weather : Weather α)
    (schedule : RaceSchedule α) (speed : α) (hv : 0 < speed)
    (hd : ∀ seg ∈ route.segments, 0 ≤ seg.distance) :
    ∀ (fuel : Nat) (s : RaceState α) (T : α), s.remaining_segment_distance = 0 →
      s.current_time + day_need speed (route.segments.drop s.current_segment_index)
        < (schedule.day s.current_day).race_end_time →
      race_loop m car route weather schedule speed fuel s = some (some T) →
      T = s.total_racetime + day_need speed (route.segments.drop s.current_segment_index) := by
  intro fuel
  induction fuel with
  | zero => intro s T _ _ h; simp [race_loop] at h
  | succ n ih =>
    intro s T hrem hfit hrun
    by_cases hi : s.current_segment_index < route.get_num_segments
    · have hdrop := drop_segments route s.current_segment_index hi
      have hrest : 0 ≤ day_need speed (route.segments.drop (s.current_segment_index + 1)) :=
        day_need_nonneg speed hv _ (fun seg hs => hd seg (List.mem_of_mem_drop hs))
      have hseg : 0 ≤ (route.get_segment s.current_segment_index).distance := by
        apply hd
        have : route.get_segment s.current_segment_index ∈
            route.segments.drop s.current_segment_index := by rw [hdrop]; simp
        exact List.mem_of_mem_drop this
      have hq : 0 ≤ (route.get_segment s.current_segment_index).distance / speed :=
        div_nonneg hseg hv.le
      have h1800 : (0 : α) < CHECKPOINT_DURATION := by unfold CHECKPOINT_DURATION; norm_num
      have hneed : day_need speed (route.segments.drop s.current_segment_index) =
          (route.get_segment s.current_segment_index).distance / speed +
            (if (route.get_segment s.current_segment_index).end_condition
                = SegmentEndCondition.CONTROL_STOP then CHECKPOINT_DURATION else 0) +
            day_need speed (route.segments.drop (s.current_segment_index + 1)) := by
        rw [hdrop]; simp [day_need]
      rw [hneed] at hfit ⊢
      have hdwell : (0 : α) ≤ if (route.get_segment s.current_segment_index).end_condition
          = SegmentEndCondition.CONTROL_STOP then CHECKPOINT_DURATION else 0 := by
        split_ifs <;> linarith
      have hbody := loop_body_in_day m car route weather schedule speed s hrem
        (by linarith) (by linarith)
      cases hnet : RaceSegmentRunner.calculate_power_net m car
          (route.get_segment s.current_segment_index)
          (weather.get_weather_during (route.get_segment s.current_segment_index).weather_station
            s.current_time
            (s.current_time + (route.get_segment s.current_segment_index).distance / speed))
          (car.battery.state_of_charge s.energy_remaining) speed with
      | none =>
        rw [hnet] at hbody
        rw [race_loop_ret m car route weather schedule speed n s none hi hbody] at hrun
        simp at hrun
      | some net =>
        rw [hnet] at hbody
        simp only at hbody
        split_ifs at hbody with hneg hcs
        · rw [race_loop_ret m car route weather schedule speed n s none hi hbody] at hrun
          simp at hrun
        · rw [race_loop_next m car route weather schedule speed n s _ hi hbody] at hrun
          have := ih _ T rfl (by simp only [hcs, if_true] at hfit; simp only; linarith) hrun
          rw [this]; simp only [hcs, if_true]; ring
        · rw [race_loop_next m car route weather schedule speed n s _ hi hbody] at hrun
          have := ih _ T rfl (by simp only [hcs, if_false] at hfit; simp only; linarith) hrun
          rw [this]; simp only [hcs, if_false]; ring
    · rw [race_loop_done m car route weather schedule speed n s hi] at hrun
      have hlen : route.segments.length ≤ s.current_segment_index := by
        unfold Route.get_num_segments at hi; omega
      simp only [Option.some.injEq] at hrun
      rw [List.drop_of_length_le hlen, ← hrun]
      simp [day_need]

/-- A run from a fresh segment whose remaining segments, dwells included, end
strictly before today's race end is feasible when the battery holds no negative
energy, the net power at this speed is always defined and never a net
discharge, and charging never takes energy. -/
theorem race_loop_in_day_feasible (m : LibM α) (car : SolarCar α) (route : Route α)
    (weather : Weather α) (schedule : RaceSchedule α) (speed : α) (hv : 0 < speed)
    (hd : ∀ seg ∈ route.segments, 0 ≤ seg.distance)
    (hnet : ∀ seg ∈ route.segments, ∀ w soc, ∃ p, 0 ≤ p ∧
      RaceSegmentRunner.calculate_power_net m car seg w soc speed = some p)
    (hch : NonnegCharging car weather) :
    ∀ (fuel : Nat) (s : RaceState α) (r : Option α), s.remaining_segment_distance = 0 →
      0 ≤ s.energy_remaining →
      s.current_time + day_need speed (route.segments.drop s.current_segment_index)
        < (schedule.day s.current_day).race_end_time →
      race_loop m car route weather schedule speed fuel s = some r → r ≠ none := by
  intro fuel
  induction fuel with
  | zero => intro s r _ _ _ h; simp [race_loop] at h
  | succ n ih =>
    intro s r hrem hen hfit hrun
    by_cases hi : s.current_segment_index < route.get_num_segments
    · have hdrop := drop_segments route s.current_segment_index hi
      have hrest : 0 ≤ day_need speed (route.segments.drop (s.current_segment_index + 1)) :=
        day_need_nonneg speed hv _ (fun seg hs => hd seg (List.mem_of_mem_drop hs))
      have hmem : route.get_segment s.current_segment_index ∈ route.segments := by
        have : route.get_segment s.current_segment_index ∈
            route.segments.drop s.current_segment_index := by rw [hdrop]; simp
        exact List.mem_of_mem_drop this
      have hseg : 0 ≤ (route.get_segment s.current_segment_index).distance := hd _ hmem
      have hq : 0 ≤ (route.get_segment s.current_segment_index).distance / speed :=
        div_nonneg hseg hv.le
      have h1800 : (0 : α) < CHECKPOINT_DURATION := by unfold CHECKPOINT_DURATION; norm_num
      have hneed : day_need speed (route.segments.drop s.current_segment_index) =
          (route.get_segment s.current_segment_index).distance / speed +
            (if (route.get_segment s.current_segment_index).end_condition
                = SegmentEndCondition.CONTROL_STOP then CHECKPOINT_DURATION else 0) +
            day_need speed (route.segments.drop (s.current_segment_index + 1)) := by
        rw [hdrop]; simp [day_need]
      rw [hneed] at hfit
      have hdwell : (0 : α) ≤ if (route.get_segment s.current_segment_index).end_condition
          = SegmentEndCondition.CONTROL_STOP then CHECKPOINT_DURATION else 0 := by
        split_ifs <;> linarith
      have hbody := loop_body_in_day m car route weather schedule speed s hrem
        (by linarith) (by linarith)
      obtain ⟨p, hp, hpn⟩ := hnet (route.get_segment s.current_segment_index) hmem
          (weather.get_weather_during (route.get_segment s.current_segment_index).weather_station
            s.current_time
            (s.current_time + (route.get_segment s.current_segment_index).distance / speed))
          (car.battery.state_of_charge s.energy_remaining)
      rw [hpn] at hbody
      simp only at hbody
      have hgain : 0 ≤ p * ((route.get_segment s.current_segment_index).distance / speed) / 3600 := by
        positivity
      have hnneg : ¬ s.energy_remaining +
          p * ((route.get_segment s.current_segment_index).distance / speed) / 3600 < 0 := by
        linarith
      simp only [hnneg, if_false] at hbody
      split_ifs at hbody with hcs
      · rw [race_loop_next m car route weather schedule speed n s _ hi hbody] at hrun
        refine ih _ r rfl ?_ (by simp only [hcs, if_true] at hfit; simp only; linarith) hrun
        have := calculate_static_charging_gain_nonneg car weather
          (route.get_segment s.current_segment_index).weather_station
          (s.current_time + (route.get_segment s.current_segment_index).distance / speed)
          (s.current_time + (route.get_segment s.current_segment_index).distance / speed
            + CHECKPOINT_DURATION) hch.1 hch.2.1 hch.2.2
        simp only; linarith
      · rw [race_loop_next m car route weather schedule speed n s _ hi hbody] at hrun
        exact ih _ r rfl (by simp only; linarith)
          (by simp only [hcs, if_false] at hfit; simp only; linarith) hrun
    · rw [race_loop_done m car route weather schedule speed n s hi] at hrun
      rw [← Option.some.inj hrun]; simp

end RaceRunner

end InDay

/-! ## Marking a control stop, and runs that cannot fit -/

section Marking

variable {α : Type} [LinearOrderedField α]

namespace RaceRunner

/-- Setting the end condition of one segment that is no CONTROL_STOP to
CONTROL_STOP adds one dwell to the time the segments need. -/
theorem day_need_set (speed : α) (z : RouteSegment α) :
    ∀ (segments : List (RouteSegment α)) (k : Nat), k < segments.length →
      (segments.getD k z).end_condition ≠ SegmentEndCondition.CONTROL_STOP →
      day_need speed (segments.set k
          { segments.getD k z with end_condition := SegmentEndCondition.CONTROL_STOP })
        = day_need speed segments + CHECKPOINT_DURATION := by
  intro segments
  induction segments with
  | nil => intro k hk; simp at hk
  | cons seg rest ih =>
    intro k hk hcs
    cases k with
    | zero =>
      simp only [List.getD_cons_zero] at hcs
      simp [day_need, hcs]
      ring
    | succ k =>
      simp only [List.getD_cons_succ] at hcs
      have := ih k (by simpa using hk) hcs
      simp only [day_need, List.set_cons_succ, List.map_cons, List.sum_cons,
        List.getD_cons_succ] at this ⊢
      rw [this]; ring

/-- Marking a control stop keeps the distances of the route. -/
theorem mark_control_stop_distance (route : Route α) (k : Nat) :
    ∀ seg ∈ (route.mark_control_stop k).segments, ∃ seg0 ∈ route.segments,
      seg.distance = seg0.distance := by
  intro seg hseg
  unfold Route.mark_control_stop at hseg
  simp only at hseg
  rcases List.mem_or_eq_of_mem_set hseg with h | h
  · exact ⟨seg, h, rfl⟩
  · by_cases hk : k < route.segments.length
    · refine ⟨route.get_segment k, ?_, by rw [h]⟩
      rw [Route.get_segment, List.getD_eq_getElem _ _ hk]
      exact List.getElem_mem hk
    · rw [List.set_eq_of_length_le (not_lt.mp hk)] at hseg
      exact ⟨seg, hseg, rfl⟩

end RaceRunner

end Marking

section LastDay

variable {α : Type} [LinearOrderedField α] [FloorRing α]

namespace RaceRunner

end RaceRunner

end LastDay

/-! ## The energy after each update -/

section Updates

variable {α : Type} [LinearOrderedField α] [FloorRing α]

namespace RaceRunner

/-- An iteration never returns a racetime: the racetime is returned at the loop
test. -/
theorem loop_body_ret_none (m : LibM α) (car : SolarCar α) (route : Route α) (weather : Weather α)
    (schedule : RaceSchedule α) (speed : α) (s : RaceState α) (r : Option α)
    (hb : loop_body m car route weather schedule speed s = LoopStep.ret r) : r = none := by
  unfold loop_body at hb
  by_cases hend : s.current_time ≥ (schedule.day s.current_day).race_end_time
  · simp only [hend, if_true] at hb
    split_ifs at hb
    cases hb; rfl
  · simp only [hend, if_false] at hb
    split at hb
    · cases hb; rfl
    · split_ifs at hb
      all_goals cases hb
      all_goals rfl

end RaceRunner

end Updates

/-! ## The example cars -/

section Examples

open RaceRunner

namespace Example

/-- The square root of the example libm at 10000. -/
theorem sqrt_10000 : libm.sqrt 10000 = 100 := by
  have h := Rat.sqrt_eq 100
  rwa [show (100 : ℚ) * 100 = 10000 by norm_num, abs_of_nonneg (by norm_num)] at h

/-- On a level segment the idle car has net power 0 at every speed, with any
libm whose square root of 10000 is 100. -/
theorem idle_car_power_net (m : LibM ℚ) (hm : m.sqrt 10000 = 100) (s : RouteSegment ℚ)
    (hs : s.gravity_times_sine_road_incline_angle = 0) (w : WeatherDataPoint ℚ) (soc v : ℚ) :
    RaceSegmentRunner.calculate_power_net m idle_car s w soc v = some 0 := by
  simp [RaceSegmentRunner.calculate_power_net, RaceSegmentRunner.calculate_power_in,
    RaceSegmentRunner.calculate_power_out, RaceSegmentRunner.calculate_resistive_force,
    Battery.power_loss, Battery.current_voltage, Motor.power_consumed, Array.power_in,
    Tire.rolling_resistance, Aerobody.aerodynamic_drag, idle_car, hs]
  norm_num [hm]

/-- The charging loop of the idle car gains nothing. -/
theorem idle_car_static (w : Weather ℚ) (st e : ℚ) : ∀ (fuel : Nat) (t total : ℚ),
    static_charging_loop idle_car w st e fuel t total = total := by
  intro fuel
  induction fuel with
  | zero => intro t total; rfl
  | succ n ih =>
    intro t total
    simp only [static_charging_loop]
    split
    · rw [ih]; simp [Array.power_in, idle_car]
    · rfl

/-- The idle car gains nothing from static charging. -/
theorem idle_car_gain (w : Weather ℚ) (st a b : ℚ) :
    calculate_static_charging_gain idle_car w st a b = 0 := by
  simp [calculate_static_charging_gain, idle_car_static]

end Example

end Examples

/-! ## Evaluating the bisection step by step -/

section BisectSteps

variable {α : Type} [LinearOrderedField α]

namespace BinarySearchOptimizer

/-- An iteration of the bisection at a feasible midpoint. -/
theorem bisect_feasible (sim : α → Option α) (precision : α) (fuel : Nat)
    (low high bs br racetime : α) (hw : high - low > precision)
    (hsim : sim ((low + high) / 2) = some racetime) :
    bisect sim precision (fuel + 1) low high bs br
      = bisect sim precision fuel ((low + high) / 2) high ((low + high) / 2) racetime := by
  rw [bisect, if_pos hw]
  simp only [hsim]

/-- An iteration of the bisection at an infeasible midpoint. -/
theorem bisect_infeasible (sim : α → Option α) (precision : α) (fuel : Nat)
    (low high bs br : α) (hw : high - low > precision)
    (hsim : sim ((low + high) / 2) = none) :
    bisect sim precision (fuel + 1) low high bs br
      = bisect sim precision fuel low ((low + high) / 2) bs br := by
  rw [bisect, if_pos hw]
  simp only [hsim]

/-- The exit of the bisection. -/
theorem bisect_exit (sim : α → Option α) (precision : α) (fuel : Nat)
    (low high bs br : α) (hw : ¬ high - low > precision) :
    bisect sim precision (fuel + 1) low high bs br = some (low, high, bs, br) := by
  rw [bisect, if_neg hw]

/-- The binary search returns the best pair of its bisection when that is not
`(0, _)` and the verification run at the best speed is feasible. -/
theorem search_of_bisect (sim : α → Option α) (minimum_speed maximum_speed precision : α)
    (fuel : Nat) (low high bs br verification : α)
    (hb : bisect sim precision fuel minimum_speed maximum_speed 0 0 = some (low, high, bs, br))
    (hbs : bs ≠ 0) (hsim : sim bs = some verification) :
    search sim minimum_speed maximum_speed precision fuel
      = some (some { racetime := br, speed := bs }) := by
  simp [search, hb, hbs, hsim]

end BinarySearchOptimizer

end BisectSteps

/-! ## Example runs -/

section ExampleRuns

open RaceRunner Example

/-- The idle car drives one segment of 30 m at 2 m/s in 15 s. -/
theorem Example.idle_car_one_segment :
    calculate_racetime libm idle_car ⟨[level_segment 30 SegmentEndCondition.END_OF_RACE]⟩
      (still_weather 0) [race_day 1000 2000] 2 = some 15 := by
  have h0 : loop_body libm idle_car ⟨[level_segment 30 SegmentEndCondition.END_OF_RACE]⟩
      (still_weather 0) [race_day 1000 2000] 2 ⟨1000, 0, 0, 0, 0, 1000⟩
      = LoopStep.next ⟨1000, 15, 1, 0, 0, 1015⟩ := by
    simp [loop_body, idle_car_gain, idle_car_power_net libm sqrt_10000, level_segment, race_day,
      Route.get_segment, RaceSchedule.day, RouteSegment.zero, update_energy_remaining]
    norm_num
  apply calculate_racetime_of_loop _ _ _ _ _ _ 2
  have e0 : initial_state idle_car [race_day 1000 2000] = ⟨1000, 0, 0, 0, 0, 1000⟩ := by
    simp [initial_state, idle_car, race_day, RaceSchedule.day, Battery.get_capacity]
  rw [e0, race_loop_next _ _ _ _ _ _ _ _ _ (by simp [Route.get_num_segments]) h0,
    race_loop_done _ _ _ _ _ _ _ _ (by simp [Route.get_num_segments])]

end ExampleRuns

/-! ## Whole runs inside the first race day, and more example lemmas -/

section WholeRuns

variable {α : Type} [LinearOrderedField α] [FloorRing α]

namespace RaceRunner

/-- A race that, dwells included, ends strictly before the race end of the first
day: if `calculate_racetime` returns a racetime, that is the driving time of all
segments plus the dwells. -/
theorem calculate_racetime_in_day (m : LibM α) (car : SolarCar α) (route : Route α)
    (weather : Weather α) (schedule : RaceSchedule α) (speed : α) (hv : 0 < speed)
    (hd : ∀ seg ∈ route.segments, 0 ≤ seg.distance)
    (hfit : (schedule.day 0).race_start_time + day_need speed route.segments
      < (schedule.day 0).race_end_time) (T : α)
    (h : calculate_racetime m car route weather schedule speed = some T) :
    T = day_need speed route.segments := by
  have hloop := race_loop_enough_fuel m car route weather schedule speed _ le_rfl
  rw [h] at hloop
  have := race_loop_in_day m car route weather schedule speed hv hd _
    (initial_state car schedule) T rfl (by simpa [initial_state] using hfit) hloop
  simpa [initial_state] using this

/-- A race that, dwells included, ends strictly before the race end of the first
day is feasible when the pack's capacity is non-negative, charging never takes
energy and the net power at this speed is defined and no net discharge on
every segment of the route. -/
theorem calculate_racetime_in_day_feasible (m : LibM α) (car : SolarCar α) (route : Route α)
    (weather : Weather α) (schedule : RaceSchedule α) (speed : α) (hv : 0 < speed)
    (hd : ∀ seg ∈ route.segments, 0 ≤ seg.distance)
    (hcap : 0 ≤ car.battery.energy_capacity)
    (hch : NonnegCharging car weather)
    (hnet : ∀ seg ∈ route.segments, ∀ w soc, ∃ p, 0 ≤ p ∧
      RaceSegmentRunner.calculate_power_net m car seg w soc speed = some p)
    (hfit : (schedule.day 0).race_start_time + day_need speed route.segments
      < (schedule.day 0).race_end_time) :
    calculate_racetime m car route weather schedule speed
      = some (day_need speed route.segments) := by
  have hloop := race_loop_enough_fuel m car route weather schedule speed _ le_rfl
  have hne := race_loop_in_day_feasible m car route weather schedule speed hv hd hnet hch _
    (initial_state car schedule) _ rfl (by simpa [initial_state, Battery.get_capacity] using hcap)
    (by simpa [initial_state] using hfit) hloop
  obtain ⟨T, hT⟩ := Option.ne_none_iff_exists'.mp hne
  rw [hT, calculate_racetime_in_day m car route weather schedule speed hv hd hfit T hT]

end RaceRunner

end WholeRuns

section MoreExamples

open RaceRunner

namespace Example

/-- The square root of the example libm at 10404. -/
theorem sqrt_10404 : libm.sqrt 10404 = 102 := by
  have h := Rat.sqrt_eq 102
  rwa [show (102 : ℚ) * 102 = 10404 by norm_num, abs_of_nonneg (by norm_num)] at h

/-- On a level segment the lossy car draws 102 W at every speed: 101 W of
hysteresis loss and 1 W lost in the pack. -/
theorem lossy_car_power_net (m : LibM ℚ) (hm : m.sqrt 10404 = 102) (s : RouteSegment ℚ)
    (hs : s.gravity_times_sine_road_incline_angle = 0) (w : WeatherDataPoint ℚ) (soc v : ℚ) :
    RaceSegmentRunner.calculate_power_net m lossy_car s w soc v = some (-102) := by
  simp [RaceSegmentRunner.calculate_power_net, RaceSegmentRunner.calculate_power_in,
    RaceSegmentRunner.calculate_power_out, RaceSegmentRunner.calculate_resistive_force,
    Battery.power_loss, Battery.current_voltage, Motor.power_consumed, Array.power_in,
    Tire.rolling_resistance, Aerobody.aerodynamic_drag, lossy_car, hs]
  norm_num [hm]

/-- The weather of the examples between two times. -/
theorem still_weather_during (irradiance station a b : ℚ) :
    (still_weather irradiance).get_weather_during station a b
      = ⟨⟨0, 0⟩, irradiance, 0, 0, 1, 0⟩ := by
  simp [Weather.get_weather_during, WeatherDataPoint.average, still_weather,
    VelocityVector.from_cartesian_components, VelocityVector.get_north_south,
    VelocityVector.get_east_west]

end Example

end MoreExamples

/-! ## The battery -/

section BatteryLemmas

variable {α : Type} [LinearOrderedField α]

/-- There is a libm of the real numbers. -/
theorem LibM.exists_real : ∃ m : LibM ℝ, m.IsReal :=
  ⟨⟨Real.sqrt, Real.cos, Real.sin, fun y x => Complex.arg ⟨x, y⟩, fun x y => x ^ y, Real.pi⟩,
    rfl, rfl, rfl, fun _ _ => rfl, fun _ _ => rfl, rfl⟩

/-- `Battery::power_loss` on a demand that is no charge. -/
theorem Battery.power_loss_discharge (m : LibM α) (b : Battery α) (P soc : α) (hP : 0 ≤ P) :
    b.power_loss m P soc =
      if b.current_voltage soc * b.current_voltage soc + 4 * b.pack_resistance * P < 0 then none
      else some
        ((-b.current_voltage soc
            + m.sqrt (b.current_voltage soc * b.current_voltage soc + 4 * b.pack_resistance * P))
            / (2 * b.pack_resistance) *
          ((-b.current_voltage soc
            + m.sqrt (b.current_voltage soc * b.current_voltage soc + 4 * b.pack_resistance * P))
            / (2 * b.pack_resistance)) * b.pack_resistance) := by
  simp only [Battery.power_loss, ge_iff_le, hP, if_true]

/-- `Battery::power_loss` on a charge. -/
theorem Battery.power_loss_charge (m : LibM α) (b : Battery α) (P soc : α) (hP : P < 0) :
    b.power_loss m P soc =
      if b.current_voltage soc * b.current_voltage soc - 4 * b.pack_resistance * (-P) < 0
      then none
      else some
        ((b.current_voltage soc
            - m.sqrt (b.current_voltage soc * b.current_voltage soc
              - 4 * b.pack_resistance * (-P)))
            / (2 * b.pack_resistance) *
          ((b.current_voltage soc
            - m.sqrt (b.current_voltage soc * b.current_voltage soc
              - 4 * b.pack_resistance * (-P)))
            / (2 * b.pack_resistance)) * b.pack_resistance) := by
  simp only [Battery.power_loss, ge_iff_le, not_le.mpr hP, if_false]

/-- A loss returned by `Battery::power_loss` is a square times the pack
resistance. -/
theorem Battery.power_loss_eq_square (m : LibM α) (b : Battery α) (P soc loss : α)
    (h : b.power_loss m P soc = some loss) :
    ∃ current, loss = current * current * b.pack_resistance := by
  unfold Battery.power_loss at h
  simp only at h
  split_ifs at h
  all_goals first
    | (cases h; done)
    | exact ⟨_, (Option.some.inj h).symm⟩

/-- With a square root that is exact at the discriminant and non-negative
voltage, the discharge loss lies between 0 and the demand, and the current is a
root of `I²R + IV - P = 0`. -/
theorem Battery.discharge_root (V R P s : α) (hR : 0 < R) (hs : s * s = V * V + 4 * R * P) :
    (-V + s) / (2 * R) * ((-V + s) / (2 * R)) * R + (-V + s) / (2 * R) * V - P = 0 := by
  have hR' : R ≠ 0 := hR.ne'
  field_simp
  nlinarith [hs]

end BatteryLemmas

section BatteryBounds

variable {α : Type} [LinearOrderedField α]

/-- With non-negative voltage and a non-negative square root exact at the
discriminant, the loss of a discharge lies between 0 and the demand. -/
theorem Battery.discharge_loss_le (V R P s : α) (hR : 0 < R) (hV : 0 ≤ V) (hP : 0 ≤ P)
    (hs0 : 0 ≤ s) (hs : s * s = V * V + 4 * R * P) :
    (-V + s) / (2 * R) * ((-V + s) / (2 * R)) * R ≤ P := by
  have hroot := Battery.discharge_root V R P s hR hs
  have hVs : V ≤ s := by
    by_contra hcon
    push_neg at hcon
    have h1 : s * s < V * V := by nlinarith
    have h2 : 0 ≤ 4 * R * P := by positivity
    linarith
  have hI : 0 ≤ (-V + s) / (2 * R) := div_nonneg (by linarith) (by linarith)
  have hIV : 0 ≤ (-V + s) / (2 * R) * V := mul_nonneg hI hV
  linarith

/-- With non-negative voltage and a non-negative square root exact at the
discriminant, the current of a charge is a root of `I²R - IV + |P| = 0` and
the loss is at most the power offered. -/
theorem Battery.charge_loss_le (V R Pabs s : α) (hR : 0 < R) (hV : 0 ≤ V) (hs0 : 0 ≤ s)
    (hs : s * s = V * V - 4 * R * Pabs) :
    (V - s) / (2 * R) * ((V - s) / (2 * R)) * R - (V - s) / (2 * R) * V + Pabs = 0 ∧
      (0 ≤ Pabs → (V - s) / (2 * R) * ((V - s) / (2 * R)) * R ≤ Pabs) := by
  have hR' : R ≠ 0 := hR.ne'
  have hroot : (V - s) / (2 * R) * ((V - s) / (2 * R)) * R - (V - s) / (2 * R) * V + Pabs
      = 0 := by
    field_simp
    nlinarith [hs]
  refine ⟨hroot, fun hP => ?_⟩
  have hsV : s ≤ V := by
    by_contra hcon
    push_neg at hcon
    have h1 : V * V < s * s := by nlinarith
    have h2 : 0 ≤ 4 * R * Pabs := by positivity
    linarith
  have hIV : (V - s) / (2 * R) * V ≤ 2 * Pabs := by
    rw [div_mul_eq_mul_div, div_le_iff₀ (by linarith)]
    nlinarith [mul_nonneg (sub_nonneg.mpr hsV) hs0]
  linarith

end BatteryBounds

section BatteryReal

/-- With the real square root, a pack of positive resistance and non-negative
voltage returns on a discharge a loss between 0 and the demand. -/
theorem Battery.real_discharge_loss (m : LibM ℝ) (hm : m.IsReal) (b : Battery ℝ) (P soc : ℝ)
    (hR : 0 < b.pack_resistance) (hV : 0 ≤ b.current_voltage soc) (hP : 0 ≤ P) :
    ∃ loss, b.power_loss m P soc = some loss ∧ 0 ≤ loss ∧ loss ≤ P := by
  have hD : 0 ≤ b.current_voltage soc * b.current_voltage soc + 4 * b.pack_resistance * P := by
    have := mul_self_nonneg (b.current_voltage soc)
    positivity
  refine ⟨_, by rw [Battery.power_loss_discharge m b P soc hP, if_neg (not_lt.mpr hD)], ?_, ?_⟩
  · exact mul_nonneg (mul_self_nonneg _) hR.le
  · rw [hm.1]
    exact Battery.discharge_loss_le _ _ _ _ hR hV hP (Real.sqrt_nonneg _) (Real.mul_self_sqrt hD)

/-- With the real square root, a pack of positive resistance and non-negative
voltage returns on a charge of non-negative discriminant a loss between 0 and
the power offered. -/
theorem Battery.real_charge_loss (m : LibM ℝ) (hm : m.IsReal) (b : Battery ℝ) (P soc : ℝ)
    (hR : 0 < b.pack_resistance) (hV : 0 ≤ b.current_voltage soc) (hP : P < 0)
    (hD : 0 ≤ b.current_voltage soc * b.current_voltage soc - 4 * b.pack_resistance * (-P)) :
    ∃ loss, b.power_loss m P soc = some loss ∧ 0 ≤ loss ∧ loss ≤ -P := by
  refine ⟨_, by rw [Battery.power_loss_charge m b P soc hP, if_neg (not_lt.mpr hD)], ?_, ?_⟩
  · exact mul_nonneg (mul_self_nonneg _) hR.le
  · rw [hm.1]
    exact (Battery.charge_loss_le _ _ _ _ hR hV (Real.sqrt_nonneg _)
      (Real.mul_self_sqrt hD)).2 (by linarith)

end BatteryReal

/-! ## The steps of static charging -/

section ChargingSteps

variable {α : Type} [LinearOrderedField α]

namespace RaceRunner

/-- With enough fuel, under an irradiance that is `G` at the station at every
time from `current_time` to `end_time`, the charging loop adds the array power
at `G` times the time left to `end_time`. -/
theorem static_charging_loop_constant (car : SolarCar α) (weather : Weather α)
    (weather_station end_time G : α) :
    ∀ (fuel : Nat) (current_time total_energy : α),
      end_time ≤ current_time + STATIC_CHARGING_TIME_INCREMENT * fuel →
      (∀ t, current_time ≤ t → t ≤ end_time →
        (weather.get_weather_at weather_station t).irradiance = G) →
      static_charging_loop car weather weather_station end_time fuel current_time total_energy
        = total_energy + car.array.power_in G * max (end_time - current_time) 0 / 3600 := by
  intro fuel
  induction fuel with
  | zero =>
    intro t total h _
    simp only [Nat.cast_zero, mul_zero, add_zero] at h
    simp [static_charging_loop, max_eq_right (by linarith : end_time - t ≤ 0)]
  | succ n ih =>
    intro t total h hG
    have h300 : (0 : α) < STATIC_CHARGING_TIME_INCREMENT := by
      unfold STATIC_CHARGING_TIME_INCREMENT; norm_num
    simp only [static_charging_loop]
    split_ifs with hlt
    · have hmin1 : t ≤ min (t + STATIC_CHARGING_TIME_INCREMENT) end_time :=
        le_min (by linarith) hlt.le
      have hirr : (weather.get_weather_during weather_station t
          (min (t + STATIC_CHARGING_TIME_INCREMENT) end_time)).irradiance = G := by
        simp only [Weather.get_weather_during, WeatherDataPoint.average]
        rw [hG t le_rfl hlt.le, hG _ hmin1 (min_le_right _ _)]
        ring
      rw [hirr, ih (t + STATIC_CHARGING_TIME_INCREMENT) _ (by push_cast at h; linarith)
        (fun u hu1 hu2 => hG u (by linarith) hu2),
        max_eq_left (by linarith : (0 : α) ≤ end_time - t)]
      rcases le_total (t + STATIC_CHARGING_TIME_INCREMENT) end_time with hc | hc
      · rw [min_eq_left hc, max_eq_left (by linarith)]; ring
      · rw [min_eq_right hc, max_eq_right (by linarith)]; ring
    · simp [max_eq_right (by linarith [not_lt.mp hlt] : end_time - t ≤ 0)]

/-- The fuel `calculate_static_charging_gain` gives its loop reaches the end of
the window. -/
theorem static_charging_steps_enough [FloorRing α] (start_time end_time : α) :
    end_time ≤ start_time + STATIC_CHARGING_TIME_INCREMENT
      * (static_charging_steps start_time end_time : Nat) := by
  have h300 : (0 : α) < STATIC_CHARGING_TIME_INCREMENT := by
    unfold STATIC_CHARGING_TIME_INCREMENT; norm_num
  have := Nat.le_ceil ((end_time - start_time) / STATIC_CHARGING_TIME_INCREMENT)
  have h2 := (div_le_iff₀ h300).mp this
  unfold static_charging_steps
  linarith

end RaceRunner

end ChargingSteps

/-! ## The apparent wind -/

section Wind

variable {α : Type} [LinearOrderedField α]

/-- `Aerobody::get_wind` in the components of the reported wind and of the car
velocity, for every libm. -/
theorem Aerobody.get_wind_eq (m : LibM α) (r c : VelocityVector α) :
    Aerobody.get_wind m r c =
      { speed := m.sqrt ((r.north_south + c.north_south) * (r.north_south + c.north_south)
          + (r.east_west + c.east_west) * (r.east_west + c.east_west)),
        yaw := c.angle_between m
          ⟨r.north_south + c.north_south, r.east_west + c.east_west⟩ } := by
  simp only [Aerobody.get_wind, VelocityVector.from_cartesian_components,
    VelocityVector.get_north_south, VelocityVector.get_east_west,
    VelocityVector.get_magnitude]
  have h1 : (-r.north_south - c.north_south) * (-r.north_south - c.north_south)
      + (-r.east_west - c.east_west) * (-r.east_west - c.east_west)
      = (r.north_south + c.north_south) * (r.north_south + c.north_south)
        + (r.east_west + c.east_west) * (r.east_west + c.east_west) := by ring
  have h2 : -(-r.north_south - c.north_south) = r.north_south + c.north_south := by ring
  have h3 : -(-r.east_west - c.east_west) = r.east_west + c.east_west := by ring
  rw [h1, h2, h3]

/-- With the real libm, the angle from a vector to a non-negative multiple of it
is 0. -/
theorem VelocityVector.angle_between_same_heading (m : LibM ℝ) (hm : m.IsReal)
    (a b : VelocityVector ℝ) (k : ℝ) (hk : 0 ≤ k) (hns : b.north_south = k * a.north_south)
    (hew : b.east_west = k * a.east_west) : a.angle_between m b = 0 := by
  unfold VelocityVector.angle_between
  split_ifs
  · rfl
  · rw [hm.2.2.2.1, hns, hew]
    have h1 : a.east_west * (k * a.north_south) - a.north_south * (k * a.east_west) = 0 := by
      ring
    have h2 : (0 : ℝ) ≤ a.north_south * (k * a.north_south) + a.east_west * (k * a.east_west) := by
      have := mul_self_nonneg a.north_south
      have := mul_self_nonneg a.east_west
      nlinarith [mul_nonneg hk (mul_self_nonneg a.north_south),
        mul_nonneg hk (mul_self_nonneg a.east_west)]
    rw [h1]
    have : (⟨a.north_south * (k * a.north_south) + a.east_west * (k * a.east_west), 0⟩ : ℂ)
        = ((a.north_south * (k * a.north_south) + a.east_west * (k * a.east_west) : ℝ) : ℂ) := by
      apply Complex.ext <;> simp
    rw [this]
    exact Complex.arg_ofReal_of_nonneg h2

end Wind

/-! ## Scenario S1 with the real libm -/

section Golden

/-- Upper bound of `exp (k + x)` for a natural `k` and `0 ≤ x ≤ 1`, from the
partial sum of the exponential series with its remainder. -/
theorem exp_nat_add_le (k n : ℕ) (x : ℝ) (h0 : 0 ≤ x) (h1 : x ≤ 1) (hn : 0 < n) :
    Real.exp (k + x) ≤ (27182818286 / 10000000000) ^ k *
      ((∑ i ∈ Finset.range n, x ^ i / (i.factorial : ℝ))
        + x ^ n * (n + 1) / ((n.factorial : ℝ) * n)) := by
  rw [Real.exp_add, ← Real.exp_one_pow]
  have he : Real.exp 1 ≤ 27182818286 / 10000000000 := by
    have := Real.exp_one_lt_d9
    norm_num at this ⊢
    exact this.le
  have hx := Real.exp_bound' h0 h1 hn
  have hp : Real.exp 1 ^ k ≤ (27182818286 / 10000000000 : ℝ) ^ k :=
    pow_le_pow_left₀ (Real.exp_pos 1).le he k
  exact mul_le_mul hp hx (Real.exp_pos x).le (by positivity)

/-- Lower bound of `exp (k + x)` for a natural `k` and `0 ≤ x`, from the partial
sum of the exponential series. -/
theorem le_exp_nat_add (k n : ℕ) (x : ℝ) (h0 : 0 ≤ x) :
    (27182818283 / 10000000000) ^ k * (∑ i ∈ Finset.range n, x ^ i / (i.factorial : ℝ))
      ≤ Real.exp (k + x) := by
  rw [Real.exp_add, ← Real.exp_one_pow]
  have he : (27182818283 / 10000000000 : ℝ) ≤ Real.exp 1 := by
    have := Real.exp_one_gt_d9
    norm_num at this ⊢
    exact this.le
  have hx := Real.sum_le_exp_of_nonneg h0 n
  have hp : (27182818283 / 10000000000 : ℝ) ^ k ≤ Real.exp 1 ^ k :=
    pow_le_pow_left₀ (by norm_num) he k
  have hs : (0 : ℝ) ≤ ∑ i ∈ Finset.range n, x ^ i / (i.factorial : ℝ) :=
    Finset.sum_nonneg (fun i _ => by positivity)
  exact mul_le_mul hp hx hs (by positivity)

/-- The logarithm of the tyre pressure 181.903 of scenario S1. -/
theorem s1_log_pressure :
    (520346 / 100000 : ℝ) ≤ Real.log (181903 / 1000) ∧
      Real.log (181903 / 1000) ≤ 520349 / 100000 := by
  constructor
  · rw [Real.le_log_iff_exp_le (by norm_num)]
    have h := exp_nat_add_le 5 10 (20346 / 100000) (by norm_num) (by norm_num) (by norm_num)
    have e : ((5 : ℕ) : ℝ) + 20346 / 100000 = 520346 / 100000 := by norm_num
    rw [e] at h
    refine h.trans ?_
    simp only [Finset.sum_range_succ, Finset.sum_range_zero, Nat.factorial]
    norm_num
  · rw [Real.log_le_iff_le_exp (by norm_num)]
    have h := le_exp_nat_add 5 10 (20349 / 100000) (by norm_num)
    have e : ((5 : ℕ) : ℝ) + 20349 / 100000 = 520349 / 100000 := by norm_num
    rw [e] at h
    refine le_trans ?_ h
    simp only [Finset.sum_range_succ, Finset.sum_range_zero, Nat.factorial]
    norm_num

/-- The logarithm of the tyre load `(159.339 / 3) * 9.80449` of scenario S1. -/
theorem s1_log_load :
    (625525 / 100000 : ℝ) ≤ Real.log (159339 / 1000 / 3 * (980449 / 100000)) ∧
      Real.log (159339 / 1000 / 3 * (980449 / 100000)) ≤ 625527 / 100000 := by
  constructor
  · rw [Real.le_log_iff_exp_le (by norm_num)]
    have h := exp_nat_add_le 6 10 (25525 / 100000) (by norm_num) (by norm_num) (by norm_num)
    have e : ((6 : ℕ) : ℝ) + 25525 / 100000 = 625525 / 100000 := by norm_num
    rw [e] at h
    refine h.trans ?_
    simp only [Finset.sum_range_succ, Finset.sum_range_zero, Nat.factorial]
    norm_num
  · rw [Real.log_le_iff_le_exp (by norm_num)]
    have h := le_exp_nat_add 6 10 (25527 / 100000) (by norm_num)
    have e : ((6 : ℕ) : ℝ) + 25527 / 100000 = 625527 / 100000 := by norm_num
    rw [e] at h
    refine le_trans ?_ h
    simp only [Finset.sum_range_succ, Finset.sum_range_zero, Nat.factorial]
    norm_num

/-- The product of the pressure term and the load term of the tyre of scenario
S1 lies between 11.738 and 11.7433. -/
theorem s1_pressure_load_term :
    (11738 / 1000 : ℝ) ≤ (181903 / 1000 : ℝ) ^ (-877003 / 100000 : ℝ)
        * (159339 / 1000 / 3 * (980449 / 100000) : ℝ) ^ (768916 / 100000 : ℝ) ∧
      (181903 / 1000 : ℝ) ^ (-877003 / 100000 : ℝ)
        * (159339 / 1000 / 3 * (980449 / 100000) : ℝ) ^ (768916 / 100000 : ℝ)
          ≤ 117433 / 10000 := by
  obtain ⟨hp1, hp2⟩ := s1_log_pressure
  obtain ⟨hz1, hz2⟩ := s1_log_load
  rw [Real.rpow_def_of_pos (by norm_num), Real.rpow_def_of_pos (by norm_num), ← Real.exp_add]
  generalize Real.log (181903 / 1000) = lp at hp1 hp2 ⊢
  generalize Real.log (159339 / 1000 / 3 * (980449 / 100000)) = lz at hz1 hz2 ⊢
  have hE1 : (246285 / 100000 : ℝ) ≤ lp * (-877003 / 100000) + lz * (768916 / 100000) := by
    linarith
  have hE2 : lp * (-877003 / 100000) + lz * (768916 / 100000) ≤ (246328 / 100000 : ℝ) := by
    linarith
  constructor
  · refine le_trans ?_ (Real.exp_le_exp.mpr hE1)
    have h := le_exp_nat_add 2 12 (46285 / 100000) (by norm_num)
    have e : ((2 : ℕ) : ℝ) + 46285 / 100000 = 246285 / 100000 := by norm_num
    rw [e] at h
    refine le_trans ?_ h
    simp only [Finset.sum_range_succ, Finset.sum_range_zero, Nat.factorial]
    norm_num
  · refine (Real.exp_le_exp.mpr hE2).trans ?_
    have h := exp_nat_add_le 2 12 (46328 / 100000) (by norm_num) (by norm_num) (by norm_num)
    have e : ((2 : ℕ) : ℝ) + 46328 / 100000 = 246328 / 100000 := by norm_num
    rw [e] at h
    refine h.trans ?_
    simp only [Finset.sum_range_succ, Finset.sum_range_zero, Nat.factorial]
    norm_num

/-- With the real libm the drag on a car driving at `v ≥ 0` in a wind of speed
`ws ≥ 0` is non-negative and at most the drag of the head wind `ws + v`. -/
theorem Aerobody.real_drag_bounds (m : LibM ℝ) (hm : m.IsReal) (ab : Aerobody ℝ)
    (ws wd v h rho : ℝ) (hws : 0 ≤ ws) (hv : 0 ≤ v) (hrho : 0 ≤ rho)
    (hcd : 0 ≤ ab.drag_coefficient) (hA : 0 ≤ ab.frontal_area) :
    0 ≤ ab.aerodynamic_drag m
        (Aerobody.get_wind m (VelocityVector.from_polar_components m ws wd)
          (VelocityVector.from_polar_components m v h)) rho ∧
      ab.aerodynamic_drag m
        (Aerobody.get_wind m (VelocityVector.from_polar_components m ws wd)
          (VelocityVector.from_polar_components m v h)) rho
        ≤ (1 / 2) * rho * ((ws + v) * (ws + v)) * ab.drag_coefficient * ab.frontal_area := by
  rw [Aerobody.get_wind_eq]
  simp only [Aerobody.aerodynamic_drag, VelocityVector.from_polar_components, hm.1, hm.2.1,
    hm.2.2.1]
  generalize (VelocityVector.angle_between m _ _) = yaw
  set Q : ℝ := (ws * Real.cos wd + v * Real.cos h) * (ws * Real.cos wd + v * Real.cos h)
    + (ws * Real.sin wd + v * Real.sin h) * (ws * Real.sin wd + v * Real.sin h) with hQ
  have hQ0 : 0 ≤ Q := add_nonneg (mul_self_nonneg _) (mul_self_nonneg _)
  have hQ1 : Q ≤ (ws + v) * (ws + v) := by
    have h1 := Real.sin_sq_add_cos_sq wd
    have h2 := Real.sin_sq_add_cos_sq h
    have h3 : Real.cos wd * Real.cos h + Real.sin wd * Real.sin h ≤ 1 := by
      nlinarith [sq_nonneg (Real.cos wd - Real.cos h), sq_nonneg (Real.sin wd - Real.sin h)]
    have h4 : Q = ws * ws * (Real.sin wd ^ 2 + Real.cos wd ^ 2)
        + v * v * (Real.sin h ^ 2 + Real.cos h ^ 2)
        + 2 * (ws * v) * (Real.cos wd * Real.cos h + Real.sin wd * Real.sin h) := by
      rw [hQ]; ring
    rw [h4, h1, h2]
    nlinarith [mul_le_mul_of_nonneg_left h3 (mul_nonneg hws hv)]
  have hw : Real.sqrt Q * Real.cos yaw * (Real.sqrt Q * Real.cos yaw) ≤ (ws + v) * (ws + v) := by
    have hc : Real.cos yaw ^ 2 ≤ 1 := Real.cos_sq_le_one yaw
    have hs : Real.sqrt Q * Real.sqrt Q = Q := Real.mul_self_sqrt hQ0
    have : Real.sqrt Q * Real.cos yaw * (Real.sqrt Q * Real.cos yaw)
        = Real.sqrt Q * Real.sqrt Q * Real.cos yaw ^ 2 := by ring
    rw [this, hs]
    nlinarith [mul_le_mul_of_nonneg_left hc hQ0]
  have hw0 : 0 ≤ Real.sqrt Q * Real.cos yaw * (Real.sqrt Q * Real.cos yaw) := mul_self_nonneg _
  generalize Real.sqrt Q * Real.cos yaw = w at hw hw0 ⊢
  have e : 1 / 2 * rho * w * w * ab.drag_coefficient * ab.frontal_area
      = 1 / 2 * rho * (w * w) * ab.drag_coefficient * ab.frontal_area := by ring
  rw [e]
  constructor
  · positivity
  · gcongr

/-- Scenario S1 with the real libm: the resistive force at 19.459 m/s is
29945.2 N within the relative tolerance 1/1000 of the test. -/
theorem s1_resistive_force (m : LibM ℝ) (hm : m.IsReal) :
    |RaceSegmentRunner.calculate_resistive_force m (Example.s1_car ℝ) (Example.s1_segment ℝ)
        (Example.s1_weather m) (19459 / 1000) - 299452 / 10| ≤ 299452 / 10 * (1 / 1000) := by
  obtain ⟨hd0, hd1⟩ := Aerobody.real_drag_bounds m hm (Example.s1_car ℝ).aerobody
    (138307 / 10000) (390525 / 100000) (19459 / 1000) (518201 / 100000) (120163 / 100000)
    (by norm_num) (by norm_num) (by norm_num) (by norm_num [Example.s1_car])
    (by norm_num [Example.s1_car])
  obtain ⟨hx0, hx1⟩ := s1_pressure_load_term
  simp only [RaceSegmentRunner.calculate_resistive_force, Tire.rolling_resistance,
    Example.s1_car, Example.s1_segment, Example.s1_weather, Option.getD, hm.2.2.2.2.1] at hd0 hd1 ⊢
  generalize (181903 / 1000 : ℝ) ^ (-877003 / 100000 : ℝ)
        * (159339 / 1000 / 3 * (980449 / 100000) : ℝ) ^ (768916 / 100000 : ℝ) = X at hx0 hx1 ⊢
  generalize Aerobody.aerodynamic_drag m _ _ _ = D at hd0 hd1 ⊢
  rw [abs_le]
  constructor <;> norm_num at hd1 ⊢ <;> linarith

end Golden

/-! ## Velocity vectors with the real libm -/

section RealVectors

/-- With the real libm the magnitude of the vector of polar components
`(speed, heading)` is `speed`, for `speed ≥ 0`. -/
theorem VelocityVector.real_magnitude_polar (m : LibM ℝ) (hm : m.IsReal) (speed heading : ℝ)
    (hs : 0 ≤ speed) :
    (VelocityVector.from_polar_components m speed heading).get_magnitude m = speed := by
  simp only [VelocityVector.get_magnitude, VelocityVector.from_polar_components, hm.1, hm.2.1,
    hm.2.2.1]
  have h : speed * Real.cos heading * (speed * Real.cos heading)
      + speed * Real.sin heading * (speed * Real.sin heading) = speed * speed := by
    have := Real.sin_sq_add_cos_sq heading
    nlinarith
  rw [h, Real.sqrt_mul_self hs]

/-- The argument of the point `(s cos θ, s sin θ)` is `θ`, for `s > 0` and
`θ` in `(-π, π]`. -/
theorem VelocityVector.real_arg_polar (s θ : ℝ) (hs : 0 < s) (h1 : -Real.pi < θ)
    (h2 : θ ≤ Real.pi) :
    Complex.arg ⟨s * Real.cos θ, s * Real.sin θ⟩ = θ := by
  have e : (⟨s * Real.cos θ, s * Real.sin θ⟩ : ℂ)
      = (s : ℂ) * (Complex.cos θ + Complex.sin θ * Complex.I) := by
    apply Complex.ext
    · simp [← Complex.ofReal_cos, ← Complex.ofReal_sin]
    · simp [← Complex.ofReal_cos, ← Complex.ofReal_sin]
  rw [e]
  exact Complex.arg_mul_cos_add_sin_mul_I hs ⟨h1, h2⟩

/-- With the real libm, the heading of the vector of polar components
`(speed, heading)` is `heading`, for `speed > 0` and `heading` in `[0, 2π)`. -/
theorem VelocityVector.real_heading_polar (m : LibM ℝ) (hm : m.IsReal) (speed heading : ℝ)
    (hs : 0 < speed) (h0 : 0 ≤ heading) (h1 : heading < 2 * Real.pi) :
    (VelocityVector.from_polar_components m speed heading).get_heading m = heading := by
  simp only [VelocityVector.get_heading, VelocityVector.from_polar_components, hm.2.2.2.1,
    hm.2.1, hm.2.2.1, hm.2.2.2.2.2]
  have hpi := Real.pi_pos
  by_cases hle : heading ≤ Real.pi
  · rw [VelocityVector.real_arg_polar speed heading hs (by linarith) hle, if_neg (not_lt.mpr h0)]
  · have hc : Real.cos heading = Real.cos (heading - 2 * Real.pi) :=
      (Real.cos_sub_two_pi heading).symm
    have hsn : Real.sin heading = Real.sin (heading - 2 * Real.pi) :=
      (Real.sin_sub_two_pi heading).symm
    rw [hc, hsn, VelocityVector.real_arg_polar speed (heading - 2 * Real.pi) hs (by linarith)
      (by linarith), if_pos (by linarith)]
    ring

/-- With the real libm, `angle_between` of two vectors of positive speeds and
headings `h1`, `h2` with `-π < h1 - h2 ≤ π` is `h1 - h2`. -/
theorem VelocityVector.real_angle_between_polar (m : LibM ℝ) (hm : m.IsReal)
    (s1 s2 h1 h2 : ℝ) (hs1 : 0 < s1) (hs2 : 0 < s2) (hlo : -Real.pi < h1 - h2)
    (hhi : h1 - h2 ≤ Real.pi) :
    (VelocityVector.from_polar_components m s1 h1).angle_between m
      (VelocityVector.from_polar_components m s2 h2) = h1 - h2 := by
  have hm1 := VelocityVector.real_magnitude_polar m hm s1 h1 hs1.le
  have hm2 := VelocityVector.real_magnitude_polar m hm s2 h2 hs2.le
  unfold VelocityVector.angle_between
  rw [hm1, hm2, if_neg (by rintro (h | h) <;> linarith)]
  simp only [VelocityVector.from_polar_components, hm.2.2.2.1, hm.2.1, hm.2.2.1]
  have e1 : s1 * Real.sin h1 * (s2 * Real.cos h2) - s1 * Real.cos h1 * (s2 * Real.sin h2)
      = s1 * s2 * Real.sin (h1 - h2) := by
    rw [Real.sin_sub]; ring
  have e2 : s1 * Real.cos h1 * (s2 * Real.cos h2) + s1 * Real.sin h1 * (s2 * Real.sin h2)
      = s1 * s2 * Real.cos (h1 - h2) := by
    rw [Real.cos_sub]; ring
  rw [e1, e2]
  exact VelocityVector.real_arg_polar (s1 * s2) (h1 - h2) (mul_pos hs1 hs2) hlo hhi

end RealVectors

/-! ## Distances along the route -/

section RouteDistance
variable {α : Type} [LinearOrderedField α]

/-- The accumulation of `get_distance_between` over `iota(a, a + n)` adds the
distances of the segments `a, …, a + n - 1`. -/
theorem Route.foldl_distance (route : Route α) :
    ∀ (n a : Nat) (acc : α),
      (List.range' a n).foldl
          (fun sum index => sum + (route.segments.getD index RouteSegment.zero).distance) acc
        = acc + ∑ k ∈ Finset.Ico a (a + n), (route.get_segment k).distance := by
  intro n
  induction n with
  | zero => intro a acc; simp
  | succ n ih =>
    intro a acc
    rw [List.range'_succ, List.foldl_cons, ih,
      Finset.sum_eq_sum_Ico_succ_bot (by omega : a < a + (n + 1))]
    have e : a + 1 + n = a + (n + 1) := by omega
    rw [e]
    simp only [Route.get_segment]
    ring

/-- For ordered indices within the route or at its end, `get_distance_between`
is the sum of the distances of the segments from the lower index up to, not
including, the upper one. -/
theorem Route.get_distance_between_ordered (route : Route α) (lo hi : Nat) (h : lo ≤ hi)
    (hhi : hi ≤ route.segments.length) :
    route.get_distance_between lo hi = ∑ k ∈ Finset.Ico lo hi, (route.get_segment k).distance ∧
      route.get_distance_between hi lo
        = ∑ k ∈ Finset.Ico lo hi, (route.get_segment k).distance := by
  rcases Nat.eq_or_lt_of_le h with heq | hlt
  · subst heq
    simp [Route.get_distance_between]
  · have h1 : lo ≠ hi := Nat.ne_of_lt hlt
    have h2 : ¬ lo > hi := Nat.not_lt.mpr h
    have h3 : ¬ (lo > route.segments.length ∨ hi > route.segments.length) := by
      rintro (h | h) <;> omega
    have e : lo + (hi - lo) = hi := by omega
    constructor
    · simp only [Route.get_distance_between, if_neg h1, if_neg h2, if_neg h3,
        Route.foldl_distance, zero_add, e]
    · simp only [Route.get_distance_between, if_neg h1.symm, if_pos hlt, if_neg h3,
        Route.foldl_distance, zero_add, e]

end RouteDistance

/-! ## The weather splines -/

section Splines
variable {α : Type} [LinearOrderedField α]
open SplineWeather

/-- The position `upper_bound` returns is within the list. -/
theorem SplineWeather.upper_bound_le (time : α) :
    ∀ splines : List (SplineAndStartTime α), upper_bound time splines ≤ splines.length := by
  intro splines
  induction splines with
  | nil => simp [upper_bound]
  | cons s rest ih =>
    unfold upper_bound
    split_ifs
    · exact Nat.zero_le _
    · simpa using ih

/-- On splines sorted by start time, every spline before the position
`upper_bound` returns starts at or before `time`, and every spline from that
position on starts after `time`. -/
theorem SplineWeather.upper_bound_spec (time : α) :
    ∀ splines : List (SplineAndStartTime α),
      splines.Pairwise (fun a b => a.start_time ≤ b.start_time) →
      ∀ (k : Nat) (s : SplineAndStartTime α), splines.get? k = some s →
        (k < upper_bound time splines ↔ s.start_time ≤ time) := by
  intro splines
  induction splines with
  | nil => intro _ k s h; simp at h
  | cons a rest ih =>
    intro hs k s hk
    rw [List.pairwise_cons] at hs
    unfold upper_bound
    by_cases ha : time < a.start_time
    · rw [if_pos ha]
      have hmem : s = a ∨ s ∈ rest := by
        cases k with
        | zero => simp at hk; exact Or.inl hk.symm
        | succ k => exact Or.inr (List.get?_mem hk)
      have : time < s.start_time := by
        rcases hmem with h | h
        · rw [h]; exact ha
        · exact lt_of_lt_of_le ha (hs.1 s h)
      constructor
      · intro h; omega
      · intro h; exact absurd h (not_le.mpr this)
    · rw [if_neg ha]
      cases k with
      | zero =>
        simp at hk
        rw [← hk]
        exact ⟨fun _ => not_lt.mp ha, fun _ => Nat.succ_pos _⟩
      | succ k =>
        have := ih hs.2 k s (by simpa using hk)
        rw [← this]
        omega

end Splines

/-! ## The trace of the bisection -/

section BisectTrace
variable {α : Type} [LinearOrderedField α]
open BinarySearchOptimizer

end BisectTrace

/-! ## The solar car with the real libm -/

section RealSolarCar

open Example

/-- With the real square root the solar car on a level segment under an
irradiance of 3600 W/m² stores 3200 W. -/
theorem real_solar_car_power_net (m : LibM ℝ) (hm : m.IsReal) (soc v : ℝ) :
    RaceSegmentRunner.calculate_power_net m (solar_car_over ℝ) RouteSegment.zero
      ⟨⟨0, 0⟩, 3600, 0, 0, 1, 0⟩ soc v = some 3200 := by
  have h160 : Real.sqrt 25600 = 160 := by
    rw [show (25600 : ℝ) = 160 * 160 by norm_num, Real.sqrt_mul_self (by norm_num)]
  simp [RaceSegmentRunner.calculate_power_net, RaceSegmentRunner.calculate_power_in,
    RaceSegmentRunner.calculate_power_out, RaceSegmentRunner.calculate_resistive_force,
    Battery.power_loss, Battery.current_voltage, Motor.power_consumed, Array.power_in,
    Tire.rolling_resistance, Aerobody.aerodynamic_drag, solar_car_over, RouteSegment.zero, hm.1]
  norm_num [h160]

end RealSolarCar

/-! ## The iterations of the main loop, case by case -/

section Iterations
variable {α : Type} [LinearOrderedField α] [FloorRing α]
namespace RaceRunner

/-- An iteration entered at or after today's race end: end-of-day handling. -/
theorem loop_body_end_of_day (m : LibM α) (car : SolarCar α) (route : Route α)
    (weather : Weather α) (schedule : RaceSchedule α) (speed : α) (s : RaceState α)
    (hend : (schedule.day s.current_day).race_end_time ≤ s.current_time) :
    loop_body m car route weather schedule speed s =
      if s.current_day + 1 ≥ schedule.length then LoopStep.ret none
      else LoopStep.next
        { energy_remaining := s.energy_remaining
            + calculate_static_charging_gain car weather
                (route.get_segment s.current_segment_index).weather_station
                (schedule.day s.current_day).evening_charging_start_time
                (schedule.day s.current_day).evening_charging_end_time
            + calculate_static_charging_gain car weather
                (route.get_segment s.current_segment_index).weather_station
                (schedule.day (s.current_day + 1)).morning_charging_start_time
                (schedule.day (s.current_day + 1)).morning_charging_end_time,
          total_racetime := s.total_racetime,
          current_segment_index := s.current_segment_index,
          remaining_segment_distance := 0,
          current_day := s.current_day + 1,
          current_time := (schedule.day (s.current_day + 1)).race_start_time } := by
  unfold loop_body
  simp only [ge_iff_le, hend, if_true, update_energy_remaining]

/-- An iteration that drives its segment to the end: the segment is completed,
with the dwell when it ends in a CONTROL_STOP strictly before the race end. -/
theorem loop_body_drive_whole (m : LibM α) (car : SolarCar α) (route : Route α)
    (weather : Weather α) (schedule : RaceSchedule α) (speed : α) (s : RaceState α)
    (segment_distance net_power : α)
    (hd : segment_distance = if s.remaining_segment_distance > 0 then s.remaining_segment_distance
      else (route.get_segment s.current_segment_index).distance)
    (hnow : s.current_time < (schedule.day s.current_day).race_end_time)
    (hfit : s.current_time + segment_distance / speed
      ≤ (schedule.day s.current_day).race_end_time)
    (hnet : RaceSegmentRunner.calculate_power_net m car
      (route.get_segment s.current_segment_index)
      (weather.get_weather_during (route.get_segment s.current_segment_index).weather_station
        s.current_time (s.current_time + segment_distance / speed))
      (car.battery.state_of_charge s.energy_remaining) speed = some net_power)
    (hen : 0 ≤ s.energy_remaining + net_power * (segment_distance / speed) / 3600) :
    loop_body m car route weather schedule speed s =
      if (route.get_segment s.current_segment_index).end_condition
            = SegmentEndCondition.CONTROL_STOP ∧
          s.current_time + segment_distance / speed
            < (schedule.day s.current_day).race_end_time then
        LoopStep.next
          { energy_remaining := s.energy_remaining
              + net_power * (segment_distance / speed) / 3600
              + calculate_static_charging_gain car weather
                  (route.get_segment s.current_segment_index).weather_station
                  (s.current_time + segment_distance / speed)
                  (s.current_time + segment_distance / speed + 1800),
            total_racetime := s.total_racetime + segment_distance / speed + 1800,
            current_segment_index := s.current_segment_index + 1,
            remaining_segment_distance := 0,
            current_day := s.current_day,
            current_time := s.current_time + segment_distance / speed + 1800 }
      else
        LoopStep.next
          { energy_remaining := s.energy_remaining
              + net_power * (segment_distance / speed) / 3600,
            total_racetime := s.total_racetime + segment_distance / speed,
            current_segment_index := s.current_segment_index + 1,
            remaining_segment_distance := 0,
            current_day := s.current_day,
            current_time := s.current_time + segment_distance / speed } := by
  have h1 : ¬ s.current_time ≥ (schedule.day s.current_day).race_end_time := not_le.mpr hnow
  have h2 : ¬ s.current_time + segment_distance / speed
      > (schedule.day s.current_day).race_end_time := not_lt.mpr hfit
  have h3 : ¬ s.energy_remaining + net_power * (segment_distance / speed) / 3600 < 0 :=
    not_lt.mpr hen
  unfold loop_body
  simp only [← hd, h1, h2, if_false, hnet, update_energy_remaining, h3, true_and,
    CHECKPOINT_DURATION]
  split_ifs <;> rfl

/-- An iteration whose segment does not fit before the race end: the segment is
split, the clock stops at the race end and the remainder is recorded. -/
theorem loop_body_drive_split (m : LibM α) (car : SolarCar α) (route : Route α)
    (weather : Weather α) (schedule : RaceSchedule α) (speed : α) (hv : 0 < speed)
    (s : RaceState α) (segment_distance net_power : α)
    (hd : segment_distance = if s.remaining_segment_distance > 0 then s.remaining_segment_distance
      else (route.get_segment s.current_segment_index).distance)
    (hnow : s.current_time < (schedule.day s.current_day).race_end_time)
    (hsplit : (schedule.day s.current_day).race_end_time
      < s.current_time + segment_distance / speed)
    (hnet : RaceSegmentRunner.calculate_power_net m car
      (route.get_segment s.current_segment_index)
      (weather.get_weather_during (route.get_segment s.current_segment_index).weather_station
        s.current_time (schedule.day s.current_day).race_end_time)
      (car.battery.state_of_charge s.energy_remaining) speed = some net_power)
    (hen : 0 ≤ s.energy_remaining
      + net_power * ((schedule.day s.current_day).race_end_time - s.current_time) / 3600) :
    0 < segment_distance - speed * ((schedule.day s.current_day).race_end_time - s.current_time) ∧
    loop_body m car route weather schedule speed s =
      LoopStep.next
        { energy_remaining := s.energy_remaining
            + net_power * ((schedule.day s.current_day).race_end_time - s.current_time) / 3600,
          total_racetime := s.total_racetime
            + ((schedule.day s.current_day).race_end_time - s.current_time),
          current_segment_index := s.current_segment_index,
          remaining_segment_distance := segment_distance
            - speed * ((schedule.day s.current_day).race_end_time - s.current_time),
          current_day := s.current_day,
          current_time := (schedule.day s.current_day).race_end_time } := by
  have h1 : ¬ s.current_time ≥ (schedule.day s.current_day).race_end_time := not_le.mpr hnow
  have h2 : s.current_time + segment_distance / speed
      > (schedule.day s.current_day).race_end_time := hsplit
  have h3 : ¬ s.energy_remaining
      + net_power * ((schedule.day s.current_day).race_end_time - s.current_time) / 3600 < 0 :=
    not_lt.mpr hen
  have hrem : 0 < segment_distance
      - speed * ((schedule.day s.current_day).race_end_time - s.current_time) := by
    have : (schedule.day s.current_day).race_end_time - s.current_time
        < segment_distance / speed := by linarith
    have := (lt_div_iff₀ hv).mp this
    linarith
  refine ⟨hrem, ?_⟩
  unfold loop_body
  simp only [← hd, h1, h2, if_false, if_true, hnet, update_energy_remaining, h3, hrem.ne',
    false_and, lt_irrefl, and_false]

/-- An iteration before the race end whose driven sub-interval is infeasible,
by the net power or by the energy left after it, returns infeasible. -/
theorem loop_body_drive_infeasible (m : LibM α) (car : SolarCar α) (route : Route α)
    (weather : Weather α) (schedule : RaceSchedule α) (speed : α) (s : RaceState α)
    (segment_distance segment_end_time : α)
    (hd : segment_distance = if s.remaining_segment_distance > 0 then s.remaining_segment_distance
      else (route.get_segment s.current_segment_index).distance)
    (hnow : s.current_time < (schedule.day s.current_day).race_end_time)
    (he : segment_end_time = min (s.current_time + segment_distance / speed)
      (schedule.day s.current_day).race_end_time)
    (hbad : RaceSegmentRunner.calculate_power_net m car
        (route.get_segment s.current_segment_index)
        (weather.get_weather_during (route.get_segment s.current_segment_index).weather_station
          s.current_time segment_end_time)
        (car.battery.state_of_charge s.energy_remaining) speed = none ∨
      ∃ net_power, RaceSegmentRunner.calculate_power_net m car
        (route.get_segment s.current_segment_index)
        (weather.get_weather_during (route.get_segment s.current_segment_index).weather_station
          s.current_time segment_end_time)
        (car.battery.state_of_charge s.energy_remaining) speed = some net_power ∧
        s.energy_remaining + net_power * (segment_end_time - s.current_time) / 3600 < 0) :
    loop_body m car route weather schedule speed s = LoopStep.ret none := by
  have h1 : ¬ s.current_time ≥ (schedule.day s.current_day).race_end_time := not_le.mpr hnow
  unfold loop_body
  simp only [← hd, h1, if_false, update_energy_remaining]
  by_cases hs : s.current_time + segment_distance / speed
      > (schedule.day s.current_day).race_end_time
  · have hmin : segment_end_time = (schedule.day s.current_day).race_end_time := by
      rw [he, min_eq_right hs.le]
    rw [hmin] at hbad
    simp only [hs, if_true]
    rcases hbad with h | ⟨p, hp, hneg⟩
    · rw [h]
    · rw [hp]; simp only [hneg, if_true]
  · have hmin : segment_end_time = s.current_time + segment_distance / speed := by
      rw [he, min_eq_left (not_lt.mp hs)]
    rw [hmin] at hbad
    simp only [hs, if_false]
    rcases hbad with h | ⟨p, hp, hneg⟩
    · rw [h]
    · rw [hp]
      have : s.current_time + segment_distance / speed - s.current_time
          = segment_distance / speed := by ring
      rw [this] at hneg
      simp only [hneg, if_true]

end RaceRunner

end Iterations

/-! ## The states of a run -/

section Traces
variable {α : Type} [LinearOrderedField α] [FloorRing α]
namespace RaceRunner

end RaceRunner

end Traces

/-! ## The steps of static charging with more fuel -/

section ChargingStepsMore
variable {α : Type} [LinearOrderedField α]
namespace RaceRunner

end RaceRunner

end ChargingStepsMore

/-! ## Dwells and the lower bound of the racetime -/

section Dwells
variable {α : Type} [LinearOrderedField α] [FloorRing α]
namespace RaceRunner

/-- End-of-day handling takes no dwell. -/
theorem loop_body_dwells_end_of_day (m : LibM α) (car : SolarCar α) (route : Route α)
    (weather : Weather α) (schedule : RaceSchedule α) (speed : α) (s : RaceState α)
    (hend : (schedule.day s.current_day).race_end_time ≤ s.current_time) :
    loop_body_dwells m car route weather schedule speed s = 0 := by
  unfold loop_body_dwells
  simp only [ge_iff_le, hend, if_true]

/-- An iteration that drives its segment to the end takes the dwell exactly when
the segment ends in a CONTROL_STOP strictly before the race end. -/
theorem loop_body_dwells_whole (m : LibM α) (car : SolarCar α) (route : Route α)
    (weather : Weather α) (schedule : RaceSchedule α) (speed : α) (s : RaceState α)
    (segment_distance net_power : α)
    (hd : segment_distance = if s.remaining_segment_distance > 0 then s.remaining_segment_distance
      else (route.get_segment s.current_segment_index).distance)
    (hnow : s.current_time < (schedule.day s.current_day).race_end_time)
    (hfit : s.current_time + segment_distance / speed
      ≤ (schedule.day s.current_day).race_end_time)
    (hnet : RaceSegmentRunner.calculate_power_net m car
      (route.get_segment s.current_segment_index)
      (weather.get_weather_during (route.get_segment s.current_segment_index).weather_station
        s.current_time (s.current_time + segment_distance / speed))
      (car.battery.state_of_charge s.energy_remaining) speed = some net_power)
    (hen : 0 ≤ s.energy_remaining + net_power * (segment_distance / speed) / 3600) :
    loop_body_dwells m car route weather schedule speed s =
      if (route.get_segment s.current_segment_index).end_condition
            = SegmentEndCondition.CONTROL_STOP ∧
          s.current_time + segment_distance / speed
            < (schedule.day s.current_day).race_end_time then 1 else 0 := by
  have h1 : ¬ s.current_time ≥ (schedule.day s.current_day).race_end_time := not_le.mpr hnow
  have h2 : ¬ s.current_time + segment_distance / speed
      > (schedule.day s.current_day).race_end_time := not_lt.mpr hfit
  have h3 : ¬ s.energy_remaining + net_power * (segment_distance / speed) / 3600 < 0 :=
    not_lt.mpr hen
  unfold loop_body_dwells
  simp only [← hd, h1, h2, if_false, hnet, update_energy_remaining, h3, true_and]

/-- An iteration that splits its segment takes no dwell. -/
theorem loop_body_dwells_split (m : LibM α) (car : SolarCar α) (route : Route α)
    (weather : Weather α) (schedule : RaceSchedule α) (speed : α) (s : RaceState α)
    (segment_distance : α)
    (hd : segment_distance = if s.remaining_segment_distance > 0 then s.remaining_segment_distance
      else (route.get_segment s.current_segment_index).distance)
    (hsplit : (schedule.day s.current_day).race_end_time
      < s.current_time + segment_distance / speed) :
    loop_body_dwells m car route weather schedule speed s = 0 := by
  have h2 : s.current_time + segment_distance / speed
      > (schedule.day s.current_day).race_end_time := hsplit
  unfold loop_body_dwells
  simp only [← hd, h2, if_true, lt_irrefl, and_false, if_false]
  split_ifs
  · rfl
  · split <;> simp

/-- The racetime of a run is at least the time so far plus the driving time of
the segments left and 1800 s for each dwell taken, from a state that carries a
remainder only at or after the race end. -/
theorem race_loop_lower_bound (m : LibM α) (car : SolarCar α) (route : Route α)
    (weather : Weather α) (schedule : RaceSchedule α) (speed : α) (hv : 0 < speed) :
    ∀ (fuel : Nat) (s : RaceState α) (T : α),
      (0 < s.remaining_segment_distance →
        (schedule.day s.current_day).race_end_time ≤ s.current_time) →
      race_loop m car route weather schedule speed fuel s = some (some T) →
      s.total_racetime
          + ((route.segments.drop s.current_segment_index).map (fun seg => seg.distance)).sum
            / speed
          + 1800 * (race_dwells m car route weather schedule speed fuel s : α) ≤ T := by
  intro fuel
  induction fuel with
  | zero => intro s T _ h; simp [race_loop] at h
  | succ n ih =>
    intro s T hinv hrun
    unfold race_loop at hrun
    unfold race_dwells
    by_cases hi : s.current_segment_index < route.get_num_segments
    · rw [if_pos hi] at hrun
      rw [if_pos hi]
      cases hb : loop_body m car route weather schedule speed s with
      | ret r =>
        rw [hb] at hrun
        simp only at hrun
        have := loop_body_ret_none m car route weather schedule speed s r hb
        rw [this] at hrun
        cases hrun
      | next s1 =>
        rw [hb] at hrun
        simp only at hrun ⊢
        have hdrop := drop_segments route s.current_segment_index hi
        by_cases hend : (schedule.day s.current_day).race_end_time ≤ s.current_time
        · -- end-of-day handling
          have hb' := hb
          rw [loop_body_end_of_day m car route weather schedule speed s hend] at hb'
          split_ifs at hb' with hlast
          have e := LoopStep.next.inj hb'
          have hih := ih s1 T (by rw [← e]; intro h; exact absurd h (lt_irrefl _)) hrun
          rw [loop_body_dwells_end_of_day m car route weather schedule speed s hend]
          have e1 : s1.total_racetime = s.total_racetime := by rw [← e]
          have e2 : s1.current_segment_index = s.current_segment_index := by rw [← e]
          rw [e1, e2] at hih
          simpa using hih
        · have hnow : s.current_time < (schedule.day s.current_day).race_end_time :=
            not_le.mp hend
          have hrem : ¬ s.remaining_segment_distance > 0 := fun h => hend (hinv h)
          have hd : (route.get_segment s.current_segment_index).distance
              = if s.remaining_segment_distance > 0 then s.remaining_segment_distance
                else (route.get_segment s.current_segment_index).distance := by
            rw [if_neg hrem]
          by_cases hsplit : (schedule.day s.current_day).race_end_time
              < s.current_time + (route.get_segment s.current_segment_index).distance / speed
          · -- the segment is split
            have he : (schedule.day s.current_day).race_end_time
                = min (s.current_time
                    + (route.get_segment s.current_segment_index).distance / speed)
                  (schedule.day s.current_day).race_end_time := by
              rw [min_eq_right hsplit.le]
            cases hnet : RaceSegmentRunner.calculate_power_net m car
                (route.get_segment s.current_segment_index)
                (weather.get_weather_during
                  (route.get_segment s.current_segment_index).weather_station
                  s.current_time (schedule.day s.current_day).race_end_time)
                (car.battery.state_of_charge s.energy_remaining) speed with
            | none =>
              rw [loop_body_drive_infeasible m car route weather schedule speed s _ _ hd hnow he
                (Or.inl hnet)] at hb
              cases hb
            | some p =>
              by_cases hen : s.energy_remaining
                  + p * ((schedule.day s.current_day).race_end_time - s.current_time) / 3600 < 0
              · rw [loop_body_drive_infeasible m car route weather schedule speed s _ _ hd hnow
                  he (Or.inr ⟨p, hnet, hen⟩)] at hb
                cases hb
              · obtain ⟨hrem1, hbody⟩ := loop_body_drive_split m car route weather schedule speed
                  hv s _ p hd hnow hsplit hnet (not_lt.mp hen)
                rw [hbody] at hb
                have e := LoopStep.next.inj hb
                have hih := ih s1 T (by rw [← e]; intro _; exact le_rfl) hrun
                rw [loop_body_dwells_split m car route weather schedule speed s _ hd hsplit]
                have e1 : s1.total_racetime = s.total_racetime
                    + ((schedule.day s.current_day).race_end_time - s.current_time) := by
                  rw [← e]
                have e2 : s1.current_segment_index = s.current_segment_index := by rw [← e]
                rw [e1, e2] at hih
                simp only [Nat.zero_add]
                linarith
          · -- the segment is completed
            have hfit := not_lt.mp hsplit
            have he : s.current_time
                  + (route.get_segment s.current_segment_index).distance / speed
                = min (s.current_time
                    + (route.get_segment s.current_segment_index).distance / speed)
                  (schedule.day s.current_day).race_end_time := by
              rw [min_eq_left hfit]
            cases hnet : RaceSegmentRunner.calculate_power_net m car
                (route.get_segment s.current_segment_index)
                (weather.get_weather_during
                  (route.get_segment s.current_segment_index).weather_station
                  s.current_time (s.current_time
                    + (route.get_segment s.current_segment_index).distance / speed))
                (car.battery.state_of_charge s.energy_remaining) speed with
            | none =>
              rw [loop_body_drive_infeasible m car route weather schedule speed s _ _ hd hnow he
                (Or.inl hnet)] at hb
              cases hb
            | some p =>
              by_cases hen : s.energy_remaining
                  + p * ((route.get_segment s.current_segment_index).distance / speed) / 3600 < 0
              · rw [loop_body_drive_infeasible m car route weather schedule speed s _ _ hd hnow
                  he (Or.inr ⟨p, hnet, by
                    have : s.current_time
                        + (route.get_segment s.current_segment_index).distance / speed
                        - s.current_time
                        = (route.get_segment s.current_segment_index).distance / speed := by
                      ring
                    rw [this]; exact hen⟩)] at hb
                cases hb
              · have hb' := hb
                rw [loop_body_drive_whole m car route weather schedule speed s _ p hd hnow hfit
                  hnet (not_lt.mp hen)] at hb'
                rw [loop_body_dwells_whole m car route weather schedule speed s _ p hd hnow hfit
                  hnet (not_lt.mp hen)]
                rw [hdrop, List.map_cons, List.sum_cons, add_div]
                split_ifs at hb' ⊢ with hdw
                · have e := LoopStep.next.inj hb'
                  have hih := ih s1 T (by rw [← e]; intro h; exact absurd h (lt_irrefl _)) hrun
                  have e1 : s1.total_racetime = s.total_racetime
                      + (route.get_segment s.current_segment_index).distance / speed
                      + 1800 := by rw [← e]
                  have e2 : s1.current_segment_index = s.current_segment_index + 1 := by
                    rw [← e]
                  rw [e1, e2] at hih
                  push_cast
                  linarith
                · have e := LoopStep.next.inj hb'
                  have hih := ih s1 T (by rw [← e]; intro h; exact absurd h (lt_irrefl _)) hrun
                  have e1 : s1.total_racetime = s.total_racetime
                      + (route.get_segment s.current_segment_index).distance / speed := by
                    rw [← e]
                  have e2 : s1.current_segment_index = s.current_segment_index + 1 := by
                    rw [← e]
                  rw [e1, e2] at hih
                  simp only [Nat.zero_add]
                  linarith
    · rw [if_neg hi] at hrun
      rw [if_neg hi]
      have hT : T = s.total_racetime := by
        have := Option.some.inj hrun
        exact (Option.some.inj this).symm
      have hlen : route.segments.length ≤ s.current_segment_index := by
        unfold Route.get_num_segments at hi; omega
      rw [List.drop_eq_nil_of_le hlen, hT]
      simp

end RaceRunner

end Dwells

/-! ## The rounding of doubles -/

section Rounding

/-- Rounding below the middle of a unit interval. -/
theorem round_half_even_low (q : ℚ) (f : ℤ) (h1 : (f : ℚ) ≤ q) (h2 : q < f + 1 / 2) :
    round_half_even q = f := by
  have hf : ⌊q⌋ = f := Int.floor_eq_iff.mpr ⟨h1, by linarith⟩
  unfold round_half_even
  rw [hf, if_pos (by linarith)]

/-- Rounding above the middle of a unit interval. -/
theorem round_half_even_high (q : ℚ) (f : ℤ) (h1 : (f : ℚ) + 1 / 2 < q) (h2 : q < f + 1) :
    round_half_even q = f + 1 := by
  have hf : ⌊q⌋ = f := Int.floor_eq_iff.mpr ⟨by linarith, h2⟩
  unfold round_half_even
  rw [hf, if_neg (by linarith), if_pos (by linarith)]

/-- A tie goes to the even neighbour. -/
theorem round_half_even_tie (q : ℚ) (f : ℤ) (h : q = f + 1 / 2) :
    round_half_even q = if f % 2 = 0 then f else f + 1 := by
  have hf : ⌊q⌋ = f := Int.floor_eq_iff.mpr ⟨by linarith, by linarith⟩
  unfold round_half_even
  rw [hf, if_neg (by linarith), if_neg (by linarith)]

/-- The double nearest to `x` at the binary exponent `e` of `x`. -/
theorem round_to_double_of_exponent (x : ℚ) (e : ℤ) (he : -1022 ≤ e) (h1 : (2 : ℚ) ^ e ≤ |x|)
    (h2 : |x| < (2 : ℚ) ^ (e + 1)) :
    round_to_double x = (round_half_even (x / 2 ^ (e - 52)) : ℚ) * 2 ^ (e - 52) := by
  have hpos : (0 : ℚ) < |x| := lt_of_lt_of_le (by positivity) h1
  have hx : x ≠ 0 := abs_pos.mp hpos
  have hlog : Int.log 2 |x| = e := by
    have a1 : e ≤ Int.log 2 |x| := (Int.zpow_le_iff_le_log (by norm_num) hpos).mp (by exact_mod_cast h1)
    have a2 : Int.log 2 |x| < e + 1 := (Int.lt_zpow_iff_log_lt (by norm_num) hpos).mp (by exact_mod_cast h2)
    omega
  unfold round_to_double
  rw [if_neg hx, hlog, max_eq_left he]

end Rounding

/-! ## The loops in machine arithmetic -/

section MachineLoops
variable {α : Type} [LinearOrderedField α]

/-- With additions that are exact on the grid, the sweep with rounded increments
from a grid speed is the sweep with exact ones. -/
theorem LinearSearchOptimizer.sweep_fl_exact (fl : α → α) (sim : α → Option α)
    (minimum_speed maximum_speed speed_step : α)
    (hexact : ∀ k : Nat, minimum_speed + k * speed_step ≤ maximum_speed →
      fl (minimum_speed + k * speed_step + speed_step)
        = minimum_speed + (k + 1 : Nat) * speed_step) :
    ∀ (fuel k : Nat) (bs br : α),
      sweep_fl fl sim maximum_speed speed_step fuel (minimum_speed + k * speed_step) bs br
        = sweep sim maximum_speed speed_step fuel (minimum_speed + k * speed_step) bs br := by
  intro fuel
  induction fuel with
  | zero => intro k bs br; rfl
  | succ n ih =>
    intro k bs br
    unfold sweep_fl sweep
    by_cases hle : minimum_speed + k * speed_step ≤ maximum_speed
    · have e : minimum_speed + k * speed_step + speed_step
          = minimum_speed + (k + 1 : Nat) * speed_step := by push_cast; ring
      rw [if_pos hle, if_pos hle, hexact k hle, e]
      cases sim (minimum_speed + k * speed_step) with
      | none => exact ih (k + 1) bs br
      | some T => exact ih (k + 1) _ _
    · rw [if_neg hle, if_neg hle]

/-- A sweep whose rounded increment does not move the speed never ends. -/
theorem LinearSearchOptimizer.sweep_fl_stuck (fl : α → α) (sim : α → Option α)
    (maximum_speed speed_step speed : α) (hle : speed ≤ maximum_speed)
    (hfl : fl (speed + speed_step) = speed) :
    ∀ (fuel : Nat) (bs br : α),
      sweep_fl fl sim maximum_speed speed_step fuel speed bs br = none := by
  intro fuel
  induction fuel with
  | zero => intro bs br; rfl
  | succ n ih =>
    intro bs br
    unfold sweep_fl
    rw [if_pos hle, hfl]
    cases sim speed with
    | none => exact ih bs br
    | some T => exact ih _ _

namespace RaceRunner

end RaceRunner

end MachineLoops

section MachineSteps
variable {α : Type} [LinearOrderedField α]

namespace LinearSearchOptimizer

/-- An iteration of the sweep with rounded increments at a feasible speed. -/
theorem sweep_fl_feasible (fl : α → α) (sim : α → Option α) (maximum_speed speed_step : α)
    (fuel : Nat) (speed bs br T : α) (hle : speed ≤ maximum_speed) (hsim : sim speed = some T) :
    sweep_fl fl sim maximum_speed speed_step (fuel + 1) speed bs br
      = sweep_fl fl sim maximum_speed speed_step fuel (fl (speed + speed_step)) speed T := by
  rw [sweep_fl, if_pos hle, hsim]

/-- The exit of the sweep with rounded increments. -/
theorem sweep_fl_exit (fl : α → α) (sim : α → Option α) (maximum_speed speed_step : α)
    (fuel : Nat) (speed bs br : α) (hgt : maximum_speed < speed) :
    sweep_fl fl sim maximum_speed speed_step (fuel + 1) speed bs br = some (bs, br) := by
  rw [sweep_fl, if_neg (not_le.mpr hgt)]

end LinearSearchOptimizer

end MachineSteps

/-! ## Values of the rounding -/

section RoundingValues

/-- In doubles `1 + 2⁻⁵³` is 1: the tie goes to the even neighbour. -/
theorem round_to_double_one_add_half_ulp : round_to_double (1 + 1 / 2 ^ 53) = 1 := by
  rw [round_to_double_of_exponent _ 0 (by norm_num)
    (by rw [abs_of_pos (by positivity)]; norm_num)
    (by rw [abs_of_pos (by positivity)]; norm_num),
    round_half_even_tie _ (2 ^ 52) (by norm_num)]
  norm_num

/-- In doubles `1 + 3 · 2⁻⁵³` is `1 + 2⁻⁵¹`. -/
theorem round_to_double_one_add_three_half_ulp :
    round_to_double (1 + 3 / 2 ^ 53) = 1 + 1 / 2 ^ 51 := by
  rw [round_to_double_of_exponent _ 0 (by norm_num)
    (by rw [abs_of_pos (by positivity)]; norm_num)
    (by rw [abs_of_pos (by positivity)]; norm_num),
    round_half_even_tie _ (2 ^ 52 + 1) (by norm_num)]
  norm_num

/-- In doubles `1 + 7 · 2⁻⁵³` is `1 + 2⁻⁵⁰`. -/
theorem round_to_double_one_add_seven_half_ulp :
    round_to_double (1 + 1 / 2 ^ 51 + 3 / 2 ^ 53) = 1 + 1 / 2 ^ 50 := by
  rw [round_to_double_of_exponent _ 0 (by norm_num)
    (by rw [abs_of_pos (by positivity)]; norm_num)
    (by rw [abs_of_pos (by positivity)]; norm_num),
    round_half_even_tie _ (2 ^ 52 + 3) (by norm_num)]
  norm_num

/-- An integer of at most 53 bits is a double. -/
theorem round_to_double_int (n : ℤ) (e : ℕ) (he : e ≤ 52) (h1 : (2 : ℤ) ^ e ≤ |n|)
    (h2 : |n| < (2 : ℤ) ^ (e + 1)) : round_to_double (n : ℚ) = n := by
  have a1 : (2 : ℚ) ^ (e : ℤ) ≤ |(n : ℚ)| := by
    rw [zpow_natCast]; exact_mod_cast h1
  have a2 : |(n : ℚ)| < (2 : ℚ) ^ ((e : ℤ) + 1) := by
    rw [show ((e : ℤ) + 1) = ((e + 1 : ℕ) : ℤ) by push_cast; ring, zpow_natCast]
    exact_mod_cast h2
  have hexp : (2 : ℚ) ^ ((e : ℤ) - 52) = 1 / 2 ^ (52 - e) := by
    rw [show ((e : ℤ) - 52) = -((52 - e : ℕ) : ℤ) by omega, zpow_neg, zpow_natCast, one_div]
  rw [round_to_double_of_exponent _ e (by omega) a1 a2, hexp]
  have hq : (n : ℚ) / (1 / 2 ^ (52 - e)) = ((n * 2 ^ (52 - e) : ℤ) : ℚ) := by
    push_cast; field_simp
  rw [hq, round_half_even_low _ (n * 2 ^ (52 - e)) le_rfl (by linarith)]
  push_cast
  field_simp


end RoundingValues

section MachineSearch
variable {α : Type} [LinearOrderedField α]

/-- With additions that are exact on the grid, the linear search with rounded
increments is the linear search with exact ones. -/
theorem LinearSearchOptimizer.search_fl_exact (fl : α → α) (sim : α → Option α)
    (minimum_speed maximum_speed speed_step : α)
    (hexact : ∀ k : Nat, minimum_speed + k * speed_step ≤ maximum_speed →
      fl (minimum_speed + k * speed_step + speed_step)
        = minimum_speed + (k + 1 : Nat) * speed_step) (fuel : Nat) :
    search_fl fl sim minimum_speed maximum_speed speed_step fuel
      = search sim minimum_speed maximum_speed speed_step fuel := by
  have h := sweep_fl_exact fl sim minimum_speed maximum_speed speed_step hexact fuel 0 0 0
  simp only [Nat.cast_zero, zero_mul, add_zero] at h
  unfold search_fl search
  rw [h]

end MachineSearch

section ExampleSpeeds
open RaceRunner Example

/-- The idle car drives one segment of 30 m at any speed that takes less than
the 1000 s of the race day. -/
theorem Example.idle_car_racetime (v : ℚ) (hv : 0 < v) (hfit : 30 / v < 1000) :
    calculate_racetime libm idle_car ⟨[level_segment 30 SegmentEndCondition.END_OF_RACE]⟩
      (still_weather 0) [race_day 1000 2000] v = some (30 / v) := by
  have h := calculate_racetime_in_day_feasible libm idle_car
    ⟨[level_segment 30 SegmentEndCondition.END_OF_RACE]⟩ (still_weather 0) [race_day 1000 2000]
    v hv
    (by intro seg hseg; simp at hseg; subst hseg; simp [level_segment])
    (by simp [idle_car])
    ⟨by simp [idle_car], by simp [idle_car], by intro st t; simp [still_weather]⟩
    (by
      intro seg hseg w soc
      simp at hseg; subst hseg
      exact ⟨0, le_rfl, idle_car_power_net libm sqrt_10000 _ (by simp [level_segment,
        RouteSegment.zero]) w soc v⟩)
    (by
      simp [day_need, level_segment, race_day, RaceSchedule.day, RouteSegment.zero]
      linarith)
  rw [h]
  simp [day_need, level_segment, RouteSegment.zero]

end ExampleSpeeds

section SweepExamples
open RaceRunner Example

/-- On the grid 1, 1 + 3u/2, ... with u = 2^-52 the rounded increments leave the grid: the
sweep probes 1, 1 + 2u, 1 + 4u and stops. -/
theorem LinearSearchOptimizer.search_fl_off_grid (sim : ℚ → Option ℚ)
    (hsim : ∀ v : ℚ, 1 ≤ v → sim v = some (30 / v)) (fuel : Nat) (hfuel : 3 ≤ fuel) :
    search_fl round_to_double sim 1 (1 + 3 / 2 ^ 52) (3 / 2 ^ 53) fuel
      = some (some ⟨30 / (1 + 1 / 2 ^ 51), 1 + 1 / 2 ^ 51⟩) := by
  obtain ⟨n, rfl⟩ : ∃ n, fuel = n + 3 := ⟨fuel - 3, by omega⟩
  unfold search_fl
  rw [sweep_fl_feasible round_to_double sim _ _ (n + 2) 1 0 0 _
      (by norm_num) (hsim 1 le_rfl),
    round_to_double_one_add_three_half_ulp,
    sweep_fl_feasible round_to_double sim _ _ (n + 1) _ 1 _ _
      (by norm_num) (hsim _ (by norm_num)),
    round_to_double_one_add_seven_half_ulp,
    sweep_fl_exit round_to_double sim _ _ n _ _ _ (by norm_num)]
  simp only
  rw [if_neg (by norm_num)]

/-- A linear search whose first rounded increment does not move the speed never
returns. -/
theorem LinearSearchOptimizer.search_fl_stuck {α : Type} [LinearOrderedField α] (fl : α → α)
    (sim : α → Option α) (minimum_speed maximum_speed speed_step : α)
    (hle : minimum_speed ≤ maximum_speed)
    (hfl : fl (minimum_speed + speed_step) = minimum_speed) (fuel : Nat) :
    search_fl fl sim minimum_speed maximum_speed speed_step fuel = none := by
  unfold search_fl
  rw [sweep_fl_stuck fl sim maximum_speed speed_step minimum_speed hle hfl fuel 0 0]

end SweepExamples

section NormalDoubles

end NormalDoubles

section MachineBisection
variable {α : Type} [LinearOrderedField α]

namespace BinarySearchOptimizer

end BinarySearchOptimizer
end MachineBisection

section DoubleValues

end DoubleValues

section ToySimulator
open Example

end ToySimulator

section IntegerDoubles

end IntegerDoubles

section MachineCharging
variable {α : Type} [LinearOrderedField α] [FloorRing α]

namespace RaceRunner

end RaceRunner
end MachineCharging

section LateWindows
open RaceRunner

end LateWindows

section LateWindowSteps
open RaceRunner

end LateWindowSteps

/-! ## Runs with a negative pack, a dimming weather, a draw -/

section ChargingExamples
open RaceRunner Example

/-- Under a constant irradiance the gain of a window is the array power times
the length of the window. -/
theorem RaceRunner.calculate_static_charging_gain_constant {α : Type} [LinearOrderedField α]
    [FloorRing α] (car : SolarCar α) (weather : Weather α) (weather_station t_start t_end G : α)
    (hG : ∀ t, t_start ≤ t → t ≤ t_end →
      (weather.get_weather_at weather_station t).irradiance = G) :
    calculate_static_charging_gain car weather weather_station t_start t_end
      = car.array.power_in G * max (t_end - t_start) 0 / 3600 := by
  unfold calculate_static_charging_gain
  rw [static_charging_loop_constant car weather weather_station t_end G _ t_start 0
    (static_charging_steps_enough t_start t_end) hG, zero_add]

end ChargingExamples

section ExampleRuns
open RaceRunner Example

end ExampleRuns

section MoreExampleRuns
open RaceRunner Example

end MoreExampleRuns

/-! ## A slower run beside a faster one -/

section SlowerRuns
variable {α : Type} [LinearOrderedField α] [FloorRing α]

namespace RaceRunner

/-- Two runs within one race day, side by side: the slower one is no earlier
and holds no less energy, and its remaining segments, dwells included, end
strictly before the race end. When on every segment the slower drive takes no
more energy per metre, and a later dwell gains no less, the slower run returns
a racetime whenever the faster one does. -/
theorem race_loop_in_day_compare (m : LibM α) (car : SolarCar α) (route : Route α)
    (weather : Weather α) (schedule : RaceSchedule α) (v1 v2 : α) (hv1 : 0 < v1)
    (hle : v1 ≤ v2) (hd : ∀ seg ∈ route.segments, 0 ≤ seg.distance)
    (hnet : ∀ seg ∈ route.segments, ∀ t1 t2 e1 e2 p2 : α, t2 ≤ t1 → e2 ≤ e1 →
      RaceSegmentRunner.calculate_power_net m car seg
          (weather.get_weather_during seg.weather_station t2 (t2 + seg.distance / v2))
          (car.battery.state_of_charge e2) v2 = some p2 →
        ∃ p1, RaceSegmentRunner.calculate_power_net m car seg
            (weather.get_weather_during seg.weather_station t1 (t1 + seg.distance / v1))
            (car.battery.state_of_charge e1) v1 = some p1 ∧ p2 / v2 ≤ p1 / v1)
    (hgain : ∀ seg ∈ route.segments, ∀ t1 t2 : α, t2 ≤ t1 →
      calculate_static_charging_gain car weather seg.weather_station t2
          (t2 + CHECKPOINT_DURATION)
        ≤ calculate_static_charging_gain car weather seg.weather_station t1
          (t1 + CHECKPOINT_DURATION)) :
    ∀ (fuel : Nat) (s1 s2 : RaceState α) (T2 : α),
      s1.remaining_segment_distance = 0 → s2.remaining_segment_distance = 0 →
      s2.current_segment_index = s1.current_segment_index →
      s2.current_day = s1.current_day →
      s2.current_time ≤ s1.current_time → s2.energy_remaining ≤ s1.energy_remaining →
      s1.current_time + day_need v1 (route.segments.drop s1.current_segment_index)
        < (schedule.day s1.current_day).race_end_time →
      race_loop m car route weather schedule v2 fuel s2 = some (some T2) →
      ∃ T1, race_loop m car route weather schedule v1 fuel s1 = some (some T1) := by
  have hv2 : 0 < v2 := lt_of_lt_of_le hv1 hle
  intro fuel
  induction fuel with
  | zero => intro s1 s2 T2 _ _ _ _ _ _ _ h; simp [race_loop] at h
  | succ n ih =>
    intro s1 s2 T2 hrem1 hrem2 hidx hday htime hen hfit hrun
    by_cases hi : s1.current_segment_index < route.get_num_segments
    · have hi2 : s2.current_segment_index < route.get_num_segments := by rw [hidx]; exact hi
      have hdrop := drop_segments route s1.current_segment_index hi
      have hrest : 0 ≤ day_need v1 (route.segments.drop (s1.current_segment_index + 1)) :=
        day_need_nonneg v1 hv1 _ (fun seg hs => hd seg (List.mem_of_mem_drop hs))
      have hmem : route.get_segment s1.current_segment_index ∈ route.segments := by
        have : route.get_segment s1.current_segment_index ∈
            route.segments.drop s1.current_segment_index := by rw [hdrop]; simp
        exact List.mem_of_mem_drop this
      have hseg : 0 ≤ (route.get_segment s1.current_segment_index).distance := hd _ hmem
      have hq1 : 0 ≤ (route.get_segment s1.current_segment_index).distance / v1 :=
        div_nonneg hseg hv1.le
      have hq2 : 0 ≤ (route.get_segment s1.current_segment_index).distance / v2 :=
        div_nonneg hseg hv2.le
      have hq : (route.get_segment s1.current_segment_index).distance / v2
          ≤ (route.get_segment s1.current_segment_index).distance / v1 :=
        div_le_div_of_nonneg_left hseg hv1 hle
      have h1800 : (0 : α) < CHECKPOINT_DURATION := by unfold CHECKPOINT_DURATION; norm_num
      have hneed : day_need v1 (route.segments.drop s1.current_segment_index) =
          (route.get_segment s1.current_segment_index).distance / v1 +
            (if (route.get_segment s1.current_segment_index).end_condition
                = SegmentEndCondition.CONTROL_STOP then CHECKPOINT_DURATION else 0) +
            day_need v1 (route.segments.drop (s1.current_segment_index + 1)) := by
        rw [hdrop]; simp [day_need]
      rw [hneed] at hfit
      have hdwell : (0 : α) ≤ if (route.get_segment s1.current_segment_index).end_condition
          = SegmentEndCondition.CONTROL_STOP then CHECKPOINT_DURATION else 0 := by
        split_ifs <;> linarith
      have hbody1 := loop_body_in_day m car route weather schedule v1 s1 hrem1
        (by linarith) (by linarith)
      have hbody2 := loop_body_in_day m car route weather schedule v2 s2 hrem2
        (by rw [hday]; linarith) (by rw [hday, hidx]; linarith)
      rw [hidx] at hbody2
      cases hnet2 : RaceSegmentRunner.calculate_power_net m car
          (route.get_segment s1.current_segment_index)
          (weather.get_weather_during (route.get_segment s1.current_segment_index).weather_station
            s2.current_time
            (s2.current_time + (route.get_segment s1.current_segment_index).distance / v2))
          (car.battery.state_of_charge s2.energy_remaining) v2 with
      | none =>
        rw [hnet2] at hbody2
        rw [race_loop_ret m car route weather schedule v2 n s2 none hi2 hbody2] at hrun
        simp at hrun
      | some p2 =>
        rw [hnet2] at hbody2
        simp only at hbody2
        obtain ⟨p1, hp1, hcmp⟩ := hnet _ hmem s1.current_time s2.current_time
          s1.energy_remaining s2.energy_remaining p2 htime hen hnet2
        rw [hp1] at hbody1
        simp only at hbody1
        have hwork : p2 * ((route.get_segment s1.current_segment_index).distance / v2)
            ≤ p1 * ((route.get_segment s1.current_segment_index).distance / v1) := by
          have e1 : p2 * ((route.get_segment s1.current_segment_index).distance / v2)
              = p2 / v2 * (route.get_segment s1.current_segment_index).distance := by
            field_simp
          have e2 : p1 * ((route.get_segment s1.current_segment_index).distance / v1)
              = p1 / v1 * (route.get_segment s1.current_segment_index).distance := by
            field_simp
          rw [e1, e2]
          exact mul_le_mul_of_nonneg_right hcmp hseg
        have hwork' : p2 * ((route.get_segment s1.current_segment_index).distance / v2) / 3600
            ≤ p1 * ((route.get_segment s1.current_segment_index).distance / v1) / 3600 :=
          div_le_div_of_nonneg_right hwork (by norm_num)
        by_cases hneg2 : s2.energy_remaining
            + p2 * ((route.get_segment s1.current_segment_index).distance / v2) / 3600 < 0
        · rw [if_pos hneg2] at hbody2
          rw [race_loop_ret m car route weather schedule v2 n s2 none hi2 hbody2] at hrun
          simp at hrun
        · rw [if_neg hneg2] at hbody2
          have hneg1 : ¬ s1.energy_remaining
              + p1 * ((route.get_segment s1.current_segment_index).distance / v1) / 3600 < 0 := by
            have := not_lt.mp hneg2
            linarith
          rw [if_neg hneg1] at hbody1
          by_cases hcs : (route.get_segment s1.current_segment_index).end_condition
              = SegmentEndCondition.CONTROL_STOP
          · rw [if_pos hcs] at hbody1 hbody2
            rw [race_loop_next m car route weather schedule v2 n s2 _ hi2 hbody2] at hrun
            rw [race_loop_next m car route weather schedule v1 n s1 _ hi hbody1]
            have hg := hgain _ hmem
              (s1.current_time + (route.get_segment s1.current_segment_index).distance / v1)
              (s2.current_time + (route.get_segment s1.current_segment_index).distance / v2)
              (by linarith)
            refine ih _ _ T2 rfl rfl (by simp only [hidx]) (by simp only [hday])
              (by simp only; linarith) (by simp only; linarith) ?_ hrun
            simp only [hcs, if_true] at hfit
            simp only
            linarith
          · rw [if_neg hcs] at hbody1 hbody2
            rw [race_loop_next m car route weather schedule v2 n s2 _ hi2 hbody2] at hrun
            rw [race_loop_next m car route weather schedule v1 n s1 _ hi hbody1]
            refine ih _ _ T2 rfl rfl (by simp only [hidx]) (by simp only [hday])
              (by simp only; linarith) (by simp only; linarith) ?_ hrun
            simp only [hcs, if_false] at hfit
            simp only
            linarith
    · exact ⟨_, race_loop_done m car route weather schedule v1 n s1 hi⟩

/-- Feasibility at a higher speed gives feasibility at a lower speed for a race
that at the lower speed ends within the first race day, when the slower drive
takes no more energy per metre on every segment and a later dwell gains no
less. -/
theorem calculate_racetime_slower (m : LibM α) (car : SolarCar α) (route : Route α)
    (weather : Weather α) (schedule : RaceSchedule α) (v1 v2 : α) (hv1 : 0 < v1)
    (hle : v1 ≤ v2) (hv2 : calculate_racetime m car route weather schedule v2 ≠ none)
    (hd : ∀ seg ∈ route.segments, 0 ≤ seg.distance)
    (hnet : ∀ seg ∈ route.segments, ∀ t1 t2 e1 e2 p2 : α, t2 ≤ t1 → e2 ≤ e1 →
      RaceSegmentRunner.calculate_power_net m car seg
          (weather.get_weather_during seg.weather_station t2 (t2 + seg.distance / v2))
          (car.battery.state_of_charge e2) v2 = some p2 →
        ∃ p1, RaceSegmentRunner.calculate_power_net m car seg
            (weather.get_weather_during seg.weather_station t1 (t1 + seg.distance / v1))
            (car.battery.state_of_charge e1) v1 = some p1 ∧ p2 / v2 ≤ p1 / v1)
    (hgain : ∀ seg ∈ route.segments, ∀ t1 t2 : α, t2 ≤ t1 →
      calculate_static_charging_gain car weather seg.weather_station t2
          (t2 + CHECKPOINT_DURATION)
        ≤ calculate_static_charging_gain car weather seg.weather_station t1
          (t1 + CHECKPOINT_DURATION))
    (hfit : (schedule.day 0).race_start_time + day_need v1 route.segments
      < (schedule.day 0).race_end_time) :
    calculate_racetime m car route weather schedule v1 = some (day_need v1 route.segments) := by
  obtain ⟨T2, hT2⟩ := Option.ne_none_iff_exists'.mp hv2
  have hloop2 := race_loop_enough_fuel m car route weather schedule v2 _ le_rfl
  rw [hT2] at hloop2
  obtain ⟨T1, hT1⟩ := race_loop_in_day_compare m car route weather schedule v1 v2 hv1 hle hd
    hnet hgain _ (initial_state car schedule) (initial_state car schedule) T2 rfl rfl rfl rfl
    le_rfl le_rfl (by simpa [initial_state] using hfit) hloop2
  have h1 := calculate_racetime_of_loop m car route weather schedule v1 _ _ hT1
  rw [h1, calculate_racetime_in_day m car route weather schedule v1 hv1 hd hfit T1 h1]

end RaceRunner
end SlowerRuns

section ClimbExamples
open RaceRunner Example

/-- The square root of the example libm at 90000. -/
theorem Example.sqrt_90000 : libm.sqrt 90000 = 300 := by
  have h := Rat.sqrt_eq 300
  rwa [show (300 : ℚ) * 300 = 90000 by norm_num, abs_of_nonneg (by norm_num)] at h

/-- The square root of the example libm at 62500. -/
theorem Example.sqrt_62500 : libm.sqrt 62500 = 250 := by
  have h := Rat.sqrt_eq 250
  rwa [show (250 : ℚ) * 250 = 62500 by norm_num, abs_of_nonneg (by norm_num)] at h

/-- In the dark the solar car climbing at 20 m/s draws 15000 W: 12500 W at the
wheels and 2500 W lost in the pack. -/
theorem Example.solar_car_climb_fast (s : RouteSegment ℚ)
    (hs : s.gravity_times_sine_road_incline_angle = 25 / 4) (w : WeatherDataPoint ℚ)
    (hw : w.irradiance = 0) (soc : ℚ) :
    RaceSegmentRunner.calculate_power_net libm solar_car s w soc 20 = some (-15000) := by
  simp [RaceSegmentRunner.calculate_power_net, RaceSegmentRunner.calculate_power_in,
    RaceSegmentRunner.calculate_power_out, RaceSegmentRunner.calculate_resistive_force,
    Battery.power_loss, Battery.current_voltage, Motor.power_consumed, Array.power_in,
    Tire.rolling_resistance, Aerobody.aerodynamic_drag, solar_car, hs, hw]
  norm_num [sqrt_90000]

/-- In the dark the solar car climbing at 9 m/s draws 6250 W: 5625 W at the
wheels and 625 W lost in the pack. -/
theorem Example.solar_car_climb_slow (s : RouteSegment ℚ)
    (hs : s.gravity_times_sine_road_incline_angle = 25 / 4) (w : WeatherDataPoint ℚ)
    (hw : w.irradiance = 0) (soc : ℚ) :
    RaceSegmentRunner.calculate_power_net libm solar_car s w soc 9 = some (-6250) := by
  simp [RaceSegmentRunner.calculate_power_net, RaceSegmentRunner.calculate_power_in,
    RaceSegmentRunner.calculate_power_out, RaceSegmentRunner.calculate_resistive_force,
    Battery.power_loss, Battery.current_voltage, Motor.power_consumed, Array.power_in,
    Tire.rolling_resistance, Aerobody.aerodynamic_drag, solar_car, hs, hw]
  norm_num [sqrt_62500]

/-- The weather with the sun break is dark between two times outside the
break. -/
theorem Example.sunbreak_weather_dark (st a b : ℚ) (ha : a < 1300 ∨ 1400 < a)
    (hb : b < 1300 ∨ 1400 < b) :
    (sunbreak_weather.get_weather_during st a b).irradiance = 0 := by
  have h1 : ¬ (1300 ≤ a ∧ a ≤ 1400) := by
    rintro ⟨h1, h2⟩; rcases ha with ha | ha <;> linarith
  have h2 : ¬ (1300 ≤ b ∧ b ≤ 1400) := by
    rintro ⟨h1, h2⟩; rcases hb with hb | hb <;> linarith
  simp [Weather.get_weather_during, WeatherDataPoint.average, sunbreak_weather, h1, h2]

/-- A dwell from 1090 s catches the sun break: the solar car gains 100 Wh. -/
theorem Example.sunbreak_gain_early (st : ℚ) :
    calculate_static_charging_gain solar_car sunbreak_weather st 1090 2890 = 100 := by
  have hsteps : static_charging_steps (1090 : ℚ) 2890 = 6 := by
    unfold static_charging_steps STATIC_CHARGING_TIME_INCREMENT
    rw [Nat.ceil_eq_iff (by norm_num)]
    constructor <;> norm_num
  unfold calculate_static_charging_gain
  rw [hsteps]
  simp only [static_charging_loop, STATIC_CHARGING_TIME_INCREMENT, Weather.get_weather_during,
    WeatherDataPoint.average, sunbreak_weather, Array.power_in, solar_car]
  norm_num

/-- A dwell from 1200 s misses the sun break: the solar car gains nothing. -/
theorem Example.sunbreak_gain_late (st : ℚ) :
    calculate_static_charging_gain solar_car sunbreak_weather st 1200 3000 = 0 := by
  have hsteps : static_charging_steps (1200 : ℚ) 3000 = 6 := by
    unfold static_charging_steps STATIC_CHARGING_TIME_INCREMENT
    rw [Nat.ceil_eq_iff (by norm_num)]
    constructor <;> norm_num
  unfold calculate_static_charging_gain
  rw [hsteps]
  simp only [static_charging_loop, STATIC_CHARGING_TIME_INCREMENT, Weather.get_weather_during,
    WeatherDataPoint.average, sunbreak_weather, Array.power_in, solar_car]
  norm_num

/-- In the dark the solar car gains nothing from static charging. -/
theorem Example.solar_car_gain_dark (st a b : ℚ) :
    calculate_static_charging_gain solar_car (still_weather 0) st a b = 0 := by
  rw [calculate_static_charging_gain_constant solar_car (still_weather 0) st a b 0
    (by intro t _ _; simp [still_weather])]
  simp [Array.power_in]

end ClimbExamples

section ClimbRuns
open RaceRunner Example

/-- Under the weather with the sun break the solar car climbs 1800 m to a
CONTROL_STOP and 3420 m more at 20 m/s: its dwell catches the break, and the
run returns 2061 s. -/
theorem Example.climb_fast_sunbreak :
    calculate_racetime libm solar_car
      ⟨[climb_segment 1800 SegmentEndCondition.CONTROL_STOP,
        climb_segment 3420 SegmentEndCondition.END_OF_RACE]⟩
      sunbreak_weather [race_day 1000 5000] 20 = some 2061 := by
  have e0 : initial_state solar_car [race_day 1000 5000] = ⟨1000, 0, 0, 0, 0, 1000⟩ := by
    simp [initial_state, solar_car, race_day, RaceSchedule.day, Battery.get_capacity]
  have hseg0 : (⟨[climb_segment 1800 SegmentEndCondition.CONTROL_STOP,
      climb_segment 3420 SegmentEndCondition.END_OF_RACE]⟩ : Route ℚ).get_segment 0
      = climb_segment 1800 SegmentEndCondition.CONTROL_STOP := by
    simp [Route.get_segment]
  have hseg1 : (⟨[climb_segment 1800 SegmentEndCondition.CONTROL_STOP,
      climb_segment 3420 SegmentEndCondition.END_OF_RACE]⟩ : Route ℚ).get_segment 1
      = climb_segment 3420 SegmentEndCondition.END_OF_RACE := by
    simp [Route.get_segment]
  have ea : (1000 : ℚ) + 1800 / 20 = 1090 := by norm_num
  have eb : (2890 : ℚ) + 3420 / 20 = 3061 := by norm_num
  have h0 : loop_body libm solar_car
      ⟨[climb_segment 1800 SegmentEndCondition.CONTROL_STOP,
        climb_segment 3420 SegmentEndCondition.END_OF_RACE]⟩
      sunbreak_weather [race_day 1000 5000] 20 ⟨1000, 0, 0, 0, 0, 1000⟩
      = LoopStep.next ⟨725, 1890, 1, 0, 0, 2890⟩ := by
    have hn := solar_car_climb_fast (climb_segment 1800 SegmentEndCondition.CONTROL_STOP)
      (by simp [climb_segment]) (sunbreak_weather.get_weather_during 0 1000 1090)
      (sunbreak_weather_dark 0 1000 1090 (by norm_num) (by norm_num))
      (solar_car.battery.state_of_charge 1000)
    have hg := sunbreak_gain_early 0
    simp only [climb_segment, level_segment, RouteSegment.zero] at hn
    simp only [loop_body, hseg0]
    simp only [climb_segment, level_segment, RouteSegment.zero, race_day, RaceSchedule.day,
      List.getD_cons_zero, CHECKPOINT_DURATION, update_energy_remaining, gt_iff_lt,
      lt_self_iff_false, if_false, ge_iff_le, ea]
    norm_num [hn, hg]
  have h1 : loop_body libm solar_car
      ⟨[climb_segment 1800 SegmentEndCondition.CONTROL_STOP,
        climb_segment 3420 SegmentEndCondition.END_OF_RACE]⟩
      sunbreak_weather [race_day 1000 5000] 20 ⟨725, 1890, 1, 0, 0, 2890⟩
      = LoopStep.next ⟨25 / 2, 2061, 2, 0, 0, 3061⟩ := by
    have hn := solar_car_climb_fast (climb_segment 3420 SegmentEndCondition.END_OF_RACE)
      (by simp [climb_segment]) (sunbreak_weather.get_weather_during 0 2890 3061)
      (sunbreak_weather_dark 0 2890 3061 (by norm_num) (by norm_num))
      (solar_car.battery.state_of_charge 725)
    simp only [climb_segment, level_segment, RouteSegment.zero] at hn
    simp only [loop_body, hseg1]
    simp only [climb_segment, level_segment, RouteSegment.zero, race_day, RaceSchedule.day,
      List.getD_cons_zero, CHECKPOINT_DURATION, update_energy_remaining, gt_iff_lt,
      lt_self_iff_false, if_false, ge_iff_le, eb]
    norm_num [hn]
    simp
  apply calculate_racetime_of_loop _ _ _ _ _ _ 3
  rw [e0, race_loop_next _ _ _ _ _ _ _ _ _ (by simp [Route.get_num_segments]) h0,
    race_loop_next _ _ _ _ _ _ _ _ _ (by simp [Route.get_num_segments]) h1,
    race_loop_done _ _ _ _ _ _ _ _ (by simp [Route.get_num_segments])]

/-- Under the weather with the sun break the same climb at 9 m/s: the dwell
misses the break, the pack is drained on the second segment, and the run is
infeasible. -/
theorem Example.climb_slow_sunbreak :
    calculate_racetime libm solar_car
      ⟨[climb_segment 1800 SegmentEndCondition.CONTROL_STOP,
        climb_segment 3420 SegmentEndCondition.END_OF_RACE]⟩
      sunbreak_weather [race_day 1000 5000] 9 = none := by
  have e0 : initial_state solar_car [race_day 1000 5000] = ⟨1000, 0, 0, 0, 0, 1000⟩ := by
    simp [initial_state, solar_car, race_day, RaceSchedule.day, Battery.get_capacity]
  have hseg0 : (⟨[climb_segment 1800 SegmentEndCondition.CONTROL_STOP,
      climb_segment 3420 SegmentEndCondition.END_OF_RACE]⟩ : Route ℚ).get_segment 0
      = climb_segment 1800 SegmentEndCondition.CONTROL_STOP := by
    simp [Route.get_segment]
  have hseg1 : (⟨[climb_segment 1800 SegmentEndCondition.CONTROL_STOP,
      climb_segment 3420 SegmentEndCondition.END_OF_RACE]⟩ : Route ℚ).get_segment 1
      = climb_segment 3420 SegmentEndCondition.END_OF_RACE := by
    simp [Route.get_segment]
  have ea : (1000 : ℚ) + 1800 / 9 = 1200 := by norm_num
  have eb : (3000 : ℚ) + 3420 / 9 = 3380 := by norm_num
  have h0 : loop_body libm solar_car
      ⟨[climb_segment 1800 SegmentEndCondition.CONTROL_STOP,
        climb_segment 3420 SegmentEndCondition.END_OF_RACE]⟩
      sunbreak_weather [race_day 1000 5000] 9 ⟨1000, 0, 0, 0, 0, 1000⟩
      = LoopStep.next ⟨5875 / 9, 2000, 1, 0, 0, 3000⟩ := by
    have hn := solar_car_climb_slow (climb_segment 1800 SegmentEndCondition.CONTROL_STOP)
      (by simp [climb_segment]) (sunbreak_weather.get_weather_during 0 1000 1200)
      (sunbreak_weather_dark 0 1000 1200 (by norm_num) (by norm_num))
      (solar_car.battery.state_of_charge 1000)
    have hg := sunbreak_gain_late 0
    simp only [climb_segment, level_segment, RouteSegment.zero] at hn
    simp only [loop_body, hseg0]
    simp only [climb_segment, level_segment, RouteSegment.zero, race_day, RaceSchedule.day,
      List.getD_cons_zero, CHECKPOINT_DURATION, update_energy_remaining, gt_iff_lt,
      lt_self_iff_false, if_false, ge_iff_le, ea]
    norm_num [hn, hg]
  have h1 : loop_body libm solar_car
      ⟨[climb_segment 1800 SegmentEndCondition.CONTROL_STOP,
        climb_segment 3420 SegmentEndCondition.END_OF_RACE]⟩
      sunbreak_weather [race_day 1000 5000] 9 ⟨5875 / 9, 2000, 1, 0, 0, 3000⟩
      = LoopStep.ret none := by
    have hn := solar_car_climb_slow (climb_segment 3420 SegmentEndCondition.END_OF_RACE)
      (by simp [climb_segment]) (sunbreak_weather.get_weather_during 0 3000 3380)
      (sunbreak_weather_dark 0 3000 3380 (by norm_num) (by norm_num))
      (solar_car.battery.state_of_charge (5875 / 9))
    simp only [climb_segment, level_segment, RouteSegment.zero] at hn
    simp only [loop_body, hseg1]
    simp only [climb_segment, level_segment, RouteSegment.zero, race_day, RaceSchedule.day,
      List.getD_cons_zero, CHECKPOINT_DURATION, update_energy_remaining, gt_iff_lt,
      lt_self_iff_false, if_false, ge_iff_le, eb]
    norm_num [hn]
  apply calculate_racetime_of_loop _ _ _ _ _ _ 2
  rw [e0, race_loop_next _ _ _ _ _ _ _ _ _ (by simp [Route.get_num_segments]) h0,
    race_loop_ret _ _ _ _ _ _ _ _ _ (by simp [Route.get_num_segments]) h1]

/-- In the dark the solar car climbs 1800 m to a CONTROL_STOP and 1800 m more at
20 m/s in 1980 s. -/
theorem Example.climb_fast_dark :
    calculate_racetime libm solar_car
      ⟨[climb_segment 1800 SegmentEndCondition.CONTROL_STOP,
        climb_segment 1800 SegmentEndCondition.END_OF_RACE]⟩
      (still_weather 0) [race_day 1000 5000] 20 = some 1980 := by
  have e0 : initial_state solar_car [race_day 1000 5000] = ⟨1000, 0, 0, 0, 0, 1000⟩ := by
    simp [initial_state, solar_car, race_day, RaceSchedule.day, Battery.get_capacity]
  have hseg0 : (⟨[climb_segment 1800 SegmentEndCondition.CONTROL_STOP,
      climb_segment 1800 SegmentEndCondition.END_OF_RACE]⟩ : Route ℚ).get_segment 0
      = climb_segment 1800 SegmentEndCondition.CONTROL_STOP := by
    simp [Route.get_segment]
  have hseg1 : (⟨[climb_segment 1800 SegmentEndCondition.CONTROL_STOP,
      climb_segment 1800 SegmentEndCondition.END_OF_RACE]⟩ : Route ℚ).get_segment 1
      = climb_segment 1800 SegmentEndCondition.END_OF_RACE := by
    simp [Route.get_segment]
  have ea : (1000 : ℚ) + 1800 / 20 = 1090 := by norm_num
  have eb : (2890 : ℚ) + 1800 / 20 = 2980 := by norm_num
  have h0 : loop_body libm solar_car
      ⟨[climb_segment 1800 SegmentEndCondition.CONTROL_STOP,
        climb_segment 1800 SegmentEndCondition.END_OF_RACE]⟩
      (still_weather 0) [race_day 1000 5000] 20 ⟨1000, 0, 0, 0, 0, 1000⟩
      = LoopStep.next ⟨625, 1890, 1, 0, 0, 2890⟩ := by
    have hn := solar_car_climb_fast (climb_segment 1800 SegmentEndCondition.CONTROL_STOP)
      (by simp [climb_segment]) ((still_weather 0).get_weather_during 0 1000 1090)
      (by simp [still_weather_during])
      (solar_car.battery.state_of_charge 1000)
    simp only [climb_segment, level_segment, RouteSegment.zero] at hn
    simp only [loop_body, hseg0]
    simp only [climb_segment, level_segment, RouteSegment.zero, race_day, RaceSchedule.day,
      List.getD_cons_zero, CHECKPOINT_DURATION, update_energy_remaining, gt_iff_lt,
      lt_self_iff_false, if_false, ge_iff_le, ea]
    norm_num [hn, solar_car_gain_dark]
  have h1 : loop_body libm solar_car
      ⟨[climb_segment 1800 SegmentEndCondition.CONTROL_STOP,
        climb_segment 1800 SegmentEndCondition.END_OF_RACE]⟩
      (still_weather 0) [race_day 1000 5000] 20 ⟨625, 1890, 1, 0, 0, 2890⟩
      = LoopStep.next ⟨250, 1980, 2, 0, 0, 2980⟩ := by
    have hn := solar_car_climb_fast (climb_segment 1800 SegmentEndCondition.END_OF_RACE)
      (by simp [climb_segment]) ((still_weather 0).get_weather_during 0 2890 2980)
      (by simp [still_weather_during])
      (solar_car.battery.state_of_charge 625)
    simp only [climb_segment, level_segment, RouteSegment.zero] at hn
    simp only [loop_body, hseg1]
    simp only [climb_segment, level_segment, RouteSegment.zero, race_day, RaceSchedule.day,
      List.getD_cons_zero, CHECKPOINT_DURATION, update_energy_remaining, gt_iff_lt,
      lt_self_iff_false, if_false, ge_iff_le, eb]
    norm_num [hn]
    simp
  apply calculate_racetime_of_loop _ _ _ _ _ _ 3
  rw [e0, race_loop_next _ _ _ _ _ _ _ _ _ (by simp [Route.get_num_segments]) h0,
    race_loop_next _ _ _ _ _ _ _ _ _ (by simp [Route.get_num_segments]) h1,
    race_loop_done _ _ _ _ _ _ _ _ (by simp [Route.get_num_segments])]

end ClimbRuns

/-! # The claims -/

section Claims

open RaceRunner Example

/-- C1 (the code departs from the claim): a segment split at race end is driven
whole again on the next day. The idle car at 10 m/s on two segments of 30 m,
none a CONTROL_STOP, with race days of 5 s: the second segment is split after
20 m, and the racetime returned is 8 s, not the 6 s of total distance over
speed. -/
theorem C1_split_segment_is_driven_whole_again :
    calculate_racetime libm idle_car
        ⟨[level_segment 30 SegmentEndCondition.END_OF_RACE, level_segment 30 SegmentEndCondition.END_OF_RACE]⟩
        (still_weather 0) [race_day 1000 1005, race_day 2000 2005] 10 = some 8 ∧
      (Route.get_total_distance
        ⟨[level_segment 30 SegmentEndCondition.END_OF_RACE, level_segment 30 SegmentEndCondition.END_OF_RACE]⟩
        : ℚ) / 10 = 6 := by
  constructor
  · have h0 : loop_body libm idle_car
        ⟨[level_segment 30 SegmentEndCondition.END_OF_RACE, level_segment 30 SegmentEndCondition.END_OF_RACE]⟩
        (still_weather 0) [race_day 1000 1005, race_day 2000 2005] 10 ⟨1000, 0, 0, 0, 0, 1000⟩
        = LoopStep.next ⟨1000, 3, 1, 0, 0, 1003⟩ := by
      simp [loop_body, idle_car_gain, idle_car_power_net libm sqrt_10000, level_segment, race_day,
        Route.get_segment, RaceSchedule.day, RouteSegment.zero, update_energy_remaining]
      norm_num
    have h1 : loop_body libm idle_car
        ⟨[level_segment 30 SegmentEndCondition.END_OF_RACE, level_segment 30 SegmentEndCondition.END_OF_RACE]⟩
        (still_weather 0) [race_day 1000 1005, race_day 2000 2005] 10 ⟨1000, 3, 1, 0, 0, 1003⟩
        = LoopStep.next ⟨1000, 5, 1, 10, 0, 1005⟩ := by
      simp [loop_body, idle_car_gain, idle_car_power_net libm sqrt_10000, level_segment, race_day,
        Route.get_segment, RaceSchedule.day, RouteSegment.zero, update_energy_remaining]
      norm_num
    have h2 : loop_body libm idle_car
        ⟨[level_segment 30 SegmentEndCondition.END_OF_RACE, level_segment 30 SegmentEndCondition.END_OF_RACE]⟩
        (still_weather 0) [race_day 1000 1005, race_day 2000 2005] 10 ⟨1000, 5, 1, 10, 0, 1005⟩
        = LoopStep.next ⟨1000, 5, 1, 0, 1, 2000⟩ := by
      simp [loop_body, idle_car_gain, idle_car_power_net libm sqrt_10000, level_segment, race_day,
        Route.get_segment, RaceSchedule.day, RouteSegment.zero, update_energy_remaining]
    have h3 : loop_body libm idle_car
        ⟨[level_segment 30 SegmentEndCondition.END_OF_RACE, level_segment 30 SegmentEndCondition.END_OF_RACE]⟩
        (still_weather 0) [race_day 1000 1005, race_day 2000 2005] 10 ⟨1000, 5, 1, 0, 1, 2000⟩
        = LoopStep.next ⟨1000, 8, 2, 0, 1, 2003⟩ := by
      simp [loop_body, idle_car_gain, idle_car_power_net libm sqrt_10000, level_segment, race_day,
        Route.get_segment, RaceSchedule.day, RouteSegment.zero, update_energy_remaining]
      norm_num
    apply calculate_racetime_of_loop _ _ _ _ _ _ 5
    have e0 : initial_state idle_car [race_day 1000 1005, race_day 2000 2005]
        = ⟨1000, 0, 0, 0, 0, 1000⟩ := by
      simp [initial_state, idle_car, race_day, RaceSchedule.day, Battery.get_capacity]
    rw [e0,
      race_loop_next _ _ _ _ _ _ _ _ _ (by simp [Route.get_num_segments]) h0,
      race_loop_next _ _ _ _ _ _ _ _ _ (by simp [Route.get_num_segments]) h1,
      race_loop_next _ _ _ _ _ _ _ _ _ (by simp [Route.get_num_segments]) h2,
      race_loop_next _ _ _ _ _ _ _ _ _ (by simp [Route.get_num_segments]) h3,
      race_loop_done _ _ _ _ _ _ _ _ (by simp [Route.get_num_segments])]
  · simp [Route.get_total_distance, level_segment]
    norm_num

/-- C2, refuted as stated: the loop adds `speed_step` to a double, and the sums
are rounded. The idle car (feasible at every speed from 1 m/s on) swept from 1
to `1 + 3·2⁻⁵²` in steps of `3·2⁻⁵³`: the sums round to `1 + 2⁻⁵¹` and
`1 + 2⁻⁵⁰`, and the search returns the speed `1 + 2⁻⁵¹`, which is not on the
grid and lies below the feasible grid speed `1 + 2·(3·2⁻⁵³)`. Swept from 1 to 2
in steps of `2⁻⁵³`: the sum `1 + 2⁻⁵³` rounds to 1, and the loop never ends. -/
theorem C2_counterexample :
    (∀ fuel : Nat, 3 ≤ fuel →
      LinearSearchOptimizer.optimize_race_fl round_to_double libm idle_car (still_weather 0)
          ⟨[level_segment 30 SegmentEndCondition.END_OF_RACE]⟩ [race_day 1000 2000]
          1 (1 + 3 / 2 ^ 52) (3 / 2 ^ 53) fuel
        = some (some ⟨30 / (1 + 1 / 2 ^ 51), 1 + 1 / 2 ^ 51⟩)) ∧
      calculate_racetime libm idle_car ⟨[level_segment 30 SegmentEndCondition.END_OF_RACE]⟩
          (still_weather 0) [race_day 1000 2000] (1 + (2 : Nat) * (3 / 2 ^ 53)) ≠ none ∧
      (1 : ℚ) + (2 : Nat) * (3 / 2 ^ 53) ≤ 1 + 3 / 2 ^ 52 ∧
      (1 : ℚ) + 1 / 2 ^ 51 < 1 + (2 : Nat) * (3 / 2 ^ 53) ∧
      (¬ ∃ k : Nat, (1 : ℚ) + 1 / 2 ^ 51 = 1 + k * (3 / 2 ^ 53)) ∧
      ∀ fuel : Nat,
        LinearSearchOptimizer.optimize_race_fl round_to_double libm idle_car (still_weather 0)
          ⟨[level_segment 30 SegmentEndCondition.END_OF_RACE]⟩ [race_day 1000 2000]
          1 2 (1 / 2 ^ 53) fuel = none := by
  have hsim : ∀ v : ℚ, 1 ≤ v →
      calculate_racetime libm idle_car
        ⟨[level_segment 30 SegmentEndCondition.END_OF_RACE]⟩
        (still_weather 0) [race_day 1000 2000] v = some (30 / v) := by
    intro v hv
    have hv0 : (0 : ℚ) < v := by linarith
    exact idle_car_racetime v hv0 (by rw [div_lt_iff₀ hv0]; linarith)
  refine ⟨fun fuel hfuel => LinearSearchOptimizer.search_fl_off_grid _ hsim fuel hfuel, ?_,
    by norm_num, by norm_num, ?_, ?_⟩
  · rw [hsim _ (by norm_num)]
    exact Option.some_ne_none _
  · rintro ⟨k, hk⟩
    have h3 : (3 : ℚ) * k = 4 := by
      have : (1 : ℚ) / 2 ^ 51 = k * (3 / 2 ^ 53) := by linarith
      field_simp at this
      linarith
    have h3' : 3 * k = 4 := by exact_mod_cast h3
    omega
  · intro fuel
    exact (LinearSearchOptimizer.search_fl_stuck round_to_double _ 1 2 (1 / 2 ^ 53)
      (by norm_num) round_to_double_one_add_half_ulp fuel)

/-- C2, amended: when every sum `speed + speed_step` the loop forms on the grid
is exact (`fl` is the rounding of the machine), for `0 < minimum_speed` and
`speed_step > 0` the linear search, given enough iterations, returns; it
returns NONE exactly when `calculate_racetime` is infeasible at every grid speed
`minimum_speed + k * speed_step ≤ maximum_speed`, and otherwise returns
`(T, s)` with `s` the largest feasible grid speed and `T` the racetime of
`calculate_racetime` at `s`. -/
theorem C2_linear_search_returns_largest_feasible_grid_speed {α : Type} [LinearOrderedField α]
    [FloorRing α] (fl : α → α) (m : LibM α) (car : SolarCar α) (weather : Weather α)
    (route : Route α) (schedule : RaceSchedule α) (minimum_speed maximum_speed speed_step : α)
    (hmin : 0 < minimum_speed) (hstep : 0 < speed_step)
    (hexact : ∀ k : Nat, minimum_speed + k * speed_step ≤ maximum_speed →
      fl (minimum_speed + k * speed_step + speed_step)
        = minimum_speed + (k + 1 : Nat) * speed_step)
    (fuel : Nat)
    (hfuel : LinearSearchOptimizer.sweep_fuel minimum_speed maximum_speed speed_step ≤ fuel) :
    ∃ r, LinearSearchOptimizer.optimize_race_fl fl m car weather route schedule minimum_speed
          maximum_speed speed_step fuel = some r ∧
      (r = none ↔ ∀ k : Nat, minimum_speed + k * speed_step ≤ maximum_speed →
        calculate_racetime m car route weather schedule (minimum_speed + k * speed_step) = none) ∧
      (∀ T s, r = some ⟨T, s⟩ →
        (∃ k : Nat, s = minimum_speed + k * speed_step) ∧ s ≤ maximum_speed ∧
        calculate_racetime m car route weather schedule s = some T ∧
        ∀ k : Nat, minimum_speed + k * speed_step ≤ maximum_speed →
          calculate_racetime m car route weather schedule (minimum_speed + k * speed_step) ≠ none →
          minimum_speed + k * speed_step ≤ s) := by
  unfold LinearSearchOptimizer.optimize_race_fl
  rw [LinearSearchOptimizer.search_fl_exact fl _ minimum_speed maximum_speed speed_step hexact]
  exact LinearSearchOptimizer.search_spec
    (fun speed => calculate_racetime m car route weather schedule speed)
    minimum_speed maximum_speed speed_step hmin hstep fuel hfuel

/-- C2, amended, at the idle car on one segment of 30 m, swept in doubles from
1 m/s to 3 m/s in steps of 1 m/s. -/
theorem C2_linear_search_witness :
    ∃ r, LinearSearchOptimizer.optimize_race_fl round_to_double libm idle_car (still_weather 0)
          ⟨[level_segment 30 SegmentEndCondition.END_OF_RACE]⟩ [race_day 1000 2000] 1 3 1 4
          = some r ∧
      (r = none ↔ ∀ k : Nat, (1 : ℚ) + k * 1 ≤ 3 →
        calculate_racetime libm idle_car ⟨[level_segment 30 SegmentEndCondition.END_OF_RACE]⟩
          (still_weather 0) [race_day 1000 2000] (1 + k * 1) = none) ∧
      (∀ T s, r = some ⟨T, s⟩ →
        (∃ k : Nat, s = 1 + k * 1) ∧ s ≤ 3 ∧
        calculate_racetime libm idle_car ⟨[level_segment 30 SegmentEndCondition.END_OF_RACE]⟩
          (still_weather 0) [race_day 1000 2000] s = some T ∧
        ∀ k : Nat, (1 : ℚ) + k * 1 ≤ 3 →
          calculate_racetime libm idle_car ⟨[level_segment 30 SegmentEndCondition.END_OF_RACE]⟩
            (still_weather 0) [race_day 1000 2000] (1 + k * 1) ≠ none →
          1 + k * 1 ≤ s) :=
  C2_linear_search_returns_largest_feasible_grid_speed round_to_double libm idle_car
    (still_weather 0)
    ⟨[level_segment 30 SegmentEndCondition.END_OF_RACE]⟩ [race_day 1000 2000] 1 3 1
    (by norm_num) (by norm_num)
    (by
      intro k hk
      have hk2 : k ≤ 2 := by
        have : (k : ℚ) ≤ 2 := by linarith
        exact_mod_cast this
      have h2 := round_to_double_int 2 1 (by norm_num) (by norm_num) (by norm_num)
      have h3 := round_to_double_int 3 1 (by norm_num) (by norm_num) (by norm_num)
      have h4 := round_to_double_int 4 2 (by norm_num) (by norm_num) (by norm_num)
      interval_cases k <;> norm_num at h2 h3 h4 ⊢ <;> assumption)
    4
    (by
      have h : Nat.floor (((3 : ℚ) - 1) / 1) = 2 := by
        rw [show ((3 : ℚ) - 1) / 1 = ((2 : Nat) : ℚ) by norm_num, Nat.floor_natCast]
      simp [LinearSearchOptimizer.sweep_fuel, h])

/-- C4: every result `(T, s)` of the binary search is a simulator outcome:
`calculate_racetime` at the same car, route, weather and schedule and at speed
`s` returns `T`. -/
theorem C4_binary_search_result_is_simulator_outcome {α : Type} [LinearOrderedField α]
    [FloorRing α] (m : LibM α) (car : SolarCar α) (weather : Weather α) (route : Route α)
    (schedule : RaceSchedule α) (minimum_speed maximum_speed precision : α) (fuel : Nat)
    (T s : α)
    (h : BinarySearchOptimizer.optimize_race m car weather route schedule minimum_speed
      maximum_speed precision fuel = some (some ⟨T, s⟩)) :
    calculate_racetime m car route weather schedule s = some T :=
  BinarySearchOptimizer.search_result_feasible
    (fun speed => calculate_racetime m car route weather schedule speed)
    minimum_speed maximum_speed precision fuel T s h

/-- C4 at the idle car on one segment of 30 m, searched from 1 m/s to 3 m/s with
precision 1: the search returns 15 s at 2 m/s. -/
theorem C4_binary_search_witness :
    BinarySearchOptimizer.optimize_race libm idle_car (still_weather 0)
        ⟨[level_segment 30 SegmentEndCondition.END_OF_RACE]⟩ [race_day 1000 2000] 1 3 1 2
        = some (some ⟨15, 2⟩) ∧
      calculate_racetime libm idle_car ⟨[level_segment 30 SegmentEndCondition.END_OF_RACE]⟩
        (still_weather 0) [race_day 1000 2000] 2 = some 15 := by
  have hrun : BinarySearchOptimizer.optimize_race libm idle_car (still_weather 0)
        ⟨[level_segment 30 SegmentEndCondition.END_OF_RACE]⟩ [race_day 1000 2000] 1 3 1 2
        = some (some ⟨15, 2⟩) := by
    have hsim : ∀ v : ℚ, v = 2 →
        (fun speed => calculate_racetime libm idle_car
          ⟨[level_segment 30 SegmentEndCondition.END_OF_RACE]⟩
          (still_weather 0) [race_day 1000 2000] speed) v = some 15 := by
      intro v hv; rw [hv]; exact idle_car_one_segment
    unfold BinarySearchOptimizer.optimize_race
    generalize (fun speed => calculate_racetime libm idle_car
          ⟨[level_segment 30 SegmentEndCondition.END_OF_RACE]⟩
          (still_weather 0) [race_day 1000 2000] speed) = sim at hsim ⊢
    have hb : BinarySearchOptimizer.bisect sim 1 2 1 3 0 0 = some (2, 3, 2, 15) := by
      rw [BinarySearchOptimizer.bisect_feasible sim 1 1 1 3 0 0 15 (by norm_num)
        (hsim _ (by norm_num)), show ((1 : ℚ) + 3) / 2 = 2 by norm_num,
        BinarySearchOptimizer.bisect_exit sim 1 0 2 3 2 15 (by norm_num)]
    exact BinarySearchOptimizer.search_of_bisect sim 1 3 1 2 2 3 2 15 15 hb (by norm_num)
      (hsim 2 rfl)
  exact ⟨hrun, C4_binary_search_result_is_simulator_outcome libm idle_car (still_weather 0)
    ⟨[level_segment 30 SegmentEndCondition.END_OF_RACE]⟩ [race_day 1000 2000] 1 3 1 2 15 2 hrun⟩

/-- C5: for `0 < minimum_speed`, `speed_step > 0`, `precision > 0` and a
simulator whose feasibility is monotone non-increasing on the interval, the
speeds returned by the binary and the linear search differ by at most
`speed_step + precision`, and indeed by at most the larger of the two. -/
theorem C5_binary_and_linear_search_agree {α : Type} [LinearOrderedField α] [FloorRing α]
    (sim : α → Option α) (minimum_speed maximum_speed speed_step precision : α)
    (hmin : 0 < minimum_speed) (hstep : 0 < speed_step) (hp : 0 < precision)
    (hmono : MonotoneFeasible sim minimum_speed maximum_speed) (fuel_b fuel_l : Nat)
    (ob ol : OptimizationOutput α)
    (hb : BinarySearchOptimizer.search sim minimum_speed maximum_speed precision fuel_b
      = some (some ob))
    (hl : LinearSearchOptimizer.search sim minimum_speed maximum_speed speed_step fuel_l
      = some (some ol)) :
    |ob.speed - ol.speed| ≤ speed_step + precision ∧
      |ob.speed - ol.speed| ≤ max speed_step precision := by
  obtain ⟨h1, h2⟩ := search_agreement sim minimum_speed maximum_speed speed_step precision hmin
    hstep hp hmono fuel_b fuel_l ob ol hb hl
  have hmax : |ob.speed - ol.speed| ≤ max speed_step precision := by
    rw [abs_le]
    constructor
    · have := le_max_right speed_step precision; linarith
    · have := le_max_left speed_step precision; linarith
  refine ⟨hmax.trans ?_, hmax⟩
  exact max_le (by linarith) (by linarith)

/-- C5 at a simulator feasible up to 3 m/s, searched from 1 m/s to 5 m/s with
step 1 and precision 1: both searches return 3 m/s. -/
theorem C5_binary_and_linear_search_witness :
    BinarySearchOptimizer.search (toy_sim 3) 1 5 1 3 = some (some ⟨97, 3⟩) ∧
      LinearSearchOptimizer.search (toy_sim 3) 1 5 1 6 = some (some ⟨97, 3⟩) ∧
      |(3 : ℚ) - 3| ≤ 1 + 1 ∧ |(3 : ℚ) - 3| ≤ max 1 1 := by
  have hb : BinarySearchOptimizer.search (toy_sim 3) 1 5 1 3 = some (some ⟨97, 3⟩) := by
    simp only [BinarySearchOptimizer.search, BinarySearchOptimizer.bisect, toy_sim]
    norm_num
  have hl : LinearSearchOptimizer.search (toy_sim 3) 1 5 1 6 = some (some ⟨97, 3⟩) := by
    simp only [LinearSearchOptimizer.search, LinearSearchOptimizer.sweep, toy_sim]
    norm_num
  refine ⟨hb, hl, ?_⟩
  exact C5_binary_and_linear_search_agree (toy_sim 3) 1 5 1 1 (by norm_num) (by norm_num)
    (by norm_num)
    (by
      intro v1 v2 _ h12 _ hf
      unfold toy_sim at hf ⊢
      split_ifs at hf with h
      · simp [le_trans h12 h]
      · exact absurd rfl hf)
    3 6 ⟨97, 3⟩ ⟨97, 3⟩ hb hl

/-- C6, refuted as stated: feasibility at a speed does not give feasibility at
every lower speed. First, the idle car on one segment of 30 m with one race day
of 5 s: feasible at 10 m/s (3 s), infeasible at 1 m/s, where the day ends
before the segment does. Second, the lossy car (a constant draw of 102 W on a
pack of 1 Wh) on the same segment with a race day of 1000 s: feasible at 10 m/s,
infeasible at 1/2 m/s, where the 60 s of driving drain the pack. Third, the
solar car climbing 1800 m to a CONTROL_STOP and 3420 m more, under a sky that
is dark but for a break from 1300 s to 1400 s, the race fitting in the day at
either speed: at 20 m/s the dwell starts at 1090 s and gains 100 Wh from the
break, and the run returns 2061 s; at 9 m/s, where the climb takes less energy
per metre, the dwell starts at 1200 s and gains nothing, and the pack is
drained on the second segment. -/
theorem C6_counterexample :
    ((0 : ℚ) < 1 ∧ (1 : ℚ) ≤ 10 ∧
      calculate_racetime libm idle_car ⟨[level_segment 30 SegmentEndCondition.END_OF_RACE]⟩
        (still_weather 0) [race_day 1000 1005] 10 = some 3 ∧
      calculate_racetime libm idle_car ⟨[level_segment 30 SegmentEndCondition.END_OF_RACE]⟩
        (still_weather 0) [race_day 1000 1005] 1 = none) ∧
    ((0 : ℚ) < 1 / 2 ∧ (1 / 2 : ℚ) ≤ 10 ∧
      calculate_racetime libm lossy_car ⟨[level_segment 30 SegmentEndCondition.END_OF_RACE]⟩
        (still_weather 0) [race_day 1000 2000] 10 = some 3 ∧
      calculate_racetime libm lossy_car ⟨[level_segment 30 SegmentEndCondition.END_OF_RACE]⟩
        (still_weather 0) [race_day 1000 2000] (1 / 2) = none) ∧
    ((0 : ℚ) < 9 ∧ (9 : ℚ) ≤ 20 ∧
      (race_day 1000 5000).race_start_time
          + day_need 9 [climb_segment 1800 SegmentEndCondition.CONTROL_STOP,
            climb_segment 3420 SegmentEndCondition.END_OF_RACE]
        < (race_day 1000 5000).race_end_time ∧
      calculate_racetime libm solar_car
        ⟨[climb_segment 1800 SegmentEndCondition.CONTROL_STOP,
          climb_segment 3420 SegmentEndCondition.END_OF_RACE]⟩
        sunbreak_weather [race_day 1000 5000] 20 = some 2061 ∧
      calculate_racetime libm solar_car
        ⟨[climb_segment 1800 SegmentEndCondition.CONTROL_STOP,
          climb_segment 3420 SegmentEndCondition.END_OF_RACE]⟩
        sunbreak_weather [race_day 1000 5000] 9 = none) := by
  refine ⟨⟨by norm_num, by norm_num, ?_, ?_⟩, ⟨by norm_num, by norm_num, ?_, ?_⟩,
    ⟨by norm_num, by norm_num, ?_, climb_fast_sunbreak, climb_slow_sunbreak⟩⟩
  · have h0 : loop_body libm idle_car ⟨[level_segment 30 SegmentEndCondition.END_OF_RACE]⟩
        (still_weather 0) [race_day 1000 1005] 10 ⟨1000, 0, 0, 0, 0, 1000⟩
        = LoopStep.next ⟨1000, 3, 1, 0, 0, 1003⟩ := by
      simp [loop_body, idle_car_gain, idle_car_power_net libm sqrt_10000, level_segment, race_day,
        Route.get_segment, RaceSchedule.day, RouteSegment.zero, update_energy_remaining]
      norm_num
    apply calculate_racetime_of_loop _ _ _ _ _ _ 2
    have e0 : initial_state idle_car [race_day 1000 1005] = ⟨1000, 0, 0, 0, 0, 1000⟩ := by
      simp [initial_state, idle_car, race_day, RaceSchedule.day, Battery.get_capacity]
    rw [e0, race_loop_next _ _ _ _ _ _ _ _ _ (by simp [Route.get_num_segments]) h0,
      race_loop_done _ _ _ _ _ _ _ _ (by simp [Route.get_num_segments])]
  · have h0 : loop_body libm idle_car ⟨[level_segment 30 SegmentEndCondition.END_OF_RACE]⟩
        (still_weather 0) [race_day 1000 1005] 1 ⟨1000, 0, 0, 0, 0, 1000⟩
        = LoopStep.next ⟨1000, 5, 0, 25, 0, 1005⟩ := by
      simp [loop_body, idle_car_gain, idle_car_power_net libm sqrt_10000, level_segment, race_day,
        Route.get_segment, RaceSchedule.day, RouteSegment.zero, update_energy_remaining]
      norm_num
    have h1 : loop_body libm idle_car ⟨[level_segment 30 SegmentEndCondition.END_OF_RACE]⟩
        (still_weather 0) [race_day 1000 1005] 1 ⟨1000, 5, 0, 25, 0, 1005⟩
        = LoopStep.ret none := by
      simp [loop_body, idle_car_gain, race_day, RaceSchedule.day]
    apply calculate_racetime_of_loop _ _ _ _ _ _ 2
    have e0 : initial_state idle_car [race_day 1000 1005] = ⟨1000, 0, 0, 0, 0, 1000⟩ := by
      simp [initial_state, idle_car, race_day, RaceSchedule.day, Battery.get_capacity]
    rw [e0, race_loop_next _ _ _ _ _ _ _ _ _ (by simp [Route.get_num_segments]) h0,
      race_loop_ret _ _ _ _ _ _ _ _ _ (by simp [Route.get_num_segments]) h1]
  · have h0 : loop_body libm lossy_car ⟨[level_segment 30 SegmentEndCondition.END_OF_RACE]⟩
        (still_weather 0) [race_day 1000 2000] 10 ⟨1, 0, 0, 0, 0, 1000⟩
        = LoopStep.next ⟨183 / 200, 3, 1, 0, 0, 1003⟩ := by
      simp [loop_body, lossy_car_power_net libm sqrt_10404, level_segment, race_day,
        Route.get_segment, RaceSchedule.day, RouteSegment.zero, update_energy_remaining]
      norm_num
    apply calculate_racetime_of_loop _ _ _ _ _ _ 2
    have e0 : initial_state lossy_car [race_day 1000 2000] = ⟨1, 0, 0, 0, 0, 1000⟩ := by
      simp [initial_state, lossy_car, race_day, RaceSchedule.day, Battery.get_capacity]
    rw [e0, race_loop_next _ _ _ _ _ _ _ _ _ (by simp [Route.get_num_segments]) h0,
      race_loop_done _ _ _ _ _ _ _ _ (by simp [Route.get_num_segments])]
  · have h0 : loop_body libm lossy_car ⟨[level_segment 30 SegmentEndCondition.END_OF_RACE]⟩
        (still_weather 0) [race_day 1000 2000] (1 / 2) ⟨1, 0, 0, 0, 0, 1000⟩
        = LoopStep.ret none := by
      simp [loop_body, lossy_car_power_net libm sqrt_10404, level_segment, race_day,
        Route.get_segment, RaceSchedule.day, RouteSegment.zero, update_energy_remaining]
      norm_num
    apply calculate_racetime_of_loop _ _ _ _ _ _ 1
    have e0 : initial_state lossy_car [race_day 1000 2000] = ⟨1, 0, 0, 0, 0, 1000⟩ := by
      simp [initial_state, lossy_car, race_day, RaceSchedule.day, Battery.get_capacity]
    rw [e0, race_loop_ret _ _ _ _ _ _ _ _ _ (by simp [Route.get_num_segments]) h0]
  · simp [day_need, climb_segment, level_segment, race_day, CHECKPOINT_DURATION]
    norm_num

/-- C6, amended: for speeds `0 < v1 ≤ v2`, if `calculate_racetime` returns a
racetime at `v2`, then it returns a racetime at `v1`, namely the driving time
of all segments plus the dwells, provided that at `v1` the race, dwells
included, ends strictly before the race end of the first day, that no segment
has a negative distance, that on every segment the drive at `v1`, started no
earlier and with no less energy in the pack than the drive at `v2`, takes no
more energy from the pack per metre (`p2 / v2 ≤ p1 / v1` for the net powers),
and that a dwell started later gains no less. -/
theorem C6_feasible_at_lower_speed_within_first_day {α : Type} [LinearOrderedField α]
    [FloorRing α] (m : LibM α) (car : SolarCar α) (route : Route α) (weather : Weather α)
    (schedule : RaceSchedule α) (v1 v2 : α) (hv1 : 0 < v1) (hle : v1 ≤ v2)
    (hv2 : calculate_racetime m car route weather schedule v2 ≠ none)
    (hd : ∀ seg ∈ route.segments, 0 ≤ seg.distance)
    (hnet : ∀ seg ∈ route.segments, ∀ t1 t2 e1 e2 p2 : α, t2 ≤ t1 → e2 ≤ e1 →
      RaceSegmentRunner.calculate_power_net m car seg
          (weather.get_weather_during seg.weather_station t2 (t2 + seg.distance / v2))
          (car.battery.state_of_charge e2) v2 = some p2 →
        ∃ p1, RaceSegmentRunner.calculate_power_net m car seg
            (weather.get_weather_during seg.weather_station t1 (t1 + seg.distance / v1))
            (car.battery.state_of_charge e1) v1 = some p1 ∧ p2 / v2 ≤ p1 / v1)
    (hgain : ∀ seg ∈ route.segments, ∀ t1 t2 : α, t2 ≤ t1 →
      calculate_static_charging_gain car weather seg.weather_station t2
          (t2 + CHECKPOINT_DURATION)
        ≤ calculate_static_charging_gain car weather seg.weather_station t1
          (t1 + CHECKPOINT_DURATION))
    (hfit : (schedule.day 0).race_start_time + day_need v1 route.segments
      < (schedule.day 0).race_end_time) :
    calculate_racetime m car route weather schedule v1 = some (day_need v1 route.segments) :=
  calculate_racetime_slower m car route weather schedule v1 v2 hv1 hle hv2 hd hnet hgain hfit

/-- C6, amended, at the solar car climbing two segments of 1800 m in the dark,
the first to a CONTROL_STOP, with a race day of 4000 s: feasible at 20 m/s
(1980 s, drawing 15000 W), hence at 9 m/s (2200 s, drawing 6250 W). -/
theorem C6_feasible_at_lower_speed_witness :
    calculate_racetime libm solar_car
        ⟨[climb_segment 1800 SegmentEndCondition.CONTROL_STOP,
          climb_segment 1800 SegmentEndCondition.END_OF_RACE]⟩
        (still_weather 0) [race_day 1000 5000] 20 = some 1980 ∧
      calculate_racetime libm solar_car
        ⟨[climb_segment 1800 SegmentEndCondition.CONTROL_STOP,
          climb_segment 1800 SegmentEndCondition.END_OF_RACE]⟩
        (still_weather 0) [race_day 1000 5000] 9
        = some (day_need 9 [climb_segment 1800 SegmentEndCondition.CONTROL_STOP,
          climb_segment 1800 SegmentEndCondition.END_OF_RACE]) ∧
      day_need (9 : ℚ) [climb_segment 1800 SegmentEndCondition.CONTROL_STOP,
          climb_segment 1800 SegmentEndCondition.END_OF_RACE] = 2200 := by
  have hneed : day_need (9 : ℚ) [climb_segment 1800 SegmentEndCondition.CONTROL_STOP,
      climb_segment 1800 SegmentEndCondition.END_OF_RACE] = 2200 := by
    simp [day_need, climb_segment, level_segment, CHECKPOINT_DURATION]
    norm_num
  refine ⟨climb_fast_dark, ?_, hneed⟩
  exact C6_feasible_at_lower_speed_within_first_day libm solar_car
    ⟨[climb_segment 1800 SegmentEndCondition.CONTROL_STOP,
      climb_segment 1800 SegmentEndCondition.END_OF_RACE]⟩ (still_weather 0) [race_day 1000 5000]
    9 20 (by norm_num) (by norm_num)
    (by rw [climb_fast_dark]; exact Option.some_ne_none _)
    (by
      intro seg hseg
      simp at hseg
      rcases hseg with rfl | rfl <;> simp [climb_segment, level_segment])
    (by
      intro seg hseg t1 t2 e1 e2 p2 _ _ h2
      have hs : seg.gravity_times_sine_road_incline_angle = 25 / 4 := by
        simp at hseg
        rcases hseg with rfl | rfl <;> simp [climb_segment]
      rw [solar_car_climb_fast seg hs _ (by simp [still_weather_during])] at h2
      have hp : p2 = -15000 := (Option.some.inj h2).symm
      refine ⟨-6250, solar_car_climb_slow seg hs _ (by simp [still_weather_during]) _, ?_⟩
      rw [hp]
      norm_num)
    (by
      intro seg _ t1 t2 _
      rw [solar_car_gain_dark, solar_car_gain_dark])
    (by
      rw [hneed]
      simp [race_day, RaceSchedule.day]
      norm_num)

/-- C7, refuted as stated: marking a control stop whose dwell fits in the race
day need not add 1800 s. The idle car at 10 m/s on two segments of 30 m, the
second a CONTROL_STOP, with a race day from 1000 s to 2806 s, takes 1806 s. With
the first segment marked CONTROL_STOP too, that segment is completed at 1003 s
and its dwell ends at 2803 s, before the race end; the second segment is then
completed at the race end, 2806 s, where no dwell is taken: the racetime is
1806 s again. -/
theorem C7_counterexample :
    calculate_racetime libm idle_car
        ⟨[level_segment 30 SegmentEndCondition.END_OF_RACE,
          level_segment 30 SegmentEndCondition.CONTROL_STOP]⟩
        (still_weather 0) [race_day 1000 2806] 10 = some 1806 ∧
      calculate_racetime libm idle_car
        (Route.mark_control_stop
          ⟨[level_segment 30 SegmentEndCondition.END_OF_RACE,
            level_segment 30 SegmentEndCondition.CONTROL_STOP]⟩ 0)
        (still_weather 0) [race_day 1000 2806] 10 = some 1806 ∧
      (1000 : ℚ) + 30 / 10 + 1800 ≤ 2806 ∧ (1806 : ℚ) ≠ 1806 + 1800 := by
  have hmark : Route.mark_control_stop
      (⟨[level_segment 30 SegmentEndCondition.END_OF_RACE,
        level_segment 30 SegmentEndCondition.CONTROL_STOP]⟩ : Route ℚ) 0
      = ⟨[level_segment 30 SegmentEndCondition.CONTROL_STOP,
        level_segment 30 SegmentEndCondition.CONTROL_STOP]⟩ := by
    simp [Route.mark_control_stop, Route.get_segment, level_segment]
  have e0 : initial_state idle_car [race_day 1000 2806] = ⟨1000, 0, 0, 0, 0, 1000⟩ := by
    simp [initial_state, idle_car, race_day, RaceSchedule.day, Battery.get_capacity]
  refine ⟨?_, ?_, by norm_num, by norm_num⟩
  · have h0 : loop_body libm idle_car
        ⟨[level_segment 30 SegmentEndCondition.END_OF_RACE,
          level_segment 30 SegmentEndCondition.CONTROL_STOP]⟩
        (still_weather 0) [race_day 1000 2806] 10 ⟨1000, 0, 0, 0, 0, 1000⟩
        = LoopStep.next ⟨1000, 3, 1, 0, 0, 1003⟩ := by
      simp [loop_body, idle_car_gain, idle_car_power_net libm sqrt_10000, level_segment, race_day,
        Route.get_segment, RaceSchedule.day, RouteSegment.zero, update_energy_remaining]
      norm_num
    have h1 : loop_body libm idle_car
        ⟨[level_segment 30 SegmentEndCondition.END_OF_RACE,
          level_segment 30 SegmentEndCondition.CONTROL_STOP]⟩
        (still_weather 0) [race_day 1000 2806] 10 ⟨1000, 3, 1, 0, 0, 1003⟩
        = LoopStep.next ⟨1000, 1806, 2, 0, 0, 2806⟩ := by
      simp [loop_body, idle_car_gain, idle_car_power_net libm sqrt_10000, level_segment, race_day,
        Route.get_segment, RaceSchedule.day, RouteSegment.zero, update_energy_remaining,
        CHECKPOINT_DURATION]
      norm_num
    apply calculate_racetime_of_loop _ _ _ _ _ _ 3
    rw [e0, race_loop_next _ _ _ _ _ _ _ _ _ (by simp [Route.get_num_segments]) h0,
      race_loop_next _ _ _ _ _ _ _ _ _ (by simp [Route.get_num_segments]) h1,
      race_loop_done _ _ _ _ _ _ _ _ (by simp [Route.get_num_segments])]
  · rw [hmark]
    have h0 : loop_body libm idle_car
        ⟨[level_segment 30 SegmentEndCondition.CONTROL_STOP,
          level_segment 30 SegmentEndCondition.CONTROL_STOP]⟩
        (still_weather 0) [race_day 1000 2806] 10 ⟨1000, 0, 0, 0, 0, 1000⟩
        = LoopStep.next ⟨1000, 1803, 1, 0, 0, 2803⟩ := by
      simp [loop_body, idle_car_gain, idle_car_power_net libm sqrt_10000, level_segment, race_day,
        Route.get_segment, RaceSchedule.day, RouteSegment.zero, update_energy_remaining,
        CHECKPOINT_DURATION]
      norm_num
    have h1 : loop_body libm idle_car
        ⟨[level_segment 30 SegmentEndCondition.CONTROL_STOP,
          level_segment 30 SegmentEndCondition.CONTROL_STOP]⟩
        (still_weather 0) [race_day 1000 2806] 10 ⟨1000, 1803, 1, 0, 0, 2803⟩
        = LoopStep.next ⟨1000, 1806, 2, 0, 0, 2806⟩ := by
      simp [loop_body, idle_car_gain, idle_car_power_net libm sqrt_10000, level_segment, race_day,
        Route.get_segment, RaceSchedule.day, RouteSegment.zero, update_energy_remaining,
        CHECKPOINT_DURATION]
      norm_num
    apply calculate_racetime_of_loop _ _ _ _ _ _ 3
    rw [e0, race_loop_next _ _ _ _ _ _ _ _ _ (by simp [Route.get_num_segments]) h0,
      race_loop_next _ _ _ _ _ _ _ _ _ (by simp [Route.get_num_segments]) h1,
      race_loop_done _ _ _ _ _ _ _ _ (by simp [Route.get_num_segments])]

/-- C7, amended: let `R'` be the route `R` with segment `k`, no CONTROL_STOP in
`R`, marked CONTROL_STOP. For non-negative segment distances and a speed
`v > 0` at which the race on `R'`, dwells included, ends strictly before the
race end of the first day, if `calculate_racetime` returns `T` on `R` and `T'`
on `R'` then `T' = T + 1800`. -/
theorem C7_checkpoint_dwell_adds_1800_within_first_day {α : Type} [LinearOrderedField α]
    [FloorRing α] (m : LibM α) (car : SolarCar α) (route : Route α) (weather : Weather α)
    (schedule : RaceSchedule α) (speed : α) (k : Nat) (hv : 0 < speed)
    (hd : ∀ seg ∈ route.segments, 0 ≤ seg.distance)
    (hk : k < route.get_num_segments)
    (hkcs : (route.get_segment k).end_condition ≠ SegmentEndCondition.CONTROL_STOP)
    (hfit : (schedule.day 0).race_start_time + day_need speed (route.mark_control_stop k).segments
      < (schedule.day 0).race_end_time) (T T1 : α)
    (hT : calculate_racetime m car route weather schedule speed = some T)
    (hT1 : calculate_racetime m car (route.mark_control_stop k) weather schedule speed = some T1) :
    T1 = T + 1800 := by
  have hneed : day_need speed (route.mark_control_stop k).segments
      = day_need speed route.segments + CHECKPOINT_DURATION :=
    day_need_set speed RouteSegment.zero route.segments k hk hkcs
  have h1800 : (CHECKPOINT_DURATION : α) = 1800 := rfl
  have hd1 : ∀ seg ∈ (route.mark_control_stop k).segments, 0 ≤ seg.distance := by
    intro seg hseg
    obtain ⟨seg0, h0, he⟩ := mark_control_stop_distance route k seg hseg
    rw [he]; exact hd seg0 h0
  have e1 := calculate_racetime_in_day m car (route.mark_control_stop k) weather schedule speed
    hv hd1 hfit T1 hT1
  have e0 := calculate_racetime_in_day m car route weather schedule speed hv hd
    (by rw [hneed, h1800] at hfit; linarith) T hT
  rw [e1, e0, hneed, h1800]

/-- C7, amended, at the idle car at 10 m/s on two segments of 30 m with a race
day of 3000 s: 6 s, and 1806 s with the first segment marked CONTROL_STOP. -/
theorem C7_checkpoint_dwell_witness :
    calculate_racetime libm idle_car
        ⟨[level_segment 30 SegmentEndCondition.END_OF_RACE,
          level_segment 30 SegmentEndCondition.END_OF_RACE]⟩
        (still_weather 0) [race_day 1000 4000] 10 = some 6 ∧
      calculate_racetime libm idle_car
        (Route.mark_control_stop
          ⟨[level_segment 30 SegmentEndCondition.END_OF_RACE,
            level_segment 30 SegmentEndCondition.END_OF_RACE]⟩ 0)
        (still_weather 0) [race_day 1000 4000] 10 = some 1806 ∧
      (1806 : ℚ) = 6 + 1800 := by
  have hmark : Route.mark_control_stop
      (⟨[level_segment 30 SegmentEndCondition.END_OF_RACE,
        level_segment 30 SegmentEndCondition.END_OF_RACE]⟩ : Route ℚ) 0
      = ⟨[level_segment 30 SegmentEndCondition.CONTROL_STOP,
        level_segment 30 SegmentEndCondition.END_OF_RACE]⟩ := by
    simp [Route.mark_control_stop, Route.get_segment, level_segment]
  have hch : NonnegCharging idle_car (still_weather 0) :=
    ⟨by simp [idle_car], by simp [idle_car], by intro st t; simp [still_weather]⟩
  have hT : calculate_racetime libm idle_car
        ⟨[level_segment 30 SegmentEndCondition.END_OF_RACE,
          level_segment 30 SegmentEndCondition.END_OF_RACE]⟩
        (still_weather 0) [race_day 1000 4000] 10 = some 6 := by
    rw [calculate_racetime_in_day_feasible libm idle_car _ (still_weather 0) [race_day 1000 4000]
      10 (by norm_num)
      (by intro seg hseg; simp at hseg; subst hseg; simp [level_segment])
      (by simp [idle_car]) hch
      (by
        intro seg hseg w soc
        simp at hseg
        subst hseg
        exact ⟨0, le_rfl, idle_car_power_net libm sqrt_10000 _ (by simp [level_segment,
          RouteSegment.zero]) w soc 10⟩)
      (by
        simp [day_need, level_segment, race_day, RaceSchedule.day, RouteSegment.zero]
        norm_num)]
    simp [day_need, level_segment, RouteSegment.zero]
    norm_num
  have hT1 : calculate_racetime libm idle_car
        (Route.mark_control_stop
          ⟨[level_segment 30 SegmentEndCondition.END_OF_RACE,
            level_segment 30 SegmentEndCondition.END_OF_RACE]⟩ 0)
        (still_weather 0) [race_day 1000 4000] 10 = some 1806 := by
    rw [hmark, calculate_racetime_in_day_feasible libm idle_car _ (still_weather 0)
      [race_day 1000 4000] 10 (by norm_num)
      (by intro seg hseg; simp at hseg; rcases hseg with h | h <;> subst h <;>
        simp [level_segment])
      (by simp [idle_car]) hch
      (by
        intro seg hseg w soc
        simp at hseg
        rcases hseg with h | h <;> subst h <;>
          exact ⟨0, le_rfl, idle_car_power_net libm sqrt_10000 _ (by simp [level_segment,
            RouteSegment.zero]) w soc 10⟩)
      (by
        simp [day_need, level_segment, race_day, RaceSchedule.day, RouteSegment.zero,
          CHECKPOINT_DURATION]
        norm_num)]
    simp [day_need, level_segment, RouteSegment.zero, CHECKPOINT_DURATION]
    norm_num
  refine ⟨hT, hT1, ?_⟩
  exact C7_checkpoint_dwell_adds_1800_within_first_day libm idle_car
    ⟨[level_segment 30 SegmentEndCondition.END_OF_RACE,
      level_segment 30 SegmentEndCondition.END_OF_RACE]⟩
    (still_weather 0) [race_day 1000 4000] 10 0 (by norm_num)
    (by intro seg hseg; simp at hseg; subst hseg; simp [level_segment])
    (by simp [Route.get_num_segments])
    (by simp [Route.get_segment, level_segment])
    (by
      rw [hmark]
      simp [day_need, level_segment, race_day, RaceSchedule.day, RouteSegment.zero,
        CHECKPOINT_DURATION]
      norm_num)
    6 1806 hT hT1

/-- C10: `calculate_power_net` is infeasible exactly when `Battery::power_loss` at
the demand `power_out - power_in` is, and otherwise returns
`-((power_out - power_in) + loss)` with `loss` the value of that call. -/
theorem C10_power_net_is_minus_demand_plus_loss {α : Type} [LinearOrderedField α] (m : LibM α)
    (car : SolarCar α) (route_segment : RouteSegment α) (weather_data : WeatherDataPoint α)
    (state_of_charge speed : α) :
    (RaceSegmentRunner.calculate_power_net m car route_segment weather_data state_of_charge speed
        = none ↔
      car.battery.power_loss m
        (RaceSegmentRunner.calculate_power_out m car route_segment weather_data speed
          - RaceSegmentRunner.calculate_power_in car route_segment weather_data)
        state_of_charge = none) ∧
    ∀ loss, car.battery.power_loss m
        (RaceSegmentRunner.calculate_power_out m car route_segment weather_data speed
          - RaceSegmentRunner.calculate_power_in car route_segment weather_data)
        state_of_charge = some loss →
      RaceSegmentRunner.calculate_power_net m car route_segment weather_data state_of_charge speed
        = some (-((RaceSegmentRunner.calculate_power_out m car route_segment weather_data speed
            - RaceSegmentRunner.calculate_power_in car route_segment weather_data) + loss)) := by
  unfold RaceSegmentRunner.calculate_power_net
  cases h : car.battery.power_loss m
      (RaceSegmentRunner.calculate_power_out m car route_segment weather_data speed
        - RaceSegmentRunner.calculate_power_in car route_segment weather_data) state_of_charge with
  | none => simp [h]
  | some loss =>
    simp only [h, Option.some.injEq, reduceCtorEq, false_iff, not_false_eq_true, true_and]
    intro l hl
    rw [← hl]

/-- C11: `Battery::power_loss` on a charge (`net_power_demanded < 0`), with
`V = current_voltage(soc)` and `R = pack_resistance > 0`: it is infeasible exactly
when `V² - 4R(-P) < 0`, and otherwise returns `I²R` with
`I = (V - sqrt(V² - 4R(-P))) / (2R)`, for every libm. -/
theorem C11_power_loss_charging_case {α : Type} [LinearOrderedField α] (m : LibM α)
    (b : Battery α) (P soc : α) (_hR : 0 < b.pack_resistance) (hP : P < 0) :
    (b.power_loss m P soc = none ↔
      b.current_voltage soc * b.current_voltage soc - 4 * b.pack_resistance * (-P) < 0) ∧
    (¬ b.current_voltage soc * b.current_voltage soc - 4 * b.pack_resistance * (-P) < 0 →
      b.power_loss m P soc = some
        ((b.current_voltage soc
            - m.sqrt (b.current_voltage soc * b.current_voltage soc
              - 4 * b.pack_resistance * (-P)))
            / (2 * b.pack_resistance) *
          ((b.current_voltage soc
            - m.sqrt (b.current_voltage soc * b.current_voltage soc
              - 4 * b.pack_resistance * (-P)))
            / (2 * b.pack_resistance)) * b.pack_resistance)) := by
  rw [Battery.power_loss_charge m b P soc hP]
  constructor
  · by_cases h : b.current_voltage soc * b.current_voltage soc
        - 4 * b.pack_resistance * (-P) < 0
    · rw [if_pos h]; exact iff_of_true rfl h
    · rw [if_neg h]; exact iff_of_false (fun hn => by cases hn) h
  · intro h; rw [if_neg h]

/-- C11 at `V = 100`, `R = 1`, `P = -3000`: the discriminant is
`10000 - 12000 < 0` and the charge is infeasible. -/
theorem C11_power_loss_charging_witness :
    Battery.current_voltage (⟨1000, 1, 100, 100⟩ : Battery ℚ) (1 / 2) = 100 ∧
      Battery.power_loss libm (⟨1000, 1, 100, 100⟩ : Battery ℚ) (-3000) (1 / 2) = none := by
  have hV : Battery.current_voltage (⟨1000, 1, 100, 100⟩ : Battery ℚ) (1 / 2) = 100 := by
    simp [Battery.current_voltage]
  refine ⟨hV, ?_⟩
  apply (C11_power_loss_charging_case libm (⟨1000, 1, 100, 100⟩ : Battery ℚ) (-3000) (1 / 2)
    (by norm_num) (by norm_num)).1.mpr
  rw [hV]; norm_num

/-- C12: `Battery::power_loss` on a discharge (`net_power_demanded ≥ 0`) with
`R = pack_resistance > 0` and the real square root always returns a value,
`I²R` with `I = (-V + sqrt(V² + 4RP)) / (2R)` and `V = current_voltage(soc)`, and
this `I` is a root of `I²R + IV - P = 0`. -/
theorem C12_power_loss_discharging_case (m : LibM ℝ) (hm : m.IsReal) (b : Battery ℝ)
    (P soc : ℝ) (hR : 0 < b.pack_resistance) (hP : 0 ≤ P) :
    ∃ I : ℝ,
      I = (-b.current_voltage soc
          + Real.sqrt (b.current_voltage soc * b.current_voltage soc
            + 4 * b.pack_resistance * P)) / (2 * b.pack_resistance) ∧
      b.power_loss m P soc = some (I * I * b.pack_resistance) ∧
      I * I * b.pack_resistance + I * b.current_voltage soc - P = 0 := by
  have hD : 0 ≤ b.current_voltage soc * b.current_voltage soc + 4 * b.pack_resistance * P := by
    have := mul_self_nonneg (b.current_voltage soc)
    positivity
  refine ⟨_, rfl, ?_, ?_⟩
  · rw [Battery.power_loss_discharge m b P soc hP, if_neg (not_lt.mpr hD), hm.1]
  · exact Battery.discharge_root _ _ _ _ hR (Real.mul_self_sqrt hD)

/-- C12 at a pack of 1 Ω and 100 V with a demand of 101 W. -/
theorem C12_power_loss_discharging_witness :
    ∃ m : LibM ℝ, m.IsReal ∧ ∃ I : ℝ,
      I = (-Battery.current_voltage (⟨1000, 1, 100, 100⟩ : Battery ℝ) (1 / 2)
          + Real.sqrt (Battery.current_voltage (⟨1000, 1, 100, 100⟩ : Battery ℝ) (1 / 2)
            * Battery.current_voltage (⟨1000, 1, 100, 100⟩ : Battery ℝ) (1 / 2)
            + 4 * 1 * 101)) / (2 * 1) ∧
      Battery.power_loss m (⟨1000, 1, 100, 100⟩ : Battery ℝ) 101 (1 / 2) = some (I * I * 1) ∧
      I * I * 1 + I * Battery.current_voltage (⟨1000, 1, 100, 100⟩ : Battery ℝ) (1 / 2) - 101
        = 0 := by
  obtain ⟨m, hm⟩ := LibM.exists_real
  exact ⟨m, hm, C12_power_loss_discharging_case m hm (⟨1000, 1, 100, 100⟩ : Battery ℝ) 101
    (1 / 2) (by norm_num) (by norm_num)⟩

/-- C13: a loss returned by `Battery::power_loss` is non-negative, for the demand
`P` and for the demand `-P`, whenever `pack_resistance > 0`, for every libm. -/
theorem C13_power_loss_nonnegative {α : Type} [LinearOrderedField α] (m : LibM α)
    (b : Battery α) (P soc : α) (hR : 0 < b.pack_resistance) :
    (∀ loss, b.power_loss m P soc = some loss → 0 ≤ loss) ∧
      (∀ loss, b.power_loss m (-P) soc = some loss → 0 ≤ loss) := by
  constructor <;>
  · intro loss h
    obtain ⟨current, rfl⟩ := Battery.power_loss_eq_square m b _ soc loss h
    exact mul_nonneg (mul_self_nonneg current) hR.le

/-- C13 at a pack of 1 Ω and 100 V, for the demands 0 W and -0 W: the loss is 0. -/
theorem C13_power_loss_nonnegative_witness :
    Battery.power_loss libm (⟨1000, 1, 100, 100⟩ : Battery ℚ) 0 (1 / 2) = some 0 ∧
    (∀ loss, Battery.power_loss libm (⟨1000, 1, 100, 100⟩ : Battery ℚ) 0 (1 / 2) = some loss →
      0 ≤ loss) ∧
    (∀ loss, Battery.power_loss libm (⟨1000, 1, 100, 100⟩ : Battery ℚ) (-0) (1 / 2) = some loss →
      0 ≤ loss) := by
  refine ⟨?_, C13_power_loss_nonnegative libm (⟨1000, 1, 100, 100⟩ : Battery ℚ) 0 (1 / 2)
    (by norm_num)⟩
  rw [Battery.power_loss_discharge libm _ 0 (1 / 2) le_rfl]
  simp [Battery.current_voltage]
  norm_num [sqrt_10000]

/-- C14, refuted as stated: the loss need not vanish with the demand. First, a
pack of 1 Ω with 50 V to 150 V at the state of charge -3/2, where the voltage
is -100 V: `power_loss(0, soc)` is 10000 W, not 0. Second, a pack of 1 Ω with
0 V to 100 V at the state of charge 0, where the voltage is 0 V: every charge
`P < 0` is infeasible, so no loss tends to 0 from that side. -/
theorem C14_counterexample :
    (Battery.current_voltage (⟨1000, 1, 50, 150⟩ : Battery ℚ) (-3 / 2) = -100 ∧
      Battery.power_loss libm (⟨1000, 1, 50, 150⟩ : Battery ℚ) 0 (-3 / 2) = some 10000) ∧
    (Battery.current_voltage (⟨1000, 1, 0, 100⟩ : Battery ℚ) 0 = 0 ∧
      ∀ P : ℚ, P < 0 → Battery.power_loss libm (⟨1000, 1, 0, 100⟩ : Battery ℚ) P 0 = none) := by
  have hV1 : Battery.current_voltage (⟨1000, 1, 50, 150⟩ : Battery ℚ) (-3 / 2) = -100 := by
    simp [Battery.current_voltage]; norm_num
  have hV2 : Battery.current_voltage (⟨1000, 1, 0, 100⟩ : Battery ℚ) 0 = 0 := by
    simp [Battery.current_voltage]
  refine ⟨⟨hV1, ?_⟩, ⟨hV2, ?_⟩⟩
  · rw [Battery.power_loss_discharge libm _ 0 _ le_rfl, hV1]
    norm_num [sqrt_10000]
  · intro P hP
    rw [Battery.power_loss_charge libm _ P 0 hP, hV2, if_pos]
    simp only [mul_zero, zero_sub]
    nlinarith

/-- C14, amended: for a pack with `pack_resistance > 0` at a state of charge with
`current_voltage(soc) > 0`, with the real square root, `power_loss(0, soc)`
returns exactly 0 and `power_loss(P, soc)` tends to 0 as `P` tends to 0 from
either side: for every `ε > 0` there is a `δ > 0` such that every demand with
`|P| < δ` is feasible with a loss below `ε` in absolute value. -/
theorem C14_power_loss_vanishes_with_demand (m : LibM ℝ) (hm : m.IsReal) (b : Battery ℝ)
    (soc : ℝ) (hR : 0 < b.pack_resistance) (hV : 0 < b.current_voltage soc) :
    b.power_loss m 0 soc = some 0 ∧
      ∀ ε : ℝ, 0 < ε → ∃ δ : ℝ, 0 < δ ∧ ∀ P : ℝ, |P| < δ →
        ∃ loss, b.power_loss m P soc = some loss ∧ |loss| < ε := by
  constructor
  · obtain ⟨loss, h1, h2, h3⟩ :=
      Battery.real_discharge_loss m hm b 0 soc hR hV.le le_rfl
    rw [h1, le_antisymm h3 h2]
  · intro ε hε
    have hq : 0 < b.current_voltage soc * b.current_voltage soc / (4 * b.pack_resistance) := by
      positivity
    refine ⟨min ε (b.current_voltage soc * b.current_voltage soc / (4 * b.pack_resistance)),
      lt_min hε hq, ?_⟩
    intro P hP
    have hP1 := lt_of_lt_of_le hP (min_le_left _ _)
    have hP2 := lt_of_lt_of_le hP (min_le_right _ _)
    rw [abs_lt] at hP1 hP2
    by_cases h0 : 0 ≤ P
    · obtain ⟨loss, h1, h2, h3⟩ := Battery.real_discharge_loss m hm b P soc hR hV.le h0
      exact ⟨loss, h1, by rw [abs_of_nonneg h2]; linarith⟩
    · push_neg at h0
      have hD : 0 ≤ b.current_voltage soc * b.current_voltage soc
          - 4 * b.pack_resistance * (-P) := by
        have := (lt_div_iff₀ (by linarith : 0 < 4 * b.pack_resistance)).mp
          (by linarith : -P < b.current_voltage soc * b.current_voltage soc
            / (4 * b.pack_resistance))
        linarith
      obtain ⟨loss, h1, h2, h3⟩ := Battery.real_charge_loss m hm b P soc hR hV.le h0 hD
      exact ⟨loss, h1, by rw [abs_of_nonneg h2]; linarith⟩

/-- C14, amended, at a pack of 1 Ω and 100 V. -/
theorem C14_power_loss_vanishes_witness :
    ∃ m : LibM ℝ, m.IsReal ∧
      Battery.power_loss m (⟨1000, 1, 100, 100⟩ : Battery ℝ) 0 (1 / 2) = some 0 ∧
      ∀ ε : ℝ, 0 < ε → ∃ δ : ℝ, 0 < δ ∧ ∀ P : ℝ, |P| < δ →
        ∃ loss, Battery.power_loss m (⟨1000, 1, 100, 100⟩ : Battery ℝ) P (1 / 2) = some loss ∧
          |loss| < ε := by
  obtain ⟨m, hm⟩ := LibM.exists_real
  exact ⟨m, hm, C14_power_loss_vanishes_with_demand m hm (⟨1000, 1, 100, 100⟩ : Battery ℝ)
    (1 / 2) (by norm_num) (by simp [Battery.current_voltage])⟩

/-- C15: `Battery::current_voltage` is `min_voltage + soc * (max_voltage -
min_voltage)` for every state of charge, without clamping; it is `min_voltage`
at 0 and `max_voltage` at 1, and for `max_voltage ≥ min_voltage` it is monotone
in the state of charge. -/
theorem C15_current_voltage_affine_and_monotone {α : Type} [LinearOrderedField α]
    (b : Battery α) (soc soc1 soc2 : α) (hv : b.min_voltage ≤ b.max_voltage)
    (h : soc1 ≤ soc2) :
    b.current_voltage soc = b.min_voltage + soc * (b.max_voltage - b.min_voltage) ∧
      b.current_voltage 0 = b.min_voltage ∧ b.current_voltage 1 = b.max_voltage ∧
      b.current_voltage soc1 ≤ b.current_voltage soc2 := by
  refine ⟨rfl, by simp [Battery.current_voltage], by simp [Battery.current_voltage], ?_⟩
  unfold Battery.current_voltage
  have : soc1 * (b.max_voltage - b.min_voltage) ≤ soc2 * (b.max_voltage - b.min_voltage) :=
    mul_le_mul_of_nonneg_right h (by linarith)
  linarith

/-- C15 at a pack of 50 V to 150 V: 200 V at the state of charge 3/2, beyond
`max_voltage`, and 75 V at 1/4 below 125 V at 3/4. -/
theorem C15_current_voltage_witness :
    Battery.current_voltage (⟨1000, 1, 50, 150⟩ : Battery ℚ) (3 / 2) = 200 ∧
      Battery.current_voltage (⟨1000, 1, 50, 150⟩ : Battery ℚ) 0 = 50 ∧
      Battery.current_voltage (⟨1000, 1, 50, 150⟩ : Battery ℚ) 1 = 150 ∧
      Battery.current_voltage (⟨1000, 1, 50, 150⟩ : Battery ℚ) (1 / 4)
        ≤ Battery.current_voltage (⟨1000, 1, 50, 150⟩ : Battery ℚ) (3 / 4) := by
  have h := C15_current_voltage_affine_and_monotone (⟨1000, 1, 50, 150⟩ : Battery ℚ) (3 / 2)
    (1 / 4) (3 / 4) (by norm_num) (by norm_num)
  refine ⟨?_, h.2.1, h.2.2.1, h.2.2.2⟩
  rw [h.1]; norm_num

/-- C16: `calculate_resistive_force` is three times the rolling resistance of one
tyre under the load `(mass / 3) * gravity` at the pressure at STC, plus the
aerodynamic drag of the apparent wind met at `speed` on the heading of the
segment, plus `mass * gravity_times_sine_road_incline_angle`, for every libm,
car, segment, weather and speed; and with the real libm the inputs of scenario
S1 give 29945.2 N within the relative tolerance 1/1000. -/
theorem C16_resistive_force_is_sum_of_three_forces {α : Type} [LinearOrderedField α]
    (m : LibM α) (car : SolarCar α) (route_segment : RouteSegment α)
    (weather_data : WeatherDataPoint α) (speed : α) :
    RaceSegmentRunner.calculate_resistive_force m car route_segment weather_data speed
        = 3 * car.tire.rolling_resistance m ((car.mass / 3) * route_segment.gravity) speed none
          + car.aerobody.aerodynamic_drag m
              (Aerobody.get_wind m weather_data.wind
                (VelocityVector.from_polar_components m speed route_segment.heading))
              weather_data.air_density
          + car.mass * route_segment.gravity_times_sine_road_incline_angle ∧
      car.tire.rolling_resistance m ((car.mass / 3) * route_segment.gravity) speed none
        = car.tire.rolling_resistance m ((car.mass / 3) * route_segment.gravity) speed
            (some car.tire.tire_pressure_at_stc) ∧
      ∀ r : LibM ℝ, r.IsReal →
        |RaceSegmentRunner.calculate_resistive_force r (s1_car ℝ) (s1_segment ℝ) (s1_weather r)
            (19459 / 1000) - 299452 / 10| ≤ 299452 / 10 * (1 / 1000) :=
  ⟨rfl, rfl, s1_resistive_force⟩

/-- C16 at scenario S1: with the real libm the resistive force is the sum of the
three forces and lies within 1/1000 of 29945.2 N. -/
theorem C16_resistive_force_golden_witness :
    ∃ m : LibM ℝ, m.IsReal ∧
      RaceSegmentRunner.calculate_resistive_force m (s1_car ℝ) (s1_segment ℝ) (s1_weather m)
          (19459 / 1000)
        = 3 * (s1_car ℝ).tire.rolling_resistance m
              (((s1_car ℝ).mass / 3) * (s1_segment ℝ).gravity) (19459 / 1000) none
          + (s1_car ℝ).aerobody.aerodynamic_drag m
              (Aerobody.get_wind m (s1_weather m).wind
                (VelocityVector.from_polar_components m (19459 / 1000) (s1_segment ℝ).heading))
              (s1_weather m).air_density
          + (s1_car ℝ).mass * (s1_segment ℝ).gravity_times_sine_road_incline_angle ∧
      |RaceSegmentRunner.calculate_resistive_force m (s1_car ℝ) (s1_segment ℝ) (s1_weather m)
          (19459 / 1000) - 299452 / 10| ≤ 299452 / 10 * (1 / 1000) := by
  obtain ⟨m, hm⟩ := LibM.exists_real
  have h := C16_resistive_force_is_sum_of_three_forces m (s1_car ℝ) (s1_segment ℝ)
    (s1_weather m) (19459 / 1000)
  exact ⟨m, hm, h.1, h.2.2 m hm⟩

/-- C17: `calculate_power_out` is `motor.power_consumed(speed / wheel_radius,
F * wheel_radius)` with `F` the resistive force; for `wheel_radius ≠ 0` that is
`F * speed + hysteresis_loss + eddy_current_loss_coefficient * speed /
wheel_radius`, whose mechanical term does not depend on the wheel radius. -/
theorem C17_power_out_is_motor_power {α : Type} [LinearOrderedField α] (m : LibM α)
    (car : SolarCar α) (route_segment : RouteSegment α) (weather_data : WeatherDataPoint α)
    (speed : α) (hr : car.wheel_radius ≠ 0) :
    RaceSegmentRunner.calculate_power_out m car route_segment weather_data speed
        = car.motor.power_consumed (speed / car.wheel_radius)
          (RaceSegmentRunner.calculate_resistive_force m car route_segment weather_data speed
            * car.wheel_radius) ∧
      RaceSegmentRunner.calculate_power_out m car route_segment weather_data speed
        = RaceSegmentRunner.calculate_resistive_force m car route_segment weather_data speed
            * speed
          + car.motor.hysteresis_loss
          + car.motor.eddy_current_loss_coefficient * speed / car.wheel_radius := by
  refine ⟨rfl, ?_⟩
  unfold RaceSegmentRunner.calculate_power_out Motor.power_consumed
  field_simp
  ring

/-- C17 at the idle car (wheel radius 1 m) at 10 m/s: no power goes out. -/
theorem C17_power_out_witness :
    RaceSegmentRunner.calculate_power_out libm idle_car
        (level_segment 30 SegmentEndCondition.END_OF_RACE) ⟨⟨0, 0⟩, 0, 0, 0, 1, 0⟩ 10
        = idle_car.motor.power_consumed (10 / idle_car.wheel_radius)
          (RaceSegmentRunner.calculate_resistive_force libm idle_car
            (level_segment 30 SegmentEndCondition.END_OF_RACE) ⟨⟨0, 0⟩, 0, 0, 0, 1, 0⟩ 10
            * idle_car.wheel_radius) ∧
      RaceSegmentRunner.calculate_power_out libm idle_car
        (level_segment 30 SegmentEndCondition.END_OF_RACE) ⟨⟨0, 0⟩, 0, 0, 0, 1, 0⟩ 10
        = RaceSegmentRunner.calculate_resistive_force libm idle_car
            (level_segment 30 SegmentEndCondition.END_OF_RACE) ⟨⟨0, 0⟩, 0, 0, 0, 1, 0⟩ 10 * 10
          + idle_car.motor.hysteresis_loss
          + idle_car.motor.eddy_current_loss_coefficient * 10 / idle_car.wheel_radius :=
  C17_power_out_is_motor_power libm idle_car (level_segment 30 SegmentEndCondition.END_OF_RACE)
    ⟨⟨0, 0⟩, 0, 0, 0, 1, 0⟩ 10 (by simp [idle_car])

/-- C18: `calculate_power_in` is `array_area * (array_efficiency / 100) *
irradiance`: it does not depend on the route segment nor on a weather field
other than the irradiance, and it is linear in the irradiance. -/
theorem C18_power_in_is_array_power {α : Type} [LinearOrderedField α] (car : SolarCar α)
    (s1 s2 : RouteSegment α) (w1 w2 : WeatherDataPoint α) (k1 k2 x y : α) :
    RaceSegmentRunner.calculate_power_in car s1 w1
        = car.array.array_area * (car.array.array_efficiency / 100) * w1.irradiance ∧
      RaceSegmentRunner.calculate_power_in car s1 w1
        = RaceSegmentRunner.calculate_power_in car s2 { w2 with irradiance := w1.irradiance } ∧
      RaceSegmentRunner.calculate_power_in car s1 { w1 with irradiance := k1 * x + k2 * y }
        = k1 * RaceSegmentRunner.calculate_power_in car s1 { w1 with irradiance := x }
          + k2 * RaceSegmentRunner.calculate_power_in car s1 { w1 with irradiance := y } := by
  refine ⟨rfl, rfl, ?_⟩
  simp only [RaceSegmentRunner.calculate_power_in, Array.power_in]
  ring

/-- C18 at an array of 4.63645 m² with efficiency 22.3886 % under 215.042 W/m²:
223.2 W within a relative tolerance of 1/1000. -/
theorem C18_power_in_witness :
    |RaceSegmentRunner.calculate_power_in
        ({ idle_car with array := ⟨463645 / 100000, 223886 / 10000⟩ } : SolarCar ℚ)
        (level_segment 30 SegmentEndCondition.END_OF_RACE)
        ⟨⟨0, 0⟩, 215042 / 1000, 0, 0, 1, 0⟩ - 2232 / 10| ≤ 2232 / 10 * (1 / 1000) := by
  rw [(C18_power_in_is_array_power
    ({ idle_car with array := ⟨463645 / 100000, 223886 / 10000⟩ } : SolarCar ℚ)
    (level_segment 30 SegmentEndCondition.END_OF_RACE)
    (level_segment 30 SegmentEndCondition.END_OF_RACE)
    ⟨⟨0, 0⟩, 215042 / 1000, 0, 0, 1, 0⟩ ⟨⟨0, 0⟩, 215042 / 1000, 0, 0, 1, 0⟩ 0 0 0 0).1,
    abs_le]
  constructor <;> norm_num

/-- C20: `Aerobody::get_wind` returns the apparent wind of the car. For a reported
wind `r` and a car velocity `c`, with the real libm, the speed is the magnitude
of `(-r) - c`, that is `sqrt((r.ns + c.ns)² + (r.ew + c.ew)²)`, and the yaw is
`c.angle_between(r + c)`. A wind reported from heading `h` at speed `w ≥ 0` met
by a car on heading `h` at speed `v > 0` gives speed `v + w` and yaw 0. -/
theorem C20_get_wind_is_apparent_wind (m : LibM ℝ) (hm : m.IsReal) (r c : VelocityVector ℝ)
    (w v h : ℝ) (hw : 0 ≤ w) (hv : 0 < v) :
    (Aerobody.get_wind m r c).speed
        = VelocityVector.get_magnitude m
          ⟨-r.north_south - c.north_south, -r.east_west - c.east_west⟩ ∧
      (Aerobody.get_wind m r c).speed
        = Real.sqrt ((r.north_south + c.north_south) ^ 2 + (r.east_west + c.east_west) ^ 2) ∧
      (Aerobody.get_wind m r c).yaw
        = c.angle_between m ⟨r.north_south + c.north_south, r.east_west + c.east_west⟩ ∧
      Aerobody.get_wind m (VelocityVector.from_polar_components m w h)
          (VelocityVector.from_polar_components m v h)
        = { speed := v + w, yaw := 0 } := by
  refine ⟨rfl, ?_, ?_, ?_⟩
  · rw [Aerobody.get_wind_eq, hm.1]; simp only; congr 1; ring
  · rw [Aerobody.get_wind_eq]
  · rw [Aerobody.get_wind_eq]
    have hyaw : (VelocityVector.from_polar_components m v h).angle_between m
        ⟨(VelocityVector.from_polar_components m w h).north_south
            + (VelocityVector.from_polar_components m v h).north_south,
          (VelocityVector.from_polar_components m w h).east_west
            + (VelocityVector.from_polar_components m v h).east_west⟩ = 0 := by
      apply VelocityVector.angle_between_same_heading m hm _ _ ((w + v) / v)
        (div_nonneg (by linarith) hv.le)
      · simp only [VelocityVector.from_polar_components]; field_simp; ring
      · simp only [VelocityVector.from_polar_components]; field_simp; ring
    rw [hyaw]
    congr 1
    simp only [VelocityVector.from_polar_components, hm.1, hm.2.1, hm.2.2.1]
    have : (w * Real.cos h + v * Real.cos h) * (w * Real.cos h + v * Real.cos h)
        + (w * Real.sin h + v * Real.sin h) * (w * Real.sin h + v * Real.sin h)
        = (v + w) * (v + w) := by
      have := Real.sin_sq_add_cos_sq h
      nlinarith
    rw [this, Real.sqrt_mul_self (by linarith)]

/-- C20 at a wind of 5 m/s reported from heading 1 rad met by a car on heading
1 rad at 10 m/s: an apparent wind of 15 m/s at yaw 0. -/
theorem C20_get_wind_witness :
    ∃ m : LibM ℝ, m.IsReal ∧
      Aerobody.get_wind m (VelocityVector.from_polar_components m 5 1)
          (VelocityVector.from_polar_components m 10 1)
        = { speed := 10 + 5, yaw := 0 } := by
  obtain ⟨m, hm⟩ := LibM.exists_real
  exact ⟨m, hm, (C20_get_wind_is_apparent_wind m hm ⟨0, 0⟩ ⟨0, 0⟩ 5 10 1 (by norm_num)
    (by norm_num)).2.2.2⟩

/-- C21: what the code computes where the claim promises `h2 - h1`. With the real
libm, for speeds `s1, s2 > 0` and headings with `0 < h2 - h1 < π`, `angle_between`
from the vector on heading `h1` to the vector on heading `h2` is `-(h2 - h1)`:
negative when the other vector is to starboard. With the roles swapped it is
`h2 - h1`. -/
theorem C21_angle_between_is_negative_to_starboard (m : LibM ℝ) (hm : m.IsReal)
    (s1 s2 h1 h2 : ℝ) (hs1 : 0 < s1) (hs2 : 0 < s2) (hlo : 0 < h2 - h1)
    (hhi : h2 - h1 < Real.pi) :
    (VelocityVector.from_polar_components m s1 h1).angle_between m
        (VelocityVector.from_polar_components m s2 h2) = -(h2 - h1) ∧
      (VelocityVector.from_polar_components m s2 h2).angle_between m
        (VelocityVector.from_polar_components m s1 h1) = h2 - h1 := by
  constructor
  · rw [VelocityVector.real_angle_between_polar m hm s1 s2 h1 h2 hs1 hs2 (by linarith)
      (by linarith [Real.pi_pos])]
    ring
  · exact VelocityVector.real_angle_between_polar m hm s2 s1 h2 h1 hs2 hs1
      (by linarith [Real.pi_pos]) hhi.le

/-- C21 at speeds 1 and headings 0 (due north) and 1 rad (to starboard of north):
`angle_between` is -1, not the 1 of the claim. -/
theorem C21_angle_between_north_to_heading_one :
    ∃ m : LibM ℝ, m.IsReal ∧
      (VelocityVector.from_polar_components m 1 0).angle_between m
          (VelocityVector.from_polar_components m 1 1) = -1 ∧
      (VelocityVector.from_polar_components m 1 0).angle_between m
          (VelocityVector.from_polar_components m 1 1) ≠ 1 - 0 := by
  obtain ⟨m, hm⟩ := LibM.exists_real
  have h := (C21_angle_between_is_negative_to_starboard m hm 1 1 0 1 (by norm_num) (by norm_num)
    (by norm_num) (by linarith [Real.pi_gt_three])).1
  refine ⟨m, hm, ?_, ?_⟩
  · rw [h]; norm_num
  · rw [h]; norm_num

/-- C22: `aerodynamic_drag` is `0.5 * air_density * (speed * cos(yaw))² *
drag_coefficient * frontal_area`, for every libm and apparent wind, and it is
non-negative when `air_density`, `drag_coefficient` and `frontal_area` are. -/
theorem C22_aerodynamic_drag_formula_and_sign {α : Type} [LinearOrderedField α] (m : LibM α)
    (ab : Aerobody α) (apparent_wind : ApparentWindVector α) (air_density : α) :
    ab.aerodynamic_drag m apparent_wind air_density
        = (1 / 2) * air_density * (apparent_wind.speed * m.cos apparent_wind.yaw) ^ 2
            * ab.drag_coefficient * ab.frontal_area ∧
      (0 ≤ air_density → 0 ≤ ab.drag_coefficient → 0 ≤ ab.frontal_area →
        0 ≤ ab.aerodynamic_drag m apparent_wind air_density) := by
  have e : ab.aerodynamic_drag m apparent_wind air_density
      = (1 / 2) * air_density * (apparent_wind.speed * m.cos apparent_wind.yaw) ^ 2
          * ab.drag_coefficient * ab.frontal_area := by
    simp only [Aerobody.aerodynamic_drag]; ring
  refine ⟨e, fun hrho hcd hA => ?_⟩
  rw [e]
  have := sq_nonneg (apparent_wind.speed * m.cos apparent_wind.yaw)
  positivity

/-- C22 at `Cd = 0.1`, `A = 2`, density 1 and an apparent wind of speed -10 whose
yaw has cosine 1/2: the drag is 2.5 N. -/
theorem C22_aerodynamic_drag_witness :
    Aerobody.aerodynamic_drag libm (⟨1 / 10, 2⟩ : Aerobody ℚ) ⟨-10, 1⟩ 1 = 5 / 2 ∧
      (0 : ℚ) ≤ Aerobody.aerodynamic_drag libm (⟨1 / 10, 2⟩ : Aerobody ℚ) ⟨-10, 1⟩ 1 := by
  have h := C22_aerodynamic_drag_formula_and_sign libm (⟨1 / 10, 2⟩ : Aerobody ℚ) ⟨-10, 1⟩ 1
  refine ⟨?_, h.2 (by norm_num) (by norm_num) (by norm_num)⟩
  rw [h.1]
  norm_num [libm]

/-- C23: `rolling_resistance` is `pow(P, alpha) * pow(tire_load, beta) *
(a + b V + c V²)` with `V = 3.6 * vehicle_speed`, where `P` is the pressure
passed, or `tire_pressure_at_stc` when none is passed; omitting the pressure is
the same as passing `tire_pressure_at_stc`. For every libm and every input. -/
theorem C23_rolling_resistance_formula {α : Type} [LinearOrderedField α] (m : LibM α)
    (t : Tire α) (tire_load vehicle_speed tire_pressure : α) :
    t.rolling_resistance m tire_load vehicle_speed (some tire_pressure)
        = m.pow tire_pressure t.alpha * m.pow tire_load t.beta
          * (t.a + t.b * ((36 / 10) * vehicle_speed)
              + t.c * ((36 / 10) * vehicle_speed) ^ 2) ∧
      t.rolling_resistance m tire_load vehicle_speed none
        = m.pow t.tire_pressure_at_stc t.alpha * m.pow tire_load t.beta
          * (t.a + t.b * ((36 / 10) * vehicle_speed)
              + t.c * ((36 / 10) * vehicle_speed) ^ 2) ∧
      t.rolling_resistance m tire_load vehicle_speed none
        = t.rolling_resistance m tire_load vehicle_speed (some t.tire_pressure_at_stc) := by
  refine ⟨?_, ?_, rfl⟩ <;>
  · simp only [Tire.rolling_resistance, Option.getD]
    ring

/-- C23 with the real libm at `alpha = 2`, `beta = 1`, `a = 1`, `b = 1/2`,
`c = 0`, pressure 3 at STC, load 5 and 10 m/s: `3² * 5 * (1 + 18) = 855`. -/
theorem C23_rolling_resistance_witness :
    ∃ m : LibM ℝ, m.IsReal ∧
      Tire.rolling_resistance m (⟨2, 1, 1, 1 / 2, 0, 3⟩ : Tire ℝ) 5 10 none = 855 := by
  obtain ⟨m, hm⟩ := LibM.exists_real
  refine ⟨m, hm, ?_⟩
  rw [(C23_rolling_resistance_formula m (⟨2, 1, 1, 1 / 2, 0, 3⟩ : Tire ℝ) 5 10 0).2.1]
  simp only [hm.2.2.2.2.1]
  norm_num

/-- C24: the module variant of `Motor::power_consumed` is `ω τ + hysteresis_loss
+ eddy_current_loss_coefficient ω`, the old variant is `ω τ + hysteresis_loss`,
and the module variant exceeds the old one by exactly
`eddy_current_loss_coefficient ω`. -/
theorem C24_module_motor_exceeds_old_by_eddy_loss {α : Type} [LinearOrderedField α]
    (mo : Motor α) (angular_speed torque : α) :
    mo.power_consumed angular_speed torque
        = angular_speed * torque + mo.hysteresis_loss
          + mo.eddy_current_loss_coefficient * angular_speed ∧
      Old.Motor.power_consumed mo angular_speed torque
        = angular_speed * torque + mo.hysteresis_loss ∧
      mo.power_consumed angular_speed torque - Old.Motor.power_consumed mo angular_speed torque
        = mo.eddy_current_loss_coefficient * angular_speed := by
  refine ⟨rfl, rfl, ?_⟩
  simp only [Motor.power_consumed, Old.Motor.power_consumed]
  ring

/-- C25: with the real libm, for every `speed ≥ 0` and every heading, the
magnitude of `from_polar_components(speed, heading)` is `speed`. -/
theorem C25_magnitude_round_trip (m : LibM ℝ) (hm : m.IsReal) (speed heading : ℝ)
    (hs : 0 ≤ speed) :
    (VelocityVector.from_polar_components m speed heading).get_magnitude m = speed :=
  VelocityVector.real_magnitude_polar m hm speed heading hs

/-- C25 at speed 7 and at speed 0, heading 2 rad. -/
theorem C25_magnitude_round_trip_witness :
    ∃ m : LibM ℝ, m.IsReal ∧
      (VelocityVector.from_polar_components m 7 2).get_magnitude m = 7 ∧
      (VelocityVector.from_polar_components m 0 2).get_magnitude m = 0 := by
  obtain ⟨m, hm⟩ := LibM.exists_real
  exact ⟨m, hm, C25_magnitude_round_trip m hm 7 2 (by norm_num),
    C25_magnitude_round_trip m hm 0 2 le_rfl⟩

/-- C26: with the real libm, for every `speed > 0` and every heading in
`[0, 2π)`, the heading of `from_polar_components(speed, heading)` is `heading`. -/
theorem C26_heading_round_trip (m : LibM ℝ) (hm : m.IsReal) (speed heading : ℝ)
    (hs : 0 < speed) (h0 : 0 ≤ heading) (h1 : heading < 2 * Real.pi) :
    (VelocityVector.from_polar_components m speed heading).get_heading m = heading :=
  VelocityVector.real_heading_polar m hm speed heading hs h0 h1

/-- C26 at speed 7 and the headings 2 rad (below π) and 5 rad (above π). -/
theorem C26_heading_round_trip_witness :
    ∃ m : LibM ℝ, m.IsReal ∧
      (VelocityVector.from_polar_components m 7 2).get_heading m = 2 ∧
      (VelocityVector.from_polar_components m 7 5).get_heading m = 5 := by
  obtain ⟨m, hm⟩ := LibM.exists_real
  exact ⟨m, hm,
    C26_heading_round_trip m hm 7 2 (by norm_num) (by norm_num)
      (by linarith [Real.pi_gt_three]),
    C26_heading_round_trip m hm 7 5 (by norm_num) (by norm_num)
      (by linarith [Real.pi_gt_three])⟩

/-- C27: with the real libm, for every `(ns, ew)` the heading of
`from_cartesian_components(ns, ew)` lies in `[0, 2π)`, is `atan2(ew, ns)` when
that is non-negative and `atan2(ew, ns) + 2π` otherwise. -/
theorem C27_get_heading_is_normalized_atan2 (m : LibM ℝ) (hm : m.IsReal) (ns ew : ℝ) :
    0 ≤ (VelocityVector.from_cartesian_components ns ew).get_heading m ∧
      (VelocityVector.from_cartesian_components ns ew).get_heading m < 2 * Real.pi ∧
      (0 ≤ m.atan2 ew ns →
        (VelocityVector.from_cartesian_components ns ew).get_heading m = m.atan2 ew ns) ∧
      (m.atan2 ew ns < 0 →
        (VelocityVector.from_cartesian_components ns ew).get_heading m
          = m.atan2 ew ns + 2 * Real.pi) := by
  simp only [VelocityVector.get_heading, VelocityVector.from_cartesian_components,
    hm.2.2.2.2.2]
  have hlo : -Real.pi < m.atan2 ew ns := by
    rw [hm.2.2.2.1]; exact Complex.neg_pi_lt_arg _
  have hhi : m.atan2 ew ns ≤ Real.pi := by
    rw [hm.2.2.2.1]; exact Complex.arg_le_pi _
  have hpi := Real.pi_pos
  refine ⟨?_, ?_, ?_, ?_⟩
  · split_ifs with h <;> linarith
  · split_ifs with h <;> linarith
  · intro h; rw [if_neg (not_lt.mpr h)]
  · intro h; rw [if_pos h]

/-- C27 at due west `(0, -1)`, where `atan2` is `-π/2` and the heading `3π/2`,
and at due east `(0, 1)`, where both are `π/2`. -/
theorem C27_get_heading_witness :
    ∃ m : LibM ℝ, m.IsReal ∧
      (VelocityVector.from_cartesian_components 0 (-1)).get_heading m = 3 * Real.pi / 2 ∧
      (VelocityVector.from_cartesian_components 0 1).get_heading m = Real.pi / 2 := by
  obtain ⟨m, hm⟩ := LibM.exists_real
  have a1 : m.atan2 (-1) 0 = -(Real.pi / 2) := by
    rw [hm.2.2.2.1]
    have : (⟨0, -1⟩ : ℂ) = -Complex.I := by apply Complex.ext <;> simp
    rw [this, Complex.arg_neg_I]
  have a2 : m.atan2 1 0 = Real.pi / 2 := by
    rw [hm.2.2.2.1]
    have : (⟨0, 1⟩ : ℂ) = Complex.I := by apply Complex.ext <;> simp
    rw [this, Complex.arg_I]
  have hpi := Real.pi_pos
  refine ⟨m, hm, ?_, ?_⟩
  · rw [(C27_get_heading_is_normalized_atan2 m hm 0 (-1)).2.2.2 (by rw [a1]; linarith), a1]
    ring
  · rw [(C27_get_heading_is_normalized_atan2 m hm 0 1).2.2.1 (by rw [a2]; linarith), a2]

/-- C28: for every libm and all vectors `a`, `b`, when `a` or `b` has magnitude
0, `a.angle_between(b)` is exactly 0. -/
theorem C28_angle_between_zero_magnitude {α : Type} [LinearOrderedField α] (m : LibM α)
    (a b : VelocityVector α) (h : a.get_magnitude m = 0 ∨ b.get_magnitude m = 0) :
    a.angle_between m b = 0 := by
  unfold VelocityVector.angle_between
  rw [if_pos h]

/-- C28 at the zero vector against `(3, 4)`, on either side. -/
theorem C28_angle_between_zero_witness :
    (VelocityVector.get_magnitude libm (⟨0, 0⟩ : VelocityVector ℚ) = 0 ∨
        VelocityVector.get_magnitude libm (⟨3, 4⟩ : VelocityVector ℚ) = 0) ∧
      VelocityVector.angle_between libm (⟨0, 0⟩ : VelocityVector ℚ) ⟨3, 4⟩ = 0 ∧
      VelocityVector.angle_between libm (⟨3, 4⟩ : VelocityVector ℚ) ⟨0, 0⟩ = 0 := by
  have h0 : VelocityVector.get_magnitude libm (⟨0, 0⟩ : VelocityVector ℚ) = 0 := by
    simp [VelocityVector.get_magnitude, libm]
  exact ⟨Or.inl h0, C28_angle_between_zero_magnitude libm _ _ (Or.inl h0),
    C28_angle_between_zero_magnitude libm _ _ (Or.inr h0)⟩

/-- C29: with the real libm, for all vectors `a` and `b`,
`-π ≤ a.angle_between(b) ≤ π`. -/
theorem C29_angle_between_range (m : LibM ℝ) (hm : m.IsReal) (a b : VelocityVector ℝ) :
    -Real.pi ≤ a.angle_between m b ∧ a.angle_between m b ≤ Real.pi := by
  unfold VelocityVector.angle_between
  have hpi := Real.pi_pos
  split_ifs with h
  · constructor <;> linarith
  · rw [hm.2.2.2.1]
    exact ⟨(Complex.neg_pi_lt_arg _).le, Complex.arg_le_pi _⟩

/-- C29 at due north against due south, where the angle is the bound `π`. -/
theorem C29_angle_between_range_witness :
    ∃ m : LibM ℝ, m.IsReal ∧
      VelocityVector.angle_between m ⟨1, 0⟩ ⟨-1, 0⟩ = Real.pi ∧
      -Real.pi ≤ VelocityVector.angle_between m ⟨1, 0⟩ ⟨-1, 0⟩ ∧
      VelocityVector.angle_between m ⟨1, 0⟩ ⟨-1, 0⟩ ≤ Real.pi := by
  obtain ⟨m, hm⟩ := LibM.exists_real
  refine ⟨m, hm, ?_, C29_angle_between_range m hm ⟨1, 0⟩ ⟨-1, 0⟩⟩
  have h1 : VelocityVector.get_magnitude m (⟨1, 0⟩ : VelocityVector ℝ) = 1 := by
    simp [VelocityVector.get_magnitude, hm.1]
  have h2 : VelocityVector.get_magnitude m (⟨-1, 0⟩ : VelocityVector ℝ) = 1 := by
    simp [VelocityVector.get_magnitude, hm.1]
  unfold VelocityVector.angle_between
  rw [h1, h2, if_neg (by norm_num), hm.2.2.2.1]
  have : (⟨(1 : ℝ) * -1 + 0 * 0, 0 * -1 - 1 * 0⟩ : ℂ) = -1 := by
    apply Complex.ext <;> simp
  rw [this, Complex.arg_neg_one]

/-- C30: `get_distance_between` is symmetric in its two indices and 0 on the
diagonal, for every route and all indices. -/
theorem C30_distance_between_symmetric_and_zero_on_diagonal {α : Type} [LinearOrderedField α]
    (route : Route α) (index1 index2 : Nat) :
    route.get_distance_between index1 index2 = route.get_distance_between index2 index1 ∧
      route.get_distance_between index1 index1 = 0 := by
  refine ⟨?_, by simp [Route.get_distance_between]⟩
  rcases Nat.lt_trichotomy index1 index2 with h | h | h
  · have h1 : index1 ≠ index2 := Nat.ne_of_lt h
    have h2 : ¬ index1 > index2 := Nat.not_lt.mpr h.le
    simp only [Route.get_distance_between, if_neg h1, if_neg h1.symm, if_neg h2, if_pos h]
  · rw [h]
  · have h1 : index1 ≠ index2 := Nat.ne_of_gt h
    have h2 : ¬ index2 > index1 := Nat.not_lt.mpr h.le
    simp only [Route.get_distance_between, if_neg h1, if_neg h1.symm, if_neg h2, if_pos h]

/-- C30 on a route of three segments of 1, 2 and 4 m: from index 1 to index 3 and
back the distance is 6 m, and from index 2 to itself it is 0. -/
theorem C30_distance_between_witness :
    Route.get_distance_between
        (⟨[level_segment 1 SegmentEndCondition.CONTROL_STOP,
          level_segment 2 SegmentEndCondition.CONTROL_STOP,
          level_segment 4 SegmentEndCondition.END_OF_RACE]⟩ : Route ℚ) 3 1 = 6 ∧
      Route.get_distance_between
        (⟨[level_segment 1 SegmentEndCondition.CONTROL_STOP,
          level_segment 2 SegmentEndCondition.CONTROL_STOP,
          level_segment 4 SegmentEndCondition.END_OF_RACE]⟩ : Route ℚ) 1 3 = 6 ∧
      Route.get_distance_between
        (⟨[level_segment 1 SegmentEndCondition.CONTROL_STOP,
          level_segment 2 SegmentEndCondition.CONTROL_STOP,
          level_segment 4 SegmentEndCondition.END_OF_RACE]⟩ : Route ℚ) 2 2 = 0 := by
  have h := C30_distance_between_symmetric_and_zero_on_diagonal
    (⟨[level_segment 1 SegmentEndCondition.CONTROL_STOP,
      level_segment 2 SegmentEndCondition.CONTROL_STOP,
      level_segment 4 SegmentEndCondition.END_OF_RACE]⟩ : Route ℚ) 3 1
  have h2 := (C30_distance_between_symmetric_and_zero_on_diagonal
    (⟨[level_segment 1 SegmentEndCondition.CONTROL_STOP,
      level_segment 2 SegmentEndCondition.CONTROL_STOP,
      level_segment 4 SegmentEndCondition.END_OF_RACE]⟩ : Route ℚ) 2 2).2
  have e : Route.get_distance_between
        (⟨[level_segment 1 SegmentEndCondition.CONTROL_STOP,
          level_segment 2 SegmentEndCondition.CONTROL_STOP,
          level_segment 4 SegmentEndCondition.END_OF_RACE]⟩ : Route ℚ) 1 3 = 6 := by
    simp [Route.get_distance_between, List.range', level_segment]
    norm_num
  exact ⟨h.1.trans e, e, h2⟩

open BinarySearchOptimizer SplineWeather

/-- C31: for a route of `n` segments and indices `i, j < n`,
`get_distance_between(i, j)` is the sum of `segments[k].distance` over
`min(i, j) ≤ k < max(i, j)`. -/
theorem C31_distance_between_is_half_open_sum {α : Type} [LinearOrderedField α]
    (route : Route α) (i j : Nat) (hi : i < route.get_num_segments)
    (hj : j < route.get_num_segments) :
    route.get_distance_between i j
      = ∑ k ∈ Finset.Ico (min i j) (max i j), (route.get_segment k).distance := by
  unfold Route.get_num_segments at hi hj
  rcases le_total i j with h | h
  · rw [min_eq_left h, max_eq_right h]
    exact (Route.get_distance_between_ordered route i j h hj.le).1
  · rw [min_eq_right h, max_eq_left h]
    exact (Route.get_distance_between_ordered route j i h hi.le).2

/-- C31 on a route of three segments of 1, 2 and 4 m: from index 2 to index 0 the
distance is `1 + 2`. -/
theorem C31_distance_between_witness :
    Route.get_distance_between
        (⟨[level_segment 1 SegmentEndCondition.CONTROL_STOP,
          level_segment 2 SegmentEndCondition.CONTROL_STOP,
          level_segment 4 SegmentEndCondition.END_OF_RACE]⟩ : Route ℚ) 2 0 = 1 + 2 := by
  rw [C31_distance_between_is_half_open_sum _ 2 0 (by simp [Route.get_num_segments])
    (by simp [Route.get_num_segments])]
  simp [Finset.sum_Ico_eq_sum_range, Finset.sum_range_succ, Route.get_segment, level_segment]

/-- C32 fails at an index equal to the number of segments: on a route of one
segment of 5 m, `get_distance_between(0, 1)` is 5, not 0. -/
theorem C32_counterexample :
    ((⟨[level_segment 5 SegmentEndCondition.END_OF_RACE]⟩ : Route ℚ).get_num_segments = 1 ∧
      Route.get_distance_between
        (⟨[level_segment 5 SegmentEndCondition.END_OF_RACE]⟩ : Route ℚ) 0 1 = 5) := by
  constructor
  · rfl
  · simp [Route.get_distance_between, List.range', level_segment]

/-- C32, amended: `get_distance_between` returns 0 when either index exceeds the
number `n` of segments; an index equal to `n` is the end of the half-open range,
and `get_distance_between(k, n)` for `k ≤ n` is the sum of the distances of the
segments from `k` on. -/
theorem C32_distance_between_past_the_end {α : Type} [LinearOrderedField α]
    (route : Route α) (i j : Nat)
    (h : i > route.get_num_segments ∨ j > route.get_num_segments) :
    route.get_distance_between i j = 0 ∧
      (∀ k, k ≤ route.get_num_segments →
        route.get_distance_between k route.get_num_segments
          = ∑ l ∈ Finset.Ico k route.get_num_segments, (route.get_segment l).distance) := by
  unfold Route.get_num_segments at h ⊢
  constructor
  · unfold Route.get_distance_between
    by_cases hij : i = j
    · rw [if_pos hij]
    · rw [if_neg hij]
      by_cases hgt : i > j
      · simp only [if_pos hgt]
        rw [if_pos (by rcases h with h | h; exact Or.inr h; exact Or.inr (by omega))]
      · simp only [if_neg hgt]
        rw [if_pos (by rcases h with h | h; exact Or.inr (by omega); exact Or.inr h)]
  · intro k hk
    exact (Route.get_distance_between_ordered route k _ hk le_rfl).1

/-- C32 amended, on a route of one segment: indices 2 and 7 exceed the number of
segments and give 0. -/
theorem C32_distance_between_past_the_end_witness :
    Route.get_distance_between
        (⟨[level_segment 5 SegmentEndCondition.END_OF_RACE]⟩ : Route ℚ) 0 2 = 0 ∧
      Route.get_distance_between
        (⟨[level_segment 5 SegmentEndCondition.END_OF_RACE]⟩ : Route ℚ) 7 0 = 0 :=
  ⟨(C32_distance_between_past_the_end _ 0 2 (Or.inr (by simp [Route.get_num_segments]))).1,
    (C32_distance_between_past_the_end _ 7 0 (Or.inl (by simp [Route.get_num_segments]))).1⟩

/-- C33: on splines sorted by start time, the first being the earliest,
`get_weather_at` throws exactly when `time` precedes the start time of the
first spline; otherwise it evaluates a spline that starts at or before `time`,
the last such in the vector, so that no spline starting at or before `time`
starts later. -/
theorem C33_get_weather_at_bounds_error {α : Type} [LinearOrderedField α]
    (w : SplineWeather α) (first : SplineAndStartTime α)
    (rest : List (SplineAndStartTime α)) (weather_station time : α)
    (hne : w.weather_splines = first :: rest)
    (hsorted : w.weather_splines.Pairwise (fun a b => a.start_time ≤ b.start_time)) :
    (∀ s ∈ w.weather_splines, first.start_time ≤ s.start_time) ∧
      (w.get_weather_at weather_station time = none ↔ time < first.start_time) ∧
      (first.start_time ≤ time →
        ∃ (k : Nat) (s : SplineAndStartTime α), w.weather_splines.get? k = some s ∧
          s.start_time ≤ time ∧
          (∀ (j : Nat) (s' : SplineAndStartTime α), w.weather_splines.get? j = some s' →
            s'.start_time ≤ time → j ≤ k ∧ s'.start_time ≤ s.start_time) ∧
          w.get_weather_at weather_station time
            = some (data_point w.columns (s.weather_spline time weather_station))) := by
  have hub := SplineWeather.upper_bound_le time w.weather_splines
  have hspec := SplineWeather.upper_bound_spec time w.weather_splines hsorted
  have hfirst : w.weather_splines.get? 0 = some first := by rw [hne]; rfl
  have h0 : upper_bound time w.weather_splines = 0 ↔ time < first.start_time := by
    have := hspec 0 first hfirst
    constructor
    · intro h; rw [h] at this
      exact not_le.mp (fun hle => absurd (this.mpr hle) (by omega))
    · intro h
      by_contra hpos
      exact absurd (this.mp (Nat.pos_of_ne_zero hpos)) (not_le.mpr h)
  refine ⟨?_, ?_, ?_⟩
  · intro s hs
    rw [hne] at hs hsorted
    rw [List.pairwise_cons] at hsorted
    rcases List.mem_cons.mp hs with h | h
    · rw [h]
    · exact hsorted.1 s h
  · unfold get_weather_at
    simp only
    by_cases hz : upper_bound time w.weather_splines = 0
    · rw [if_pos hz]; exact ⟨fun _ => h0.mp hz, fun _ => rfl⟩
    · rw [if_neg hz]
      have hlt : upper_bound time w.weather_splines - 1 < w.weather_splines.length := by omega
      rw [List.get?_eq_get hlt]
      constructor
      · intro h; simp at h
      · intro h; exact absurd (h0.mpr h) hz
  · intro hle
    have hz : upper_bound time w.weather_splines ≠ 0 := fun h => absurd (h0.mp h) (not_lt.mpr hle)
    have hlt : upper_bound time w.weather_splines - 1 < w.weather_splines.length := by omega
    refine ⟨upper_bound time w.weather_splines - 1, w.weather_splines.get ⟨_, hlt⟩,
      List.get?_eq_get hlt, ?_, ?_, ?_⟩
    · exact (hspec _ _ (List.get?_eq_get hlt)).mp (by omega)
    · intro j s' hj hs'
      have hjlt := (hspec j s' hj).mpr hs'
      refine ⟨by omega, ?_⟩
      have hjk : j ≤ upper_bound time w.weather_splines - 1 := by omega
      rcases Nat.eq_or_lt_of_le hjk with heq | hlt'
      · rw [List.get?_eq_get (by omega : j < w.weather_splines.length)] at hj
        have := Option.some.inj hj
        rw [← this]
        simp only [heq, le_refl]
      · have hj' : j < w.weather_splines.length := by omega
        rw [List.get?_eq_get hj'] at hj
        rw [← Option.some.inj hj]
        exact List.pairwise_iff_get.mp hsorted ⟨j, hj'⟩ ⟨_, hlt⟩ hlt'
    · unfold get_weather_at
      simp only
      rw [if_neg hz, List.get?_eq_get hlt]
      rfl

/-- C33 on two splines starting at 100 and 200: a query at 50 throws, a query at
150 evaluates the first spline and a query at 200 the second. -/
theorem C33_get_weather_at_witness :
    SplineWeather.get_weather_at
        (⟨⟨2, 3, 4, 5, 6, 7⟩, [⟨100, fun _ _ _ => 1⟩, ⟨200, fun _ _ _ => 2⟩]⟩ : SplineWeather ℚ)
        0 50 = none ∧
      SplineWeather.get_weather_at
        (⟨⟨2, 3, 4, 5, 6, 7⟩, [⟨100, fun _ _ _ => 1⟩, ⟨200, fun _ _ _ => 2⟩]⟩ : SplineWeather ℚ)
        0 150 = some (data_point ⟨2, 3, 4, 5, 6, 7⟩ fun _ => 1) ∧
      SplineWeather.get_weather_at
        (⟨⟨2, 3, 4, 5, 6, 7⟩, [⟨100, fun _ _ _ => 1⟩, ⟨200, fun _ _ _ => 2⟩]⟩ : SplineWeather ℚ)
        0 200 = some (data_point ⟨2, 3, 4, 5, 6, 7⟩ fun _ => 2) := by
  have hs : List.Pairwise (fun a b : SplineAndStartTime ℚ => a.start_time ≤ b.start_time)
      [⟨100, fun _ _ _ => 1⟩, ⟨200, fun _ _ _ => 2⟩] := by
    simp only [List.pairwise_cons, List.mem_singleton, forall_eq, List.not_mem_nil,
      false_implies, implies_true, List.Pairwise.nil, and_true]
    norm_num
  have h := fun t => C33_get_weather_at_bounds_error
    (⟨⟨2, 3, 4, 5, 6, 7⟩, [⟨100, fun _ _ _ => 1⟩, ⟨200, fun _ _ _ => 2⟩]⟩ : SplineWeather ℚ)
    ⟨100, fun _ _ _ => 1⟩ [⟨200, fun _ _ _ => 2⟩] 0 t rfl hs
  refine ⟨(h 50).2.1.mpr (by simp only; norm_num), ?_, ?_⟩
  · have hub : upper_bound (150 : ℚ) [⟨100, fun _ _ _ => 1⟩, ⟨200, fun _ _ _ => 2⟩] = 1 := by
      have h1 : ¬ (150 : ℚ) < 100 := by norm_num
      have h2 : (150 : ℚ) < 200 := by norm_num
      simp only [upper_bound, h1, h2, if_true, if_false]
    unfold SplineWeather.get_weather_at
    simp only [hub]
    rfl
  · have hub : upper_bound (200 : ℚ) [⟨100, fun _ _ _ => 1⟩, ⟨200, fun _ _ _ => 2⟩] = 2 := by
      have h1 : ¬ (200 : ℚ) < 100 := by norm_num
      have h2 : ¬ (200 : ℚ) < 200 := by norm_num
      simp only [upper_bound, h1, h2, if_false]
    unfold SplineWeather.get_weather_at
    simp only [hub]
    rfl

/-- C35: an iteration entered before the race end that completes a CONTROL_STOP
segment without a split at `t = current_time + segment_distance / speed`. When
`t < race_end_time`, the racetime and the clock advance by the driving time and
the full 1800 s, and the battery gains `calculate_static_charging_gain` over
`[t, t + 1800]`; when moreover `t + 1800 ≥ race_end_time`, the next iteration is
end-of-day handling: infeasible on the last day, else the next day starts.
When `t = race_end_time`, no dwell is applied. -/
theorem C35_checkpoint_dwell_is_not_clipped {α : Type} [LinearOrderedField α] [FloorRing α]
    (m : LibM α) (car : SolarCar α) (route : Route α) (weather : Weather α)
    (schedule : RaceSchedule α) (speed : α) (s : RaceState α) (segment_distance net_power : α)
    (hd : segment_distance = if s.remaining_segment_distance > 0 then s.remaining_segment_distance
      else (route.get_segment s.current_segment_index).distance)
    (hcs : (route.get_segment s.current_segment_index).end_condition
      = SegmentEndCondition.CONTROL_STOP)
    (hnow : s.current_time < (schedule.day s.current_day).race_end_time)
    (hfit : s.current_time + segment_distance / speed
      ≤ (schedule.day s.current_day).race_end_time)
    (hnet : RaceSegmentRunner.calculate_power_net m car
      (route.get_segment s.current_segment_index)
      (weather.get_weather_during (route.get_segment s.current_segment_index).weather_station
        s.current_time (s.current_time + segment_distance / speed))
      (car.battery.state_of_charge s.energy_remaining) speed = some net_power)
    (hen : 0 ≤ s.energy_remaining + net_power * (segment_distance / speed) / 3600) :
    (s.current_time + segment_distance / speed < (schedule.day s.current_day).race_end_time →
      loop_body m car route weather schedule speed s =
        LoopStep.next
          { energy_remaining := s.energy_remaining
              + net_power * (segment_distance / speed) / 3600
              + calculate_static_charging_gain car weather
                  (route.get_segment s.current_segment_index).weather_station
                  (s.current_time + segment_distance / speed)
                  (s.current_time + segment_distance / speed + 1800),
            total_racetime := s.total_racetime + segment_distance / speed + 1800,
            current_segment_index := s.current_segment_index + 1,
            remaining_segment_distance := 0,
            current_day := s.current_day,
            current_time := s.current_time + segment_distance / speed + 1800 } ∧
      ((schedule.day s.current_day).race_end_time
          ≤ s.current_time + segment_distance / speed + 1800 →
        ∀ s1, loop_body m car route weather schedule speed s = LoopStep.next s1 →
          (s.current_day + 1 ≥ schedule.length ∧
            loop_body m car route weather schedule speed s1 = LoopStep.ret none) ∨
          ∃ s2, loop_body m car route weather schedule speed s1 = LoopStep.next s2 ∧
            s2.current_day = s.current_day + 1 ∧
            s2.current_segment_index = s.current_segment_index + 1 ∧
            s2.total_racetime = s.total_racetime + segment_distance / speed + 1800 ∧
            s2.current_time = (schedule.day (s.current_day + 1)).race_start_time)) ∧
    (s.current_time + segment_distance / speed = (schedule.day s.current_day).race_end_time →
      loop_body m car route weather schedule speed s =
        LoopStep.next
          { energy_remaining := s.energy_remaining
              + net_power * (segment_distance / speed) / 3600,
            total_racetime := s.total_racetime + segment_distance / speed,
            current_segment_index := s.current_segment_index + 1,
            remaining_segment_distance := 0,
            current_day := s.current_day,
            current_time := s.current_time + segment_distance / speed }) := by
  have hbody := loop_body_drive_whole m car route weather schedule speed s segment_distance
    net_power hd hnow hfit hnet hen
  constructor
  · intro hlt
    rw [if_pos ⟨hcs, hlt⟩] at hbody
    refine ⟨hbody, fun hpast s1 hs1 => ?_⟩
    rw [hbody] at hs1
    have e := LoopStep.next.inj hs1
    have hday : s1.current_day = s.current_day := by rw [← e]
    have hend : (schedule.day s1.current_day).race_end_time ≤ s1.current_time := by
      rw [← e]; exact hpast
    have hb1 := loop_body_end_of_day m car route weather schedule speed s1 hend
    by_cases hlast : s1.current_day + 1 ≥ schedule.length
    · rw [if_pos hlast] at hb1
      rw [hday] at hlast
      exact Or.inl ⟨hlast, hb1⟩
    · rw [if_neg hlast] at hb1
      refine Or.inr ⟨_, hb1, ?_, ?_, ?_, ?_⟩
      · simp only [hday]
      · rw [← e]
      · rw [← e]
      · simp only [hday]
  · intro heq
    rw [if_neg (fun h => absurd h.2 (by rw [heq]; exact lt_irrefl _))] at hbody
    exact hbody

/-- C35 at the idle car on a CONTROL_STOP segment of 30 m at 10 m/s from 1000 s:
with the race end at 1010 s the dwell runs to 2803 s, past the race end; with
the race end at 1003 s no dwell is applied. -/
theorem C35_checkpoint_dwell_witness :
    loop_body libm idle_car ⟨[level_segment 30 SegmentEndCondition.CONTROL_STOP,
        level_segment 30 SegmentEndCondition.END_OF_RACE]⟩ (still_weather 0)
        [race_day 1000 1010, race_day 90000 91000] 10 ⟨1000, 0, 0, 0, 0, 1000⟩
      = LoopStep.next ⟨1000, 1803, 1, 0, 0, 2803⟩ ∧
    loop_body libm idle_car ⟨[level_segment 30 SegmentEndCondition.CONTROL_STOP,
        level_segment 30 SegmentEndCondition.END_OF_RACE]⟩ (still_weather 0)
        [race_day 1000 1003, race_day 90000 91000] 10 ⟨1000, 0, 0, 0, 0, 1000⟩
      = LoopStep.next ⟨1000, 3, 1, 0, 0, 1003⟩ := by
  have h1 := (C35_checkpoint_dwell_is_not_clipped libm idle_car
    ⟨[level_segment 30 SegmentEndCondition.CONTROL_STOP,
      level_segment 30 SegmentEndCondition.END_OF_RACE]⟩ (still_weather 0)
    [race_day 1000 1010, race_day 90000 91000] 10 ⟨1000, 0, 0, 0, 0, 1000⟩ 30 0
    (by simp [Route.get_segment, level_segment]) (by simp [Route.get_segment, level_segment])
    (by simp [RaceSchedule.day, race_day]; norm_num)
    (by simp [RaceSchedule.day, race_day]; norm_num)
    (idle_car_power_net libm sqrt_10000 _ (by simp [Route.get_segment, level_segment, RouteSegment.zero]) _ _ _)
    (by norm_num)).1 (by simp [RaceSchedule.day, race_day]; norm_num)
  have h2 := (C35_checkpoint_dwell_is_not_clipped libm idle_car
    ⟨[level_segment 30 SegmentEndCondition.CONTROL_STOP,
      level_segment 30 SegmentEndCondition.END_OF_RACE]⟩ (still_weather 0)
    [race_day 1000 1003, race_day 90000 91000] 10 ⟨1000, 0, 0, 0, 0, 1000⟩ 30 0
    (by simp [Route.get_segment, level_segment]) (by simp [Route.get_segment, level_segment])
    (by simp [RaceSchedule.day, race_day]; norm_num)
    (by simp [RaceSchedule.day, race_day]; norm_num)
    (idle_car_power_net libm sqrt_10000 _ (by simp [Route.get_segment, level_segment, RouteSegment.zero]) _ _ _)
    (by norm_num)).2 (by simp [RaceSchedule.day, race_day]; norm_num)
  refine ⟨h1.1.trans ?_, h2.trans ?_⟩
  · simp only [idle_car_gain]
    norm_num
  · norm_num

/-- C36 fails: for no car, route, weather, schedule and search bounds does the
loop end with a `best_speed ≠ 0` at which `calculate_racetime` is infeasible. -/
theorem C36_counterexample :
    ¬ ∃ (m : LibM ℚ) (car : SolarCar ℚ) (weather : Weather ℚ) (route : Route ℚ)
        (schedule : RaceSchedule ℚ) (minimum_speed maximum_speed precision : ℚ) (fuel : Nat)
        (low high best_speed best_racetime : ℚ),
      bisect (fun speed => calculate_racetime m car route weather schedule speed) precision fuel
          minimum_speed maximum_speed 0 0 = some (low, high, best_speed, best_racetime) ∧
        best_speed ≠ 0 ∧
        calculate_racetime m car route weather schedule best_speed = none := by
  rintro ⟨m, car, weather, route, schedule, lo, hi, p, fuel, l, h, bs, br, hb, hne, hver⟩
  rcases bisect_best _ p fuel lo hi 0 0 l h bs br (Or.inl rfl) hb with h0 | h1
  · exact hne h0
  · rw [hver] at h1
    cases h1

/-- C36, amended: when the loop ends with `best_speed ≠ 0`, the simulator at
`best_speed` returns `best_racetime` again, and `optimize_race` returns
`(best_racetime, best_speed)`: the step-back is not taken. For any simulator. -/
theorem C36_verification_run_repeats_the_loop {α : Type} [LinearOrderedField α]
    (sim : α → Option α) (minimum_speed maximum_speed precision : α) (fuel : Nat)
    (low high best_speed best_racetime : α)
    (hb : bisect sim precision fuel minimum_speed maximum_speed 0 0
      = some (low, high, best_speed, best_racetime))
    (hne : best_speed ≠ 0) :
    sim best_speed = some best_racetime ∧
      search sim minimum_speed maximum_speed precision fuel
        = some (some { racetime := best_racetime, speed := best_speed }) := by
  rcases bisect_best sim precision fuel minimum_speed maximum_speed 0 0 low high best_speed
    best_racetime (Or.inl rfl) hb with h0 | h1
  · exact absurd h0 hne
  · exact ⟨h1, search_of_bisect sim minimum_speed maximum_speed precision fuel low high
      best_speed best_racetime best_racetime hb hne h1⟩

/-- C36 amended, at a simulator feasible up to 2 m/s searched from 1 to 3 with
precision 1: the search returns the pair of the loop, `(98, 2)`. -/
theorem C36_verification_run_witness :
    toy_sim 2 2 = some 98 ∧
      search (toy_sim 2) 1 3 1 3 = some (some { racetime := 98, speed := 2 }) := by
  have hs : toy_sim 2 ((1 + 3) / 2) = some 98 := by
    unfold toy_sim; norm_num
  have hb : bisect (toy_sim 2) 1 3 1 3 0 0 = some (2, 3, 2, 98) := by
    rw [bisect_feasible (toy_sim 2) 1 2 1 3 0 0 98 (by norm_num) hs,
      show ((1 : ℚ) + 3) / 2 = 2 by norm_num,
      bisect_exit (toy_sim 2) 1 1 2 3 2 98 (by norm_num)]
  exact C36_verification_run_repeats_the_loop (toy_sim 2) 1 3 1 3 2 3 2 98 hb (by norm_num)

/-- C37: with the real libm, `pack_resistance > 0` and
`current_voltage(soc) ≥ 0`, a value `x` returned by `calculate_power_net` for the
demand `D = power_out - power_in` satisfies `x ≤ -D`, and `0 ≤ x` when `D < 0`:
the loss lies between 0 and, in the charging case, `-D`. -/
theorem C37_battery_stores_at_most_the_surplus (m : LibM ℝ) (hm : m.IsReal) (car : SolarCar ℝ)
    (route_segment : RouteSegment ℝ) (weather_data : WeatherDataPoint ℝ)
    (state_of_charge speed x : ℝ) (hR : 0 < car.battery.pack_resistance)
    (hV : 0 ≤ car.battery.current_voltage state_of_charge)
    (hx : RaceSegmentRunner.calculate_power_net m car route_segment weather_data state_of_charge
      speed = some x) :
    x ≤ -(RaceSegmentRunner.calculate_power_out m car route_segment weather_data speed
          - RaceSegmentRunner.calculate_power_in car route_segment weather_data) ∧
      (RaceSegmentRunner.calculate_power_out m car route_segment weather_data speed
          - RaceSegmentRunner.calculate_power_in car route_segment weather_data < 0 → 0 ≤ x) ∧
      ∃ loss, car.battery.power_loss m
          (RaceSegmentRunner.calculate_power_out m car route_segment weather_data speed
            - RaceSegmentRunner.calculate_power_in car route_segment weather_data)
          state_of_charge = some loss ∧
        x = -((RaceSegmentRunner.calculate_power_out m car route_segment weather_data speed
            - RaceSegmentRunner.calculate_power_in car route_segment weather_data) + loss) ∧
        0 ≤ loss ∧
        (RaceSegmentRunner.calculate_power_out m car route_segment weather_data speed
            - RaceSegmentRunner.calculate_power_in car route_segment weather_data < 0 →
          loss ≤ -(RaceSegmentRunner.calculate_power_out m car route_segment weather_data speed
            - RaceSegmentRunner.calculate_power_in car route_segment weather_data)) := by
  unfold RaceSegmentRunner.calculate_power_net at hx
  simp only at hx
  generalize RaceSegmentRunner.calculate_power_out m car route_segment weather_data speed
    - RaceSegmentRunner.calculate_power_in car route_segment weather_data = D at hx ⊢
  cases hl : car.battery.power_loss m D state_of_charge with
  | none => rw [hl] at hx; cases hx
  | some loss =>
    rw [hl] at hx
    have hxe : x = -(D + loss) := (Option.some.inj hx).symm
    obtain ⟨c, hc⟩ := Battery.power_loss_eq_square m car.battery D state_of_charge loss hl
    have h0 : 0 ≤ loss := by rw [hc]; exact mul_nonneg (mul_self_nonneg c) hR.le
    have hch : D < 0 → loss ≤ -D := by
      intro hD
      have hdisc : 0 ≤ car.battery.current_voltage state_of_charge
          * car.battery.current_voltage state_of_charge
          - 4 * car.battery.pack_resistance * (-D) := by
        by_contra hcon
        rw [Battery.power_loss_charge m car.battery D state_of_charge hD,
          if_pos (not_le.mp hcon)] at hl
        cases hl
      obtain ⟨loss', hl', _, hle'⟩ := Battery.real_charge_loss m hm car.battery D state_of_charge
        hR hV hD hdisc
      rw [hl] at hl'
      rw [Option.some.inj hl']
      exact hle'
    refine ⟨by rw [hxe]; linarith, fun hD => by rw [hxe]; linarith [hch hD], loss, rfl, hxe, h0,
      hch⟩

/-- C37 at the solar car under 3600 W/m²: it stores 3200 W of a surplus of
3600 W. -/
theorem C37_battery_witness :
    ∃ m : LibM ℝ, m.IsReal ∧
      RaceSegmentRunner.calculate_power_net m (solar_car_over ℝ) RouteSegment.zero
        ⟨⟨0, 0⟩, 3600, 0, 0, 1, 0⟩ 1 10 = some 3200 ∧
      (3200 : ℝ) ≤ -(RaceSegmentRunner.calculate_power_out m (solar_car_over ℝ)
          RouteSegment.zero ⟨⟨0, 0⟩, 3600, 0, 0, 1, 0⟩ 10
        - RaceSegmentRunner.calculate_power_in (solar_car_over ℝ) RouteSegment.zero
          ⟨⟨0, 0⟩, 3600, 0, 0, 1, 0⟩) := by
  obtain ⟨m, hm⟩ := LibM.exists_real
  have hx := real_solar_car_power_net m hm 1 10
  exact ⟨m, hm, hx, (C37_battery_stores_at_most_the_surplus m hm (solar_car_over ℝ)
    RouteSegment.zero ⟨⟨0, 0⟩, 3600, 0, 0, 1, 0⟩ 1 10 3200
    (by simp [solar_car_over]) (by simp [solar_car_over, Battery.current_voltage]) hx).1⟩

/-- C38: for `speed > 0`, a racetime `T` returned by `calculate_racetime` is at
least `total_distance / speed`, and at least that plus 1800 s for each dwell
taken in the run. It holds for every route. -/
theorem C38_racetime_at_least_driving_time {α : Type} [LinearOrderedField α] [FloorRing α]
    (m : LibM α) (car : SolarCar α) (route : Route α) (weather : Weather α)
    (schedule : RaceSchedule α) (speed T : α) (hv : 0 < speed)
    (hT : calculate_racetime m car route weather schedule speed = some T) :
    route.get_total_distance / speed ≤ T ∧
      route.get_total_distance / speed
          + 1800 * (dwells_taken m car route weather schedule speed : α) ≤ T := by
  have hloop := race_loop_enough_fuel m car route weather schedule speed
    (race_fuel route schedule) le_rfl
  rw [hT] at hloop
  have h := race_loop_lower_bound m car route weather schedule speed hv
    (race_fuel route schedule) (initial_state car schedule) T
    (by intro h; simp [initial_state] at h) hloop
  have e1 : (initial_state car schedule).total_racetime = 0 := rfl
  have e2 : (initial_state car schedule).current_segment_index = 0 := rfl
  rw [e1, e2, List.drop_zero, zero_add] at h
  have hk : (0 : α) ≤ 1800 * (dwells_taken m car route weather schedule speed : α) := by
    positivity
  unfold dwells_taken at hk ⊢
  unfold Route.get_total_distance
  exact ⟨by linarith, h⟩

/-- C38 at the idle car on one segment of 30 m at 2 m/s, which takes 15 s. -/
theorem C38_racetime_witness :
    Route.get_total_distance (⟨[level_segment 30 SegmentEndCondition.END_OF_RACE]⟩ : Route ℚ) / 2
        ≤ 15 ∧
      Route.get_total_distance (⟨[level_segment 30 SegmentEndCondition.END_OF_RACE]⟩ : Route ℚ) / 2
        + 1800 * (dwells_taken libm idle_car
            ⟨[level_segment 30 SegmentEndCondition.END_OF_RACE]⟩ (still_weather 0)
            [race_day 1000 2000] 2 : ℚ) ≤ 15 :=
  C38_racetime_at_least_driving_time libm idle_car
    ⟨[level_segment 30 SegmentEndCondition.END_OF_RACE]⟩ (still_weather 0) [race_day 1000 2000]
    2 15 (by norm_num) idle_car_one_segment

end Claims

end Flsim
